import Mathlib

/-!
# RSDKv5 Android audio device (Oboe backend)

A shallow embedding of `RSDKv5/RSDK/Audio/Oboe/OboeAudioDevice.cpp`: the static
state of `RSDK::AudioDevice`, the stream controller (`createStream`,
`shutdownStream`), the engine entry points (`Init`, `FrameInit`), the lifecycle
notifications, the Oboe callbacks and the recovery loop `EnsureAlive`.

Modelling conventions.

* The static fields of `AudioDevice` are the fields of the structure
  `AudioDevice`; every function takes the state and returns the new one.
* `NowMs()` is a parameter `now` of every function that reads the clock (each
  of them reads it exactly once).
* `int`, `long long` and `int32_t` values are `Int`. They are generation
  counters, millisecond timestamps of a steady clock and frame counts; no
  wrap-around is modelled.
* A stream pointer is `Option Nat` (`none` is `nullptr`, `some h` the stream
  object `h`).
* The backend (`oboe::AudioStreamBuilder::openStream`) is outside the program:
  what it answers to the one `openStream` call a function may make is the
  parameter `OpenReply` of that function.
* The mutex, the log output and the memory orderings of the atomics are not
  modelled: every function runs atomically.
* The field `trace` is ghost state. It records, in order, every call made to
  the backend stream and to the mixer, so that "no close, no open" and "how
  many times" are statements about the code.
-/

namespace RSDK

/-- The result code of a backend call: `oboe::Result::OK` or an error code. -/
inductive OboeResult where
  | OK
  | Error (code : Int)
  deriving DecidableEq, Repr

/-- The value `onAudioReady` hands back to the backend. -/
inductive DataCallbackResult where
  | Continue
  | Stop
  deriving DecidableEq, Repr

/-- One call made to the backend or to the mixer, as recorded in the ghost trace. -/
inductive Event where
  /-- Records `builder.openStream(&stream)`. -/
  | openStream
  /-- Records `stream->setBufferSizeInFrames(frames)` on stream `h`. -/
  | setBufferSizeInFrames (h : Nat) (frames : Int)
  /-- Records `stream->requestStart()`. -/
  | requestStart (h : Nat)
  /-- Records `stream->requestStop()`. -/
  | requestStop (h : Nat)
  /-- Records `stream->stop()`. -/
  | stop (h : Nat)
  /-- Records `stream->close()`. -/
  | close (h : Nat)
  /-- Records `ProcessAudioMixing(data, samples)`. -/
  | mix (samples : Int)
  deriving DecidableEq, Repr

/-- What the backend answers to `builder.openStream(&stream)`.

`error`: the result is not `OK`; no stream object is handed out and the
pointer `stream` is left as it was. `okNull`: the result is `OK` but the
pointer written is null. `okStream h burst`: the result is `OK`, the pointer
written is the stream `h`, whose `getFramesPerBurst()` is `burst`. -/
inductive OpenReply where
  | error (code : Int)
  | okNull
  | okStream (h : Nat) (burst : Int)
  deriving DecidableEq, Repr

/-- The static state of `RSDK::AudioDevice` (plus the ghost `trace`). -/
structure AudioDevice where
  contextInitialized : Nat
  status : OboeResult
  stream : Option Nat
  sNeedsRestart : Bool
  sErrorGen : Int
  sLastHandledErrorGen : Int
  sIsResumed : Bool
  sHasWindow : Bool
  sHasFocus : Bool
  sLastCallbackMs : Int
  sDebounceUntilMs : Int
  sWarmupsRemaining : Int
  trace : List Event
  deriving DecidableEq, Repr

namespace AudioDevice

/-- The values of the static initialisers (lines 13-31 of the source). -/
def initial : AudioDevice where
  contextInitialized := 0
  status := OboeResult.OK
  stream := none
  sNeedsRestart := false
  sErrorGen := 0
  sLastHandledErrorGen := 0
  sIsResumed := true
  sHasWindow := true
  sHasFocus := true
  sLastCallbackMs := 0
  sDebounceUntilMs := 0
  sWarmupsRemaining := 0
  trace := []

/-! ## Stream management -/

/-- Embeds `AudioDevice::createStream`: one `openStream` call, answered by `r`. -/
def createStream (r : OpenReply) (s : AudioDevice) : Bool × AudioDevice :=
  let s := { s with trace := s.trace ++ [Event.openStream] }
  match r with
  | OpenReply.error _ => (false, s)
  | OpenReply.okNull => (false, { s with stream := none })
  | OpenReply.okStream h burst =>
    let s := { s with stream := some h }
    let s :=
      if burst > 0 then
        { s with
          trace := s.trace ++ [Event.setBufferSizeInFrames h (burst * 2)]
          sWarmupsRemaining := 3 }
      else
        { s with sWarmupsRemaining := 2 }
    (true, { s with trace := s.trace ++ [Event.requestStart h] })

/-- Embeds `AudioDevice::shutdownStream`: stop and close the stream if there is
one (errors ignored), then clear the handle. -/
def shutdownStream (s : AudioDevice) : Bool × AudioDevice :=
  let s :=
    match s.stream with
    | some h => { s with trace := s.trace ++ [Event.stop h, Event.close h] }
    | none => s
  (true, { s with stream := none })

/-! ## Engine entry points -/

/-- Embeds `AudioDevice::Init`. `createStream` is only called when `stream` is null. -/
def Init (r : OpenReply) (s : AudioDevice) : Bool × AudioDevice :=
  let s := if s.contextInitialized = 0 then { s with contextInitialized := 1 } else s
  if s.stream.isNone then
    let res := createStream r s
    if !res.1 then (false, res.2) else (true, res.2)
  else
    (true, s)

/-! ## Lifecycle hints -/

/-- Embeds `AudioDevice::NotifyAppBackground`. -/
def NotifyAppBackground (now : Int) (s : AudioDevice) : AudioDevice :=
  let s := { s with sIsResumed := false }
  let s := { s with sDebounceUntilMs := now + 1500 }
  (shutdownStream s).2

/-- Embeds `AudioDevice::NotifyAppForeground`. -/
def NotifyAppForeground (now : Int) (s : AudioDevice) : AudioDevice :=
  let s := { s with sIsResumed := true }
  let s := { s with sDebounceUntilMs := now + 300 }
  let s := { s with sNeedsRestart := true }
  { s with sErrorGen := s.sErrorGen + 1 }

/-- Embeds `AudioDevice::NotifyWindowAvailable`. -/
def NotifyWindowAvailable (available : Bool) (now : Int) (s : AudioDevice) : AudioDevice :=
  let s := { s with sHasWindow := available }
  if available then
    let t := now
    if t + 200 > s.sDebounceUntilMs then { s with sDebounceUntilMs := t + 200 } else s
  else s

/-- Embeds `AudioDevice::NotifyFocusChanged`. -/
def NotifyFocusChanged (hasFocus : Bool) (now : Int) (s : AudioDevice) : AudioDevice :=
  let s := { s with sHasFocus := hasFocus }
  if !hasFocus then { s with sDebounceUntilMs := now + 300 } else s

/-! ## Oboe callbacks -/

/-- An audio sample. Only the value `0` (what `memset` writes) is ever inspected. -/
abbrev Sample := Int

/-- The memory behind the `data` pointer, indexed by sample; `none` is a cell
nobody has written yet. -/
abbrev Buffer := Nat → Option Sample

/-- Write `f 0, ..., f (n-1)` to the first `n` cells of a buffer. -/
def fillBuffer (n : Nat) (f : Nat → Sample) (buf : Buffer) : Buffer :=
  fun i => if i < n then some (f i) else buf i

/-- Modelled from the spec: the mixing callback `ProcessAudioMixing`, declared in
`../Audio.hpp`, which is not among the sources. The spec describes it as the
single synchronous call "fill N interleaved samples"; `mixOut` are the samples
the mixer produces for this call. -/
def ProcessAudioMixing (mixOut : Nat → Sample) (data : Buffer) (samples : Int) : Buffer :=
  fillBuffer samples.toNat mixOut data

/-- Embeds `AudioDevice::onAudioReady`. `sp` is the stream pointer the backend
passes, `data` the buffer pointer (`none` is `nullptr`). `AUDIO_CHANNELS` is a
macro of `../Audio.hpp` and is taken as a parameter. Returns the callback result,
the new state and the buffer. -/
def onAudioReady (AUDIO_CHANNELS : Nat) (mixOut : Nat → Sample) (now : Int)
    (sp : Option Nat) (data : Option Buffer) (numFrames : Int) (s : AudioDevice) :
    DataCallbackResult × AudioDevice × Option Buffer :=
  match data with
  | none => (DataCallbackResult.Stop, s, none)
  | some buf =>
    if sp ≠ s.stream ∨ numFrames ≤ 0 then (DataCallbackResult.Stop, s, some buf)
    else
      let s := { s with sLastCallbackMs := now }
      if s.sWarmupsRemaining > 0 ∨ s.sNeedsRestart = true then
        let buf := fillBuffer (numFrames * AUDIO_CHANNELS).toNat (fun _ => 0) buf
        let w := s.sWarmupsRemaining
        let s := if w > 0 then { s with sWarmupsRemaining := w - 1 } else s
        (DataCallbackResult.Continue, s, some buf)
      else
        let s := { s with trace := s.trace ++ [Event.mix (numFrames * AUDIO_CHANNELS)] }
        let buf := ProcessAudioMixing mixOut buf (numFrames * AUDIO_CHANNELS)
        (DataCallbackResult.Continue, s, some buf)

/-- Embeds `AudioDevice::onErrorBeforeClose`: it only logs. -/
def onErrorBeforeClose (s : AudioDevice) : AudioDevice := s

/-- Embeds `AudioDevice::onErrorAfterClose`. -/
def onErrorAfterClose (now : Int) (s : AudioDevice) : AudioDevice :=
  let s := { s with sNeedsRestart := true }
  let s := { s with sErrorGen := s.sErrorGen + 1 }
  { s with sDebounceUntilMs := now + 250 }

/-! ## Recovery loop -/

/-- The condition of step 1 of `EnsureAlive`: a stream exists, a callback time
is recorded and it is more than 2000 ms old. -/
def stuck (now : Int) (s : AudioDevice) : Bool :=
  s.stream.isSome && decide (s.sLastCallbackMs > 0) && decide (now - s.sLastCallbackMs > 2000)

/-- Step 1 of `EnsureAlive` (source lines 245-254): passive stuck detection. -/
def detectStuck (now : Int) (s : AudioDevice) : AudioDevice :=
  let lastCb := s.sLastCallbackMs
  if s.stream.isSome ∧ lastCb > 0 then
    let dt := now - lastCb
    if dt > 2000 then
      let s := { s with sNeedsRestart := true }
      { s with sErrorGen := s.sErrorGen + 1 }
    else s
  else s

/-- The condition under which step 2 of `EnsureAlive` goes on to rebuild once a
restart is pending with an unhandled generation: the negation of the test of
source lines 265-268. -/
def gateOpen (now : Int) (s : AudioDevice) : Bool :=
  !(!s.sIsResumed || !s.sHasWindow || !s.sHasFocus || decide (now < s.sDebounceUntilMs))

/-- Step 2 of `EnsureAlive` (source lines 256-286): the gated rebuild. -/
def rebuildIfDue (now : Int) (r : OpenReply) (s : AudioDevice) : AudioDevice :=
  if !s.sNeedsRestart then s
  else
    let gen := s.sErrorGen
    if gen = s.sLastHandledErrorGen then s
    else if !s.sIsResumed || !s.sHasWindow || !s.sHasFocus
        || decide (now < s.sDebounceUntilMs) then s
    else
      let s := { s with sLastHandledErrorGen := gen }
      let s := (shutdownStream s).2
      let res := createStream r s
      if res.1 then { res.2 with sNeedsRestart := false } else res.2

/-- Embeds `AudioDevice::EnsureAlive`: stuck detection, then the gated rebuild.
`r` answers the `openStream` call of the rebuild, if one is made. -/
def EnsureAlive (now : Int) (r : OpenReply) (s : AudioDevice) : AudioDevice :=
  rebuildIfDue now r (detectStuck now s)

/-- Embeds `AudioDevice::FrameInit`. When `status` is not `OK` the source
dereferences `stream` without a null check; `none` is that null dereference.
`stream->close()` does not clear the handle, so the `Init` that follows sees a
non-null `stream`. `r1` answers the rebuild of `EnsureAlive`, `r2` the `Init`. -/
def FrameInit (now : Int) (r1 r2 : OpenReply) (s : AudioDevice) : Option AudioDevice :=
  let s := EnsureAlive now r1 s
  if s.status ≠ OboeResult.OK then
    match s.stream with
    | none => none
    | some h =>
      let s := { s with trace := s.trace ++ [Event.requestStop h] }
      let s := { s with trace := s.trace ++ [Event.close h] }
      some (Init r2 s).2
  else some s

/-! ## Sequences of operations -/

/-- One call into the audio device, with the clock reading and the backend
answers it will meet. -/
inductive Op where
  | init (r : OpenReply)
  | frameInit (now : Int) (r1 r2 : OpenReply)
  | ensureAlive (now : Int) (r : OpenReply)
  | background (now : Int)
  | foreground (now : Int)
  | window (available : Bool) (now : Int)
  | focus (hasFocus : Bool) (now : Int)
  | audioReady (mixOut : Nat → Sample) (now : Int) (sp : Option Nat) (data : Option Buffer)
      (numFrames : Int)
  | errorBeforeClose
  | errorAfterClose (now : Int)

/-- Run one operation; `none` only for the null dereference of `FrameInit`. -/
def step (AUDIO_CHANNELS : Nat) (op : Op) (s : AudioDevice) : Option AudioDevice :=
  match op with
  | Op.init r => some (Init r s).2
  | Op.frameInit now r1 r2 => FrameInit now r1 r2 s
  | Op.ensureAlive now r => some (EnsureAlive now r s)
  | Op.background now => some (NotifyAppBackground now s)
  | Op.foreground now => some (NotifyAppForeground now s)
  | Op.window a now => some (NotifyWindowAvailable a now s)
  | Op.focus f now => some (NotifyFocusChanged f now s)
  | Op.audioReady mixOut now sp data numFrames =>
    some (onAudioReady AUDIO_CHANNELS mixOut now sp data numFrames s).2.1
  | Op.errorBeforeClose => some (onErrorBeforeClose s)
  | Op.errorAfterClose now => some (onErrorAfterClose now s)

/-- Run a sequence of operations from left to right. -/
def run (AUDIO_CHANNELS : Nat) : List Op → AudioDevice → Option AudioDevice
  | [], s => some s
  | op :: ops, s =>
    match step AUDIO_CHANNELS op s with
    | some s' => run AUDIO_CHANNELS ops s'
    | none => none

/-- The number of `openStream` calls recorded in a trace. -/
def opens (t : List Event) : Nat := t.count Event.openStream

/-- The number of `close` calls recorded in a trace. -/
def closes (t : List Event) : Nat :=
  (t.filter fun e => match e with
    | Event.close _ => true
    | _ => false).length

/-! ## Scenario states -/

/-- A state with a stream open, a restart pending with an unhandled generation,
the debounce deadline long past, and the focus lost. -/
def c1State : AudioDevice :=
  { initial with
    stream := some 1, sNeedsRestart := true, sErrorGen := 1, sHasFocus := false,
    sWarmupsRemaining := 3 }

/-- Scenario of C2, start: `NotifyAppForeground` at clock 0 on the initial state.
A restart is pending with generation 1 (handled: 0), the three flags are true
and the deadline is 300. -/
def c2Start : AudioDevice := NotifyAppForeground 0 initial

/-- Scenario of C2, frame 1: `EnsureAlive` at clock 1000, `openStream` fails. -/
def c2Frame1 : AudioDevice := EnsureAlive 1000 (OpenReply.error (-1)) c2Start

/-- Scenario of C2, frame 2: `EnsureAlive` at clock 1016, `openStream` would fail. -/
def c2Frame2 : AudioDevice := EnsureAlive 1016 (OpenReply.error (-1)) c2Frame1

/-- Scenario of C2, frame 3: `EnsureAlive` at clock 1032, `openStream` would fail. -/
def c2Frame3 : AudioDevice := EnsureAlive 1032 (OpenReply.error (-1)) c2Frame2

/-- Scenario of C2, frame 4: `EnsureAlive` at clock 1048, `openStream` would succeed. -/
def c2Frame4 : AudioDevice := EnsureAlive 1048 (OpenReply.okStream 7 192) c2Frame3

/-! ## Sequences of lifecycle notifications -/

/-- The four lifecycle notifications with their arguments. -/
inductive Notification where
  | background
  | foreground
  | window (available : Bool)
  | focus (hasFocus : Bool)
  deriving DecidableEq, Repr

/-- Issue one notification at clock reading `now`. -/
def notify (n : Notification) (now : Int) (s : AudioDevice) : AudioDevice :=
  match n with
  | Notification.background => NotifyAppBackground now s
  | Notification.foreground => NotifyAppForeground now s
  | Notification.window a => NotifyWindowAvailable a now s
  | Notification.focus f => NotifyFocusChanged f now s

/-- Issue a sequence of notifications, each with its clock reading, left to right. -/
def notifyAll : List (Notification × Int) → AudioDevice → AudioDevice
  | [], s => s
  | (n, t) :: rest, s => notifyAll rest (notify n t s)

/-- Scenario of C4: `NotifyAppBackground` at clock 0 on the initial state. -/
def c4Before : AudioDevice := notifyAll [(Notification.background, 0)] initial

/-- Scenario of C4: then `NotifyFocusChanged(false)` at clock 10. -/
def c4After : AudioDevice := notify (Notification.focus false) 10 c4Before

/-- Scenario of C9: `NotifyAppBackground` at clock 0 on the initial state. -/
def c9Before : AudioDevice := NotifyAppBackground 0 initial

/-- Scenario of C9: then `NotifyAppForeground` at clock 50. -/
def c9After : AudioDevice := NotifyAppForeground 50 c9Before

/-- A buffer no cell of which has been written. -/
def emptyBuffer : Buffer := fun _ => none

/-- The cell `i` of the buffer a callback hands back (`none` also when the
buffer pointer is null). -/
def cellAfter (out : DataCallbackResult × AudioDevice × Option Buffer) (i : Nat) :
    Option Sample :=
  match out.2.2 with
  | some b => b i
  | none => none

/-- A state with stream 2 open, warmed up and no restart pending. -/
def liveState : AudioDevice :=
  { initial with contextInitialized := 1, stream := some 2, sLastCallbackMs := 900 }

/-- Scenario of C7: a callback for the stale stream 1 while stream 2 is the current
one, with a non-null buffer and 64 frames, at clock 1000. -/
def c7Out : DataCallbackResult × AudioDevice × Option Buffer :=
  onAudioReady 2 (fun i => (i : Int) + 1) 1000 (some 1) (some emptyBuffer) 64 liveState

/-- Scenario of C10: a callback for the current stream 2 with a null buffer, at
clock 5000. -/
def c10Out : DataCallbackResult × AudioDevice × Option Buffer :=
  onAudioReady 2 (fun i => (i : Int) + 1) 5000 (some 2) none 64 liveState

/-- Call `EnsureAlive` once a frame, each frame with its clock reading and the
answer the backend would give to an `openStream` call. -/
def runFrames : List (Int × OpenReply) → AudioDevice → AudioDevice
  | [], s => s
  | (now, r) :: rest, s => runFrames rest (EnsureAlive now r s)

/-- Scenario of C5: a state with stream 1 open and the window gone. -/
def c5State : AudioDevice :=
  { initial with contextInitialized := 1, stream := some 1, sHasWindow := false }

/-- The arguments of one callback delivered for the current stream with a non-null
buffer: the samples the mixer would produce, the clock reading, the buffer and
the frame count. -/
structure AudioCall where
  mixOut : Nat → Sample
  now : Int
  buf : Buffer
  numFrames : Int

/-- Deliver one callback for the current stream with a non-null buffer. -/
def deliver (AUDIO_CHANNELS : Nat) (c : AudioCall) (s : AudioDevice) :
    DataCallbackResult × AudioDevice × Option Buffer :=
  onAudioReady AUDIO_CHANNELS c.mixOut c.now s.stream (some c.buf) c.numFrames s

/-- The state after delivering a sequence of callbacks, left to right. -/
def deliverAll (AUDIO_CHANNELS : Nat) : List AudioCall → AudioDevice → AudioDevice
  | [], s => s
  | c :: cs, s => deliverAll AUDIO_CHANNELS cs (deliver AUDIO_CHANNELS c s).2.1

/-- Every callback of the sequence, delivered in order, returns `Continue`, hands
back its `numFrames * AUDIO_CHANNELS` samples all zero, and makes no call to the
mixer or the backend (the trace is unchanged). -/
def allSilent (AUDIO_CHANNELS : Nat) : List AudioCall → AudioDevice → Prop
  | [], _ => True
  | c :: cs, s =>
    (deliver AUDIO_CHANNELS c s).1 = DataCallbackResult.Continue ∧
    (∀ i, i < (c.numFrames * AUDIO_CHANNELS).toNat →
      cellAfter (deliver AUDIO_CHANNELS c s) i = some 0) ∧
    (deliver AUDIO_CHANNELS c s).2.1.trace = s.trace ∧
    allSilent AUDIO_CHANNELS cs (deliver AUDIO_CHANNELS c s).2.1

/-- Scenario of C8: a callback at clock `t` with an empty buffer of 64 frames, for
which the mixer has the samples 1, 2, 3, ... pending. -/
def c8Call (t : Int) : AudioCall :=
  { mixOut := fun i => (i : Int) + 1, now := t, buf := emptyBuffer, numFrames := 64 }

/-- Scenario of C6, step 1: `Init` on the initial state opens stream 1. -/
def c6Opened : AudioDevice := (Init (OpenReply.okStream 1 192) initial).2

/-- Scenario of C6, step 2: stream 1 delivers one callback at clock 1000. -/
def c6Played : AudioDevice := (deliver 2 (c8Call 1000) c6Opened).2.1

/-- Scenario of C6, step 3: `NotifyAppBackground` at clock 1100 closes stream 1. -/
def c6Background : AudioDevice := NotifyAppBackground 1100 c6Played

/-- Scenario of C6, step 4: `NotifyAppForeground` at clock 100000. -/
def c6Foreground : AudioDevice := NotifyAppForeground 100000 c6Background

/-- Scenario of C6, step 5: `EnsureAlive` at clock 100300 rebuilds; the backend
opens stream 2. -/
def c6Rebuilt : AudioDevice := EnsureAlive 100300 (OpenReply.okStream 2 192) c6Foreground

/-- Scenario of C6, step 6: the next frame, `EnsureAlive` at clock 100316, with no
callback of stream 2 in between. -/
def c6NextFrame : AudioDevice := EnsureAlive 100316 (OpenReply.okStream 3 192) c6Rebuilt

/-- Scenario of C6, variant: after the background of step 3, `Init` at a later
time opens stream 4. -/
def c6Reopened : AudioDevice := (Init (OpenReply.okStream 4 192) c6Background).2

/-! ## The two phases of the deduplication scenario -/

/-- The clock reading of a per-frame operation (`FrameInit` or `EnsureAlive`). -/
def frameClock : Op → Option Int
  | Op.frameInit now _ _ => some now
  | Op.ensureAlive now _ => some now
  | _ => none

/-- The number of error signals an operation raises when run in state `s`: 1 for
an `onErrorAfterClose` call, 1 for a per-frame call whose stuck detection fires,
0 otherwise. -/
def errorSignals (op : Op) (s : AudioDevice) : Nat :=
  match op with
  | Op.errorAfterClose _ => 1
  | Op.ensureAlive now _ => if stuck now s then 1 else 0
  | Op.frameInit now _ _ => if stuck now s then 1 else 0
  | _ => 0

/-- Run a sequence of operations during which the gate is closed: every per-frame
operation of the sequence must meet a closed gate (`none` otherwise). Returns the
final state and the number of error signals raised on the way. -/
def closedPhase (AUDIO_CHANNELS : Nat) : List Op → AudioDevice → Option (AudioDevice × Nat)
  | [], s => some (s, 0)
  | op :: ops, s =>
    let gateMet :=
      match frameClock op with
      | some now => gateOpen now s
      | none => false
    if gateMet then none
    else
      match step AUDIO_CHANNELS op s with
      | none => none
      | some s' =>
        match closedPhase AUDIO_CHANNELS ops s' with
        | none => none
        | some (s'', n) => some (s'', errorSignals op s + n)

/-- Run the calls that follow the first `EnsureAlive` made with the gate open: a
sequence of `EnsureAlive` calls and real-time callbacks, with no error callback
and no notification among them, in which every `EnsureAlive` call meets an open
gate (`none` otherwise). Returns the final state and the number of these
`EnsureAlive` calls whose stuck detection fires. -/
def laterFrames (AUDIO_CHANNELS : Nat) : List Op → AudioDevice → Option (AudioDevice × Nat)
  | [], s => some (s, 0)
  | Op.ensureAlive now r :: ops, s =>
    if gateOpen now s then
      match laterFrames AUDIO_CHANNELS ops (EnsureAlive now r s) with
      | some (s', k) => some (s', (if stuck now s then 1 else 0) + k)
      | none => none
    else none
  | Op.audioReady mixOut now sp data numFrames :: ops, s =>
    laterFrames AUDIO_CHANNELS ops
      (onAudioReady AUDIO_CHANNELS mixOut now sp data numFrames s).2.1
  | _ :: _, _ => none

/-- Run the calls made once the gate has opened: real-time callbacks, then a first
`EnsureAlive` call that meets an open gate (whether or not its own stuck detection
fires), then the calls of `laterFrames`. There is no error callback and no
notification among them and at least one `EnsureAlive` call (`none` otherwise).
Returns the final state and the number of `EnsureAlive` calls after the first
whose stuck detection fires. -/
def gateOpenPhase (AUDIO_CHANNELS : Nat) : List Op → AudioDevice → Option (AudioDevice × Nat)
  | [], _ => none
  | Op.ensureAlive now r :: ops, s =>
    if gateOpen now s then laterFrames AUDIO_CHANNELS ops (EnsureAlive now r s) else none
  | Op.audioReady mixOut now sp data numFrames :: ops, s =>
    gateOpenPhase AUDIO_CHANNELS ops
      (onAudioReady AUDIO_CHANNELS mixOut now sp data numFrames s).2.1
  | _ :: _, _ => none

/-- Scenario of C3, the signals: from the initial state, `Init` opens stream 1 and
`onErrorAfterClose` arrives at clock 1000 (one error signal; the deadline becomes
1250). -/
def c3Signals : List Op :=
  [Op.init (OpenReply.okStream 1 192), Op.errorAfterClose 1000]

/-- Scenario of C3, after the gate has opened: `EnsureAlive` at clock 1300 (the
rebuild, opening stream 2), a callback of stream 2 at clock 1310, then
`EnsureAlive` at clock 3400, more than 2000 ms after that callback. -/
def c3Frames : List Op :=
  [Op.ensureAlive 1300 (OpenReply.okStream 2 192),
   Op.audioReady (fun i => (i : Int) + 1) 1310 (some 2) (some emptyBuffer) 64,
   Op.ensureAlive 3400 (OpenReply.okStream 3 192)]

/-- Scenario of C3: the state when the signals have arrived. -/
def c3Pending : AudioDevice := ((run 2 c3Signals initial).getD initial)

/-- Scenario of C3: the state in which the second `EnsureAlive` is called. -/
def c3Mid : AudioDevice := ((run 2 (c3Frames.take 2) c3Pending).getD initial)

/-- Scenario of C3: the state after the frames. -/
def c3Final : AudioDevice := ((run 2 c3Frames c3Pending).getD initial)

/-- Scenario of C3 as amended, the signals: from the initial state, `Init` opens
stream 1, which delivers its last callback at clock 1000; the focus is lost at
clock 1100; `EnsureAlive` at clocks 3100 and 3116 finds the stream stuck (two
signals, the gate is closed by the focus); `onErrorAfterClose` arrives at clock
3200 (a third signal; the deadline becomes 3450); the focus returns at clock 3300. -/
def c3StuckSignals : List Op :=
  [Op.init (OpenReply.okStream 1 192),
   Op.audioReady (fun i => (i : Int) + 1) 1000 (some 1) (some emptyBuffer) 64,
   Op.focus false 1100,
   Op.ensureAlive 3100 (OpenReply.okStream 5 192),
   Op.ensureAlive 3116 (OpenReply.okStream 6 192),
   Op.errorAfterClose 3200,
   Op.focus true 3300]

/-- Scenario of C3 as amended: the state when the three signals have arrived. -/
def c3StuckPending : AudioDevice := ((run 2 c3StuckSignals initial).getD initial)

/-- Scenario of C3 as amended, after the gate has opened: `EnsureAlive` at clock
3500 (its own stuck detection fires once more, then it rebuilds, opening stream
2), a callback of stream 2 at clock 3510, and `EnsureAlive` at clocks 3516 and
3532. -/
def c3StuckFrames : List Op :=
  [Op.ensureAlive 3500 (OpenReply.okStream 2 192),
   Op.audioReady (fun i => (i : Int) + 1) 3510 (some 2) (some emptyBuffer) 64,
   Op.ensureAlive 3516 (OpenReply.okStream 3 192),
   Op.ensureAlive 3532 (OpenReply.okStream 4 192)]

/-- Scenario of C3 as amended: the state after those frames. -/
def c3StuckFinal : AudioDevice := ((run 2 c3StuckFrames c3StuckPending).getD initial)

/-- Scenario of C12: `NotifyAppForeground` at clock 0 on the initial state. -/
def c12Once : AudioDevice := NotifyAppForeground 0 initial

/-- Scenario of C12: `NotifyAppForeground` at clock 0 a second time. -/
def c12Twice : AudioDevice := NotifyAppForeground 0 c12Once

/-- The operations that are a call of `NotifyWindowAvailable`. -/
def isWindowNotification : Op → Bool
  | Op.window _ _ => true
  | _ => false

/-- The operations that are a call of `NotifyFocusChanged`. -/
def isFocusNotification : Op → Bool
  | Op.focus _ _ => true
  | _ => false

/-- The operations that are a call of `NotifyAppBackground` or of
`NotifyAppForeground`. -/
def isResumeNotification : Op → Bool
  | Op.background _ => true
  | Op.foreground _ => true
  | _ => false

/-- Scenario of C20: `NotifyAppBackground` at clock 0 on the initial state. -/
def c20Paused : AudioDevice := NotifyAppBackground 0 initial

/-- Scenario of C20: then `NotifyAppForeground` at clock 10. -/
def c20Resumed : AudioDevice := NotifyAppForeground 10 c20Paused

/-- Scenario of C11: the operations that lead from the initial state to a state
with stream 1 open and its last callback at clock 1000. -/
def c11History : List Op :=
  [Op.init (OpenReply.okStream 1 192),
   Op.audioReady (fun i => (i : Int) + 1) 1000 (some 1) (some emptyBuffer) 64]

/-- Scenario of C22: stream 3 is current and warmed up; a callback arrives for the
stream pointer 9 with a non-null buffer and 128 frames, at clock 7000. -/
def c22Out : DataCallbackResult × AudioDevice × Option Buffer :=
  onAudioReady 2 (fun i => (i : Int) + 1) 7000 (some 9) (some emptyBuffer) 128
    { liveState with stream := some 3 }

/-- The backend calls `shutdownStream` makes for a handle: a stop and a close of
the stream if there is one. -/
def closeEvents : Option Nat → List Event
  | some h => [Event.stop h, Event.close h]
  | none => []

/-- The backend calls `createStream` makes when the backend answers `r`: the
`openStream` call, then for a stream the buffer-size request (only for a positive
burst size) and the start request. -/
def openEvents : OpenReply → List Event
  | OpenReply.okStream h burst =>
    [Event.openStream]
      ++ (if burst > 0 then [Event.setBufferSizeInFrames h (burst * 2)] else [])
      ++ [Event.requestStart h]
  | _ => [Event.openStream]

/-! ## Generations minted and rebuild attempts along a run -/

/-- The number of generations an operation mints when run in state `s`: 1 for
`NotifyAppForeground`, 1 for `onErrorAfterClose`, 1 for a per-frame call whose
stuck detection fires, 0 otherwise. -/
def mintsOf (op : Op) (s : AudioDevice) : Nat :=
  match op with
  | Op.foreground _ => 1
  | Op.errorAfterClose _ => 1
  | Op.ensureAlive now _ => if stuck now s then 1 else 0
  | Op.frameInit now _ _ => if stuck now s then 1 else 0
  | _ => 0

/-- The number of generations minted while running a sequence of operations. -/
def mintCount (AUDIO_CHANNELS : Nat) : List Op → AudioDevice → Nat
  | [], _ => 0
  | op :: ops, s =>
    match step AUDIO_CHANNELS op s with
    | some s' => mintsOf op s + mintCount AUDIO_CHANNELS ops s'
    | none => 0

/-- The generation at which a per-frame operation makes a rebuild attempt, if it
makes one: the operation is a `FrameInit` or `EnsureAlive` call during which an
`openStream` call is recorded; the generation is `sErrorGen` on its return. -/
def attemptGen (AUDIO_CHANNELS : Nat) (op : Op) (s : AudioDevice) : Option Int :=
  match frameClock op, step AUDIO_CHANNELS op s with
  | some _, some s' => if opens s'.trace = opens s.trace then none else some s'.sErrorGen
  | _, _ => none

/-- The generations of the rebuild attempts made while running a sequence of
operations, in order. -/
def attemptGens (AUDIO_CHANNELS : Nat) : List Op → AudioDevice → List Int
  | [], _ => []
  | op :: ops, s =>
    match step AUDIO_CHANNELS op s with
    | some s' => (attemptGen AUDIO_CHANNELS op s).toList ++ attemptGens AUDIO_CHANNELS ops s'
    | none => []

/-- The operations that are a call of `onAudioReady`. -/
def isCallback : Op → Bool
  | Op.audioReady _ _ _ _ _ => true
  | _ => false

/-- Scenario of C24: foreground at clock 0, a frame before the deadline, the
rebuild at clock 300 (the open fails), an error callback, and a second rebuild
at clock 2000. -/
def c24Ops : List Op :=
  [Op.foreground 0, Op.ensureAlive 100 (OpenReply.okStream 1 192),
   Op.ensureAlive 300 (OpenReply.error (-1)), Op.ensureAlive 316 (OpenReply.okStream 2 192),
   Op.errorAfterClose 1000, Op.frameInit 2000 (OpenReply.okStream 3 0) OpenReply.okNull]

/-- Scenario of C24: the state after `c24Ops`. -/
def c24Final : AudioDevice := (run 2 c24Ops initial).getD initial

end AudioDevice

/-! ## Touch input (`dependencies/android/androidHelpers.cpp`) -/

namespace Touch

/-- A coordinate as the platform passes it (a `jfloat` in the source). It is only
stored, never computed with. -/
abbrev Coord := Int

/-- The value of `AMOTION_EVENT_ACTION_DOWN` in the NDK header `android/input.h`. -/
def AMOTION_EVENT_ACTION_DOWN : Int := 0

/-- The value of `AMOTION_EVENT_ACTION_MOVE` in the NDK header `android/input.h`. -/
def AMOTION_EVENT_ACTION_MOVE : Int := 2

/-- The value of `AMOTION_EVENT_ACTION_POINTER_DOWN` in the NDK header
`android/input.h`. -/
def AMOTION_EVENT_ACTION_POINTER_DOWN : Int := 5

/-- The global `touchInfo` as `nativeOnTouch` uses it. The arrays `x`, `y` and
`down` are memory indexed by the slot number the code computes, whatever it is;
`count` is the unsigned counter. The field `accessed` is ghost state: the slot
numbers the handler has read or written, in order. -/
structure TouchInfo where
  x : Int → Coord
  y : Int → Coord
  down : Int → Bool
  count : Nat
  accessed : List Int

/-- The empty touch state: count 0, no finger down, nothing accessed yet. -/
def empty : TouchInfo where
  x := fun _ => 0
  y := fun _ => 0
  down := fun _ => false
  count := 0
  accessed := []

/-- The loop `for (; count > 0; count--) if (down[count - 1]) break;` started with
`count = n`: the final count and the slots it has read, in order. -/
def releaseScan (down : Int → Bool) : Nat → Nat × List Int
  | 0 => (0, [])
  | n + 1 =>
    if down (n : Int) then (n + 1, [(n : Int)])
    else ((releaseScan down n).1, (n : Int) :: (releaseScan down n).2)

/-- Embeds the JNI function `nativeOnTouch(finger, action, x, y)`. -/
def nativeOnTouch (finger action : Int) (x y : Coord) (t : TouchInfo) : TouchInfo :=
  if finger > 0x10 then t
  else
    let down := action = AMOTION_EVENT_ACTION_DOWN ∨ action = AMOTION_EVENT_ACTION_MOVE
      ∨ action = AMOTION_EVENT_ACTION_POINTER_DOWN
    if down then
      let t := { t with x := fun i => if i = finger then x else t.x i,
                        accessed := t.accessed ++ [finger] }
      let t := { t with y := fun i => if i = finger then y else t.y i,
                        accessed := t.accessed ++ [finger] }
      let t := { t with down := fun i => if i = finger then true else t.down i,
                        accessed := t.accessed ++ [finger] }
      if (t.count : Int) < finger + 1 then { t with count := (finger + 1).toNat } else t
    else
      let t := { t with down := fun i => if i = finger then false else t.down i,
                        accessed := t.accessed ++ [finger] }
      if (t.count : Int) ≥ finger + 1 then
        { t with count := (releaseScan t.down t.count).1,
                 accessed := t.accessed ++ (releaseScan t.down t.count).2 }
      else t

/-- One touch event: finger index, action code and the two coordinates. -/
structure TouchEvent where
  finger : Int
  action : Int
  x : Coord
  y : Coord

/-- Handle a sequence of touch events, left to right. -/
def handleAll : List TouchEvent → TouchInfo → TouchInfo
  | [], t => t
  | e :: es, t => handleAll es (nativeOnTouch e.finger e.action e.x e.y t)

/-- The count is one more than the highest slot marked down, or 0 when no slot is
marked down: every slot marked down lies in `0 .. count - 1`, and if the count is
positive the slot `count - 1` is marked down. -/
def CountTracksHighest (t : TouchInfo) : Prop :=
  (∀ i : Int, t.down i = true → 0 ≤ i ∧ i < (t.count : Int)) ∧
  (0 < t.count → t.down ((t.count : Int) - 1) = true)

/-- Scenario of C30: a `DOWN` event for the finger index -1 on the empty state. -/
def c30Negative : TouchInfo :=
  nativeOnTouch (-1) AMOTION_EVENT_ACTION_DOWN 10 20 empty

end Touch

namespace AudioDevice

/-! ## Basic facts about the recovery loop -/

theorem detectStuck_eq (now : Int) (s : AudioDevice) :
    detectStuck now s =
      if stuck now s then { s with sNeedsRestart := true, sErrorGen := s.sErrorGen + 1 }
      else s := by
  unfold detectStuck stuck
  by_cases h1 : s.stream.isSome = true <;> by_cases h2 : s.sLastCallbackMs > 0 <;>
    by_cases h3 : now - s.sLastCallbackMs > 2000 <;> simp [h1, h2, h3]

theorem detectStuck_stream (now : Int) (s : AudioDevice) :
    (detectStuck now s).stream = s.stream := by
  rw [detectStuck_eq]; split <;> rfl

theorem detectStuck_trace (now : Int) (s : AudioDevice) :
    (detectStuck now s).trace = s.trace := by
  rw [detectStuck_eq]; split <;> rfl

theorem detectStuck_handled (now : Int) (s : AudioDevice) :
    (detectStuck now s).sLastHandledErrorGen = s.sLastHandledErrorGen := by
  rw [detectStuck_eq]; split <;> rfl

theorem detectStuck_warmups (now : Int) (s : AudioDevice) :
    (detectStuck now s).sWarmupsRemaining = s.sWarmupsRemaining := by
  rw [detectStuck_eq]; split <;> rfl

theorem detectStuck_lastCallback (now : Int) (s : AudioDevice) :
    (detectStuck now s).sLastCallbackMs = s.sLastCallbackMs := by
  rw [detectStuck_eq]; split <;> rfl

theorem detectStuck_status (now : Int) (s : AudioDevice) :
    (detectStuck now s).status = s.status := by
  rw [detectStuck_eq]; split <;> rfl

theorem detectStuck_gateOpen (now t : Int) (s : AudioDevice) :
    gateOpen t (detectStuck now s) = gateOpen t s := by
  rw [detectStuck_eq]; split <;> rfl

theorem detectStuck_of_not_stuck (now : Int) (s : AudioDevice) (h : stuck now s = false) :
    detectStuck now s = s := by
  rw [detectStuck_eq]; simp [h]

theorem rebuildIfDue_gate_closed (now : Int) (r : OpenReply) (s : AudioDevice)
    (h : gateOpen now s = false) : rebuildIfDue now r s = s := by
  have hg : (!s.sIsResumed || !s.sHasWindow || !s.sHasFocus
      || decide (now < s.sDebounceUntilMs)) = true := by
    unfold gateOpen at h
    rw [Bool.not_eq_false'] at h
    exact h
  unfold rebuildIfDue
  by_cases h1 : (!s.sNeedsRestart) = true
  · rw [if_pos h1]
  · rw [if_neg h1]
    by_cases h2 : s.sErrorGen = s.sLastHandledErrorGen
    · simp only [h2, if_true]
    · simp only [h2, if_false, hg, if_true]

theorem EnsureAlive_gate_closed (now : Int) (r : OpenReply) (s : AudioDevice)
    (h : gateOpen now s = false) : EnsureAlive now r s = detectStuck now s := by
  unfold EnsureAlive
  exact rebuildIfDue_gate_closed now r _ (by rw [detectStuck_gateOpen]; exact h)

theorem gateOpen_false_of_flag (now : Int) (s : AudioDevice)
    (h : s.sIsResumed = false ∨ s.sHasWindow = false ∨ s.sHasFocus = false) :
    gateOpen now s = false := by
  unfold gateOpen
  rcases h with h | h | h <;> simp [h]

theorem gateOpen_false_of_early (now : Int) (s : AudioDevice)
    (h : now < s.sDebounceUntilMs) : gateOpen now s = false := by
  unfold gateOpen
  simp [h]

/-! ## Basic facts about the stream controller -/

theorem shutdownStream_stream (s : AudioDevice) : (shutdownStream s).2.stream = none := rfl

@[simp]
theorem shutdownStream_contextInitialized (s : AudioDevice) :
    (shutdownStream s).2.contextInitialized = s.contextInitialized := by
  unfold shutdownStream; split <;> rfl

@[simp]
theorem shutdownStream_status (s : AudioDevice) :
    (shutdownStream s).2.status = s.status := by
  unfold shutdownStream; split <;> rfl

@[simp]
theorem shutdownStream_sNeedsRestart (s : AudioDevice) :
    (shutdownStream s).2.sNeedsRestart = s.sNeedsRestart := by
  unfold shutdownStream; split <;> rfl

@[simp]
theorem shutdownStream_sErrorGen (s : AudioDevice) :
    (shutdownStream s).2.sErrorGen = s.sErrorGen := by
  unfold shutdownStream; split <;> rfl

@[simp]
theorem shutdownStream_sLastHandledErrorGen (s : AudioDevice) :
    (shutdownStream s).2.sLastHandledErrorGen = s.sLastHandledErrorGen := by
  unfold shutdownStream; split <;> rfl

@[simp]
theorem shutdownStream_sIsResumed (s : AudioDevice) :
    (shutdownStream s).2.sIsResumed = s.sIsResumed := by
  unfold shutdownStream; split <;> rfl

@[simp]
theorem shutdownStream_sHasWindow (s : AudioDevice) :
    (shutdownStream s).2.sHasWindow = s.sHasWindow := by
  unfold shutdownStream; split <;> rfl

@[simp]
theorem shutdownStream_sHasFocus (s : AudioDevice) :
    (shutdownStream s).2.sHasFocus = s.sHasFocus := by
  unfold shutdownStream; split <;> rfl

@[simp]
theorem shutdownStream_sLastCallbackMs (s : AudioDevice) :
    (shutdownStream s).2.sLastCallbackMs = s.sLastCallbackMs := by
  unfold shutdownStream; split <;> rfl

@[simp]
theorem shutdownStream_sDebounceUntilMs (s : AudioDevice) :
    (shutdownStream s).2.sDebounceUntilMs = s.sDebounceUntilMs := by
  unfold shutdownStream; split <;> rfl

@[simp]
theorem shutdownStream_sWarmupsRemaining (s : AudioDevice) :
    (shutdownStream s).2.sWarmupsRemaining = s.sWarmupsRemaining := by
  unfold shutdownStream; split <;> rfl

theorem shutdownStream_trace (s : AudioDevice) :
    (shutdownStream s).2.trace =
      s.trace ++ (match s.stream with
        | some h => [Event.stop h, Event.close h]
        | none => []) := by
  unfold shutdownStream; split <;> simp

theorem createStream_okStream (h : Nat) (burst : Int) (s : AudioDevice) :
    createStream (OpenReply.okStream h burst) s =
      (true,
        { s with
          stream := some h
          sWarmupsRemaining := if burst > 0 then 3 else 2
          trace := s.trace ++ [Event.openStream]
            ++ (if burst > 0 then [Event.setBufferSizeInFrames h (burst * 2)] else [])
            ++ [Event.requestStart h] }) := by
  unfold createStream
  by_cases hb : burst > 0 <;> simp [hb]

theorem createStream_error (c : Int) (s : AudioDevice) :
    createStream (OpenReply.error c) s
      = (false, { s with trace := s.trace ++ [Event.openStream] }) := rfl

theorem createStream_okNull (s : AudioDevice) :
    createStream OpenReply.okNull s
      = (false, { s with stream := none, trace := s.trace ++ [Event.openStream] }) := rfl

theorem createStream_true_iff (r : OpenReply) (s : AudioDevice) :
    (createStream r s).1 = true ↔ ∃ h burst, r = OpenReply.okStream h burst := by
  cases r with
  | error c => simp [createStream_error]
  | okNull => simp [createStream_okNull]
  | okStream h burst => simp [createStream_okStream]

@[simp]
theorem createStream_contextInitialized (r : OpenReply) (s : AudioDevice) :
    (createStream r s).2.contextInitialized = s.contextInitialized := by
  cases r with
  | error c => rfl
  | okNull => rfl
  | okStream h burst => rw [createStream_okStream]

@[simp]
theorem createStream_status (r : OpenReply) (s : AudioDevice) :
    (createStream r s).2.status = s.status := by
  cases r with
  | error c => rfl
  | okNull => rfl
  | okStream h burst => rw [createStream_okStream]

@[simp]
theorem createStream_sNeedsRestart (r : OpenReply) (s : AudioDevice) :
    (createStream r s).2.sNeedsRestart = s.sNeedsRestart := by
  cases r with
  | error c => rfl
  | okNull => rfl
  | okStream h burst => rw [createStream_okStream]

@[simp]
theorem createStream_sErrorGen (r : OpenReply) (s : AudioDevice) :
    (createStream r s).2.sErrorGen = s.sErrorGen := by
  cases r with
  | error c => rfl
  | okNull => rfl
  | okStream h burst => rw [createStream_okStream]

@[simp]
theorem createStream_sLastHandledErrorGen (r : OpenReply) (s : AudioDevice) :
    (createStream r s).2.sLastHandledErrorGen = s.sLastHandledErrorGen := by
  cases r with
  | error c => rfl
  | okNull => rfl
  | okStream h burst => rw [createStream_okStream]

@[simp]
theorem createStream_sIsResumed (r : OpenReply) (s : AudioDevice) :
    (createStream r s).2.sIsResumed = s.sIsResumed := by
  cases r with
  | error c => rfl
  | okNull => rfl
  | okStream h burst => rw [createStream_okStream]

@[simp]
theorem createStream_sHasWindow (r : OpenReply) (s : AudioDevice) :
    (createStream r s).2.sHasWindow = s.sHasWindow := by
  cases r with
  | error c => rfl
  | okNull => rfl
  | okStream h burst => rw [createStream_okStream]

@[simp]
theorem createStream_sHasFocus (r : OpenReply) (s : AudioDevice) :
    (createStream r s).2.sHasFocus = s.sHasFocus := by
  cases r with
  | error c => rfl
  | okNull => rfl
  | okStream h burst => rw [createStream_okStream]

@[simp]
theorem createStream_sLastCallbackMs (r : OpenReply) (s : AudioDevice) :
    (createStream r s).2.sLastCallbackMs = s.sLastCallbackMs := by
  cases r with
  | error c => rfl
  | okNull => rfl
  | okStream h burst => rw [createStream_okStream]

@[simp]
theorem createStream_sDebounceUntilMs (r : OpenReply) (s : AudioDevice) :
    (createStream r s).2.sDebounceUntilMs = s.sDebounceUntilMs := by
  cases r with
  | error c => rfl
  | okNull => rfl
  | okStream h burst => rw [createStream_okStream]

/-! ## Basic facts about the real-time callback -/

theorem onAudioReady_silent (ch : Nat) (mixOut : Nat → Sample) (now : Int)
    (buf : Buffer) (numFrames : Int) (s : AudioDevice) (hn : numFrames > 0)
    (hw : s.sWarmupsRemaining > 0 ∨ s.sNeedsRestart = true) :
    onAudioReady ch mixOut now s.stream (some buf) numFrames s =
      (DataCallbackResult.Continue,
        { s with
          sLastCallbackMs := now
          sWarmupsRemaining :=
            if s.sWarmupsRemaining > 0 then s.sWarmupsRemaining - 1 else s.sWarmupsRemaining },
        some (fillBuffer (numFrames * ch).toNat (fun _ => 0) buf)) := by
  have hv : ¬ (s.stream ≠ s.stream ∨ numFrames ≤ 0) := by
    rintro (h | h)
    · exact h rfl
    · omega
  simp only [onAudioReady, hv, if_false, hw, if_true]
  by_cases h0 : s.sWarmupsRemaining > 0 <;> simp [h0]

theorem onAudioReady_mixed (ch : Nat) (mixOut : Nat → Sample) (now : Int)
    (buf : Buffer) (numFrames : Int) (s : AudioDevice) (hn : numFrames > 0)
    (hw : ¬ (s.sWarmupsRemaining > 0 ∨ s.sNeedsRestart = true)) :
    onAudioReady ch mixOut now s.stream (some buf) numFrames s =
      (DataCallbackResult.Continue,
        { s with
          sLastCallbackMs := now
          trace := s.trace ++ [Event.mix (numFrames * ch)] },
        some (ProcessAudioMixing mixOut buf (numFrames * ch))) := by
  have hv : ¬ (s.stream ≠ s.stream ∨ numFrames ≤ 0) := by
    rintro (h | h)
    · exact h rfl
    · omega
  simp only [onAudioReady, hv, if_false, hw]

/-! ## Counting backend calls -/

theorem opens_append (a b : List Event) : opens (a ++ b) = opens a + opens b := by
  simp [opens, List.count_append]

theorem closes_append (a b : List Event) : closes (a ++ b) = closes a + closes b := by
  simp [closes, List.filter_append]

theorem shutdownStream_opens (s : AudioDevice) :
    opens (shutdownStream s).2.trace = opens s.trace := by
  rw [shutdownStream_trace, opens_append]
  split <;> simp [opens]

theorem shutdownStream_closes_le (s : AudioDevice) :
    closes (shutdownStream s).2.trace ≤ closes s.trace + 1 := by
  rw [shutdownStream_trace, closes_append]
  split <;> simp [closes]

theorem createStream_opens (r : OpenReply) (s : AudioDevice) :
    opens (createStream r s).2.trace = opens s.trace + 1 := by
  cases r with
  | error c => simp [createStream_error, opens_append, opens]
  | okNull => simp [createStream_okNull, opens_append, opens]
  | okStream h burst =>
    rw [createStream_okStream]
    by_cases hb : burst > 0 <;> simp [hb, opens_append, opens]

theorem createStream_closes (r : OpenReply) (s : AudioDevice) :
    closes (createStream r s).2.trace = closes s.trace := by
  cases r with
  | error c => simp [createStream_error, closes_append, closes]
  | okNull => simp [createStream_okNull, closes_append, closes]
  | okStream h burst =>
    rw [createStream_okStream]
    by_cases hb : burst > 0 <;> simp [hb, closes_append, closes]

/-! ## The restart request under each operation -/

theorem rebuildIfDue_idle (now : Int) (r : OpenReply) (s : AudioDevice)
    (h : s.sNeedsRestart = false ∨ s.sErrorGen = s.sLastHandledErrorGen) :
    rebuildIfDue now r s = s := by
  unfold rebuildIfDue
  rcases h with h | h
  · simp [h]
  · by_cases h1 : (!s.sNeedsRestart) = true
    · rw [if_pos h1]
    · rw [if_neg h1]
      simp only [h, if_true]

theorem rebuildIfDue_due (now : Int) (r : OpenReply) (s : AudioDevice)
    (hp : s.sNeedsRestart = true) (hg : s.sErrorGen ≠ s.sLastHandledErrorGen)
    (ho : gateOpen now s = true) :
    rebuildIfDue now r s =
      if (createStream r
          (shutdownStream { s with sLastHandledErrorGen := s.sErrorGen }).2).1 then
        { (createStream r
            (shutdownStream { s with sLastHandledErrorGen := s.sErrorGen }).2).2 with
          sNeedsRestart := false }
      else
        (createStream r (shutdownStream { s with sLastHandledErrorGen := s.sErrorGen }).2).2 := by
  have hclosed : (!s.sIsResumed || !s.sHasWindow || !s.sHasFocus
      || decide (now < s.sDebounceUntilMs)) = false := by
    unfold gateOpen at ho
    rw [Bool.not_eq_true'] at ho
    exact ho
  unfold rebuildIfDue
  simp only [hp, Bool.not_true, Bool.false_eq_true, if_false, hg, hclosed]

theorem rebuildIfDue_gen (now : Int) (r : OpenReply) (s : AudioDevice) :
    (rebuildIfDue now r s).sErrorGen = s.sErrorGen := by
  by_cases h : s.sNeedsRestart = true ∧ s.sErrorGen ≠ s.sLastHandledErrorGen
      ∧ gateOpen now s = true
  · rw [rebuildIfDue_due now r s h.1 h.2.1 h.2.2]
    split <;> simp
  · by_cases hi : s.sNeedsRestart = false ∨ s.sErrorGen = s.sLastHandledErrorGen
    · rw [rebuildIfDue_idle now r s hi]
    · rw [rebuildIfDue_gate_closed now r s]
      by_contra hc
      apply h
      refine ⟨?_, ?_, by simpa using hc⟩
      · by_contra hp; exact hi (Or.inl (by simpa using hp))
      · intro he; exact hi (Or.inr he)

theorem rebuildIfDue_handled_le (now : Int) (r : OpenReply) (s : AudioDevice)
    (hinv : s.sLastHandledErrorGen ≤ s.sErrorGen) :
    (rebuildIfDue now r s).sLastHandledErrorGen ≤ (rebuildIfDue now r s).sErrorGen := by
  by_cases h : s.sNeedsRestart = true ∧ s.sErrorGen ≠ s.sLastHandledErrorGen
      ∧ gateOpen now s = true
  · rw [rebuildIfDue_due now r s h.1 h.2.1 h.2.2]
    split <;> simp
  · by_cases hi : s.sNeedsRestart = false ∨ s.sErrorGen = s.sLastHandledErrorGen
    · rw [rebuildIfDue_idle now r s hi]; exact hinv
    · rw [rebuildIfDue_gate_closed now r s]
      · exact hinv
      · by_contra hc
        apply h
        refine ⟨?_, ?_, by simpa using hc⟩
        · by_contra hp; exact hi (Or.inl (by simpa using hp))
        · intro he; exact hi (Or.inr he)

theorem detectStuck_gen (now : Int) (s : AudioDevice) :
    (detectStuck now s).sErrorGen = s.sErrorGen + (if stuck now s then 1 else 0) := by
  rw [detectStuck_eq]; split <;> simp

theorem detectStuck_pending (now : Int) (s : AudioDevice) :
    (detectStuck now s).sNeedsRestart = (s.sNeedsRestart || stuck now s) := by
  rw [detectStuck_eq]; split <;> simp [*]

theorem Init_restart (r : OpenReply) (s : AudioDevice) :
    (Init r s).2.sNeedsRestart = s.sNeedsRestart ∧ (Init r s).2.sErrorGen = s.sErrorGen ∧
    (Init r s).2.sLastHandledErrorGen = s.sLastHandledErrorGen := by
  unfold Init
  by_cases hc : s.contextInitialized = 0 <;> by_cases hs : s.stream.isNone = true <;>
    by_cases ho : (createStream r s).1 = true <;> simp [hc, hs] <;> split <;> simp

theorem onAudioReady_restart (ch : Nat) (mixOut : Nat → Sample) (now : Int)
    (sp : Option Nat) (data : Option Buffer) (numFrames : Int) (s : AudioDevice) :
    (onAudioReady ch mixOut now sp data numFrames s).2.1.sNeedsRestart = s.sNeedsRestart ∧
    (onAudioReady ch mixOut now sp data numFrames s).2.1.sErrorGen = s.sErrorGen ∧
    (onAudioReady ch mixOut now sp data numFrames s).2.1.sLastHandledErrorGen
      = s.sLastHandledErrorGen ∧
    opens (onAudioReady ch mixOut now sp data numFrames s).2.1.trace = opens s.trace ∧
    closes (onAudioReady ch mixOut now sp data numFrames s).2.1.trace = closes s.trace := by
  cases data with
  | none => simp [onAudioReady]
  | some buf =>
    by_cases hv : sp ≠ s.stream ∨ numFrames ≤ 0
    · simp [onAudioReady, hv]
    · simp only [onAudioReady, hv, if_false]
      split
      · split <;> simp
      · simp [opens_append, closes_append, opens, closes]

theorem EnsureAlive_inv (now : Int) (r : OpenReply) (s : AudioDevice)
    (hinv : s.sLastHandledErrorGen ≤ s.sErrorGen) :
    (EnsureAlive now r s).sLastHandledErrorGen ≤ (EnsureAlive now r s).sErrorGen := by
  unfold EnsureAlive
  apply rebuildIfDue_handled_le
  rw [detectStuck_handled, detectStuck_gen]
  split <;> omega

theorem FrameInit_restart (now : Int) (r1 r2 : OpenReply) (s s' : AudioDevice)
    (h : FrameInit now r1 r2 s = some s') :
    s'.sNeedsRestart = (EnsureAlive now r1 s).sNeedsRestart ∧
    s'.sErrorGen = (EnsureAlive now r1 s).sErrorGen ∧
    s'.sLastHandledErrorGen = (EnsureAlive now r1 s).sLastHandledErrorGen := by
  unfold FrameInit at h
  simp only at h
  split at h
  · split at h
    · exact absurd h (by simp)
    · have h' := (Option.some.inj h).symm
      subst h'
      exact Init_restart r2 _
  · have h' := (Option.some.inj h).symm
    subst h'
    exact ⟨rfl, rfl, rfl⟩

/-- The invariant `sLastHandledErrorGen ≤ sErrorGen` is kept by every operation. -/
theorem step_inv (ch : Nat) (op : Op) (s s' : AudioDevice)
    (hstep : step ch op s = some s')
    (hinv : s.sLastHandledErrorGen ≤ s.sErrorGen) :
    s'.sLastHandledErrorGen ≤ s'.sErrorGen := by
  cases op with
  | init r =>
    have h' := (Option.some.inj hstep).symm
    subst h'
    obtain ⟨_, h2, h3⟩ := Init_restart r s
    rw [h2, h3]; exact hinv
  | frameInit now r1 r2 =>
    obtain ⟨_, h2, h3⟩ := FrameInit_restart now r1 r2 s s' hstep
    rw [h2, h3]; exact EnsureAlive_inv now r1 s hinv
  | ensureAlive now r =>
    have h' := (Option.some.inj hstep).symm
    subst h'
    exact EnsureAlive_inv now r s hinv
  | background now =>
    have h' := (Option.some.inj hstep).symm
    subst h'
    simpa [NotifyAppBackground] using hinv
  | foreground now =>
    have h' := (Option.some.inj hstep).symm
    subst h'
    simp only [NotifyAppForeground]
    omega
  | window a now =>
    have h' := (Option.some.inj hstep).symm
    subst h'
    simp only [NotifyWindowAvailable]
    split
    · split <;> exact hinv
    · exact hinv
  | focus f now =>
    have h' := (Option.some.inj hstep).symm
    subst h'
    simp only [NotifyFocusChanged]
    split <;> exact hinv
  | audioReady mixOut now sp data numFrames =>
    have h' := (Option.some.inj hstep).symm
    subst h'
    obtain ⟨_, h2, h3, _⟩ := onAudioReady_restart ch mixOut now sp data numFrames s
    rw [h2, h3]; exact hinv
  | errorBeforeClose =>
    have h' := (Option.some.inj hstep).symm
    subst h'
    exact hinv
  | errorAfterClose now =>
    have h' := (Option.some.inj hstep).symm
    subst h'
    simp only [onErrorAfterClose]
    omega

/-- In every state reachable from the initial one, `sLastHandledErrorGen ≤ sErrorGen`. -/
theorem run_inv (ch : Nat) (ops : List Op) :
    ∀ s s' : AudioDevice, run ch ops s = some s' →
      s.sLastHandledErrorGen ≤ s.sErrorGen → s'.sLastHandledErrorGen ≤ s'.sErrorGen := by
  induction ops with
  | nil =>
    intro s s' h hinv
    have h' := (Option.some.inj h).symm
    subst h'
    exact hinv
  | cons op ops ih =>
    intro s s' h hinv
    simp only [run] at h
    cases hs : step ch op s with
    | none => rw [hs] at h; exact absurd h (by simp)
    | some u =>
      rw [hs] at h
      exact ih u s' h (step_inv ch op s u hs hinv)

/-! ## C1: no rebuild while a lifecycle flag is false -/

/-- C1: for every state, clock reading and backend answer, a call of `EnsureAlive`
made while `sIsResumed`, `sHasWindow` or `sHasFocus` is false makes no backend
call at all (the trace is unchanged: no stop, no close, no open) and leaves the
stream handle, `sLastHandledErrorGen` and `sWarmupsRemaining` as they were. -/
theorem EnsureAlive_no_rebuild_when_flag_false (now : Int) (r : OpenReply) (s : AudioDevice)
    (h : s.sIsResumed = false ∨ s.sHasWindow = false ∨ s.sHasFocus = false) :
    (EnsureAlive now r s).trace = s.trace ∧
    (EnsureAlive now r s).stream = s.stream ∧
    (EnsureAlive now r s).sLastHandledErrorGen = s.sLastHandledErrorGen ∧
    (EnsureAlive now r s).sWarmupsRemaining = s.sWarmupsRemaining := by
  rw [EnsureAlive_gate_closed now r s (gateOpen_false_of_flag now s h)]
  exact ⟨detectStuck_trace now s, detectStuck_stream now s, detectStuck_handled now s,
    detectStuck_warmups now s⟩

/-- Witness for C1: the focus is lost, a restart is pending and the deadline has
passed; `EnsureAlive` at clock 5000 leaves trace, handle, handled generation and
warm-up counter alone. -/
theorem EnsureAlive_no_rebuild_when_flag_false_witness :
    (EnsureAlive 5000 (OpenReply.okStream 2 192) c1State).trace = c1State.trace ∧
    (EnsureAlive 5000 (OpenReply.okStream 2 192) c1State).stream = c1State.stream ∧
    (EnsureAlive 5000 (OpenReply.okStream 2 192) c1State).sLastHandledErrorGen
      = c1State.sLastHandledErrorGen ∧
    (EnsureAlive 5000 (OpenReply.okStream 2 192) c1State).sWarmupsRemaining
      = c1State.sWarmupsRemaining :=
  EnsureAlive_no_rebuild_when_flag_false 5000 (OpenReply.okStream 2 192) c1State
    (Or.inr (Or.inr rfl))

/-! ## C2: a failed rebuild is not retried -/

/-- C2, the code at the failing input: after `NotifyAppForeground` the gate is open
at clock 1000 and the first `EnsureAlive` makes one `openStream` call, which fails.
The pending flag stays true after frames 1, 2 and 3 and the gate stays open, but
frames 2, 3 and 4 make no further `openStream` call (the generation was marked
handled by frame 1, so the deduplication test returns): they leave the state as
frame 1 left it, and after frame 4, whose `openStream` would have succeeded, the
stream handle is still null. -/
theorem EnsureAlive_failed_open_not_retried :
    c2Frame1.sNeedsRestart = true ∧ c2Frame2.sNeedsRestart = true ∧
    c2Frame3.sNeedsRestart = true ∧
    gateOpen 1016 c2Frame1 = true ∧ gateOpen 1032 c2Frame2 = true ∧
    gateOpen 1048 c2Frame3 = true ∧
    opens c2Start.trace = 0 ∧ opens c2Frame1.trace = 1 ∧ opens c2Frame4.trace = 1 ∧
    c2Frame1.sErrorGen = 1 ∧ c2Frame1.sLastHandledErrorGen = 1 ∧
    c2Frame2 = c2Frame1 ∧ c2Frame3 = c2Frame1 ∧ c2Frame4 = c2Frame1 ∧
    c2Frame4.stream = none := by
  decide

/-! ## C4: the debounce deadline under lifecycle notifications -/

theorem notify_deadline_le (n : Notification) (lo t : Int) (s : AudioDevice)
    (hlo : lo ≤ t) (hs : s.sDebounceUntilMs ≤ lo + 1500) :
    (notify n t s).sDebounceUntilMs ≤ t + 1500 := by
  cases n with
  | background => simp [notify, NotifyAppBackground]
  | foreground => simp [notify, NotifyAppForeground]
  | window a =>
    cases a
    · simp only [notify, NotifyWindowAvailable]
      simp
      omega
    · simp only [notify, NotifyWindowAvailable]
      simp only [if_true]
      split
      · simp
      · simp; omega
  | focus f =>
    cases f
    · simp [notify, NotifyFocusChanged]
    · simp [notify, NotifyFocusChanged]; omega

theorem notifyAll_deadline_le (pre : List (Notification × Int)) :
    ∀ (lo : Int) (s : AudioDevice) (n : Notification) (t : Int),
      List.Chain (fun a b => a ≤ b) lo ((pre ++ [(n, t)]).map Prod.snd) →
      s.sDebounceUntilMs ≤ lo + 1500 →
      (notifyAll pre s).sDebounceUntilMs ≤ t + 1500 := by
  induction pre with
  | nil =>
    intro lo s n t hc hs
    simp at hc
    simp only [notifyAll]
    omega
  | cons m pre ih =>
    intro lo s n t hc hs
    obtain ⟨k, u⟩ := m
    simp only [List.cons_append, List.map_cons, List.chain_cons] at hc
    simp only [notifyAll]
    exact ih u (notify k u s) n t hc.2 (notify_deadline_le k lo u s hc.1 hs)

/-- C4, counterexample: after `NotifyAppBackground` at clock 0 the deadline is 1500;
`NotifyFocusChanged(false)` at the later clock 10, which is not a
`NotifyAppForeground`, leaves it at 310, below its value before that notification. -/
theorem debounce_lowered_by_focus_loss :
    c4Before.sDebounceUntilMs = 1500 ∧ c4After.sDebounceUntilMs = 310 ∧
    c4After.sDebounceUntilMs < c4Before.sDebounceUntilMs := by
  decide

/-- C4, amended: from the initial state, for every sequence of lifecycle
notifications issued at non-negative, non-decreasing clock readings, the value of
`sDebounceUntilMs` after each notification other than `NotifyAppForeground` and
`NotifyFocusChanged(false)` is greater than or equal to its value before that
notification. -/
theorem debounce_nondecreasing_except_resets (pre : List (Notification × Int))
    (n : Notification) (t : Int)
    (hclock : List.Chain (fun a b => a ≤ b) 0 ((pre ++ [(n, t)]).map Prod.snd))
    (hn : n ≠ Notification.foreground ∧ n ≠ Notification.focus false) :
    (notifyAll pre initial).sDebounceUntilMs
      ≤ (notify n t (notifyAll pre initial)).sDebounceUntilMs := by
  have hpre : (notifyAll pre initial).sDebounceUntilMs ≤ t + 1500 :=
    notifyAll_deadline_le pre 0 initial n t hclock (by decide)
  cases n with
  | background => simpa [notify, NotifyAppBackground] using hpre
  | foreground => exact absurd rfl hn.1
  | window a =>
    cases a
    · simp [notify, NotifyWindowAvailable]
    · simp only [notify, NotifyWindowAvailable, if_true]
      split
      · simp; omega
      · simp
  | focus f =>
    cases f
    · exact absurd rfl hn.2
    · simp [notify, NotifyFocusChanged]

/-- Witness for C4 (amended): background at 0, focus regained at 5, then the window
appears at 2000; that last notification raises the deadline from 1500 to 2200. -/
theorem debounce_nondecreasing_except_resets_witness :
    (notifyAll [(Notification.background, 0), (Notification.focus true, 5)]
        initial).sDebounceUntilMs
      ≤ (notify (Notification.window true) 2000
          (notifyAll [(Notification.background, 0), (Notification.focus true, 5)]
            initial)).sDebounceUntilMs :=
  debounce_nondecreasing_except_resets
    [(Notification.background, 0), (Notification.focus true, 5)]
    (Notification.window true) 2000 (by simp) (by decide)

/-! ## C9: what each writer of the debounce deadline stores -/

/-- C9, counterexample: `NotifyAppBackground` at clock 0 leaves the deadline at 1500;
`NotifyAppForeground` at clock 50 then leaves it at 350, which is not the maximum
of the previous value and 50 + 300 and is earlier than it was. -/
theorem foreground_moves_deadline_earlier :
    c9Before.sDebounceUntilMs = 1500 ∧ c9After.sDebounceUntilMs = 350 ∧
    max c9Before.sDebounceUntilMs (50 + 300) = 1500 ∧
    c9After.sDebounceUntilMs < c9Before.sDebounceUntilMs := by
  decide

/-- C9, amended: of the operations that write `sDebounceUntilMs`, only
`NotifyWindowAvailable(true)` leaves the maximum of the previous value and
`now + 200` (so it never moves the deadline earlier); `NotifyAppBackground`,
`NotifyAppForeground`, `NotifyFocusChanged(false)` and `onErrorAfterClose` leave
exactly `now + 1500`, `now + 300`, `now + 300` and `now + 250`, whatever the
previous value was. -/
theorem deadline_writers (now : Int) (s : AudioDevice) :
    (NotifyWindowAvailable true now s).sDebounceUntilMs
      = max s.sDebounceUntilMs (now + 200) ∧
    s.sDebounceUntilMs ≤ (NotifyWindowAvailable true now s).sDebounceUntilMs ∧
    (NotifyAppBackground now s).sDebounceUntilMs = now + 1500 ∧
    (NotifyAppForeground now s).sDebounceUntilMs = now + 300 ∧
    (NotifyFocusChanged false now s).sDebounceUntilMs = now + 300 ∧
    (onErrorAfterClose now s).sDebounceUntilMs = now + 250 := by
  refine ⟨?_, ?_, ?_, ?_, ?_, ?_⟩
  · simp only [NotifyWindowAvailable, if_true]
    split
    · simp; omega
    · simp; omega
  · simp only [NotifyWindowAvailable, if_true]
    split
    · simp; omega
    · simp
  · simp [NotifyAppBackground]
  · simp [NotifyAppForeground]
  · simp [NotifyFocusChanged]
  · simp [onErrorAfterClose]

/-! ## C10: when the callback records its time -/

/-- C10, counterexample: a callback at clock 5000 for the current stream with a
null buffer returns `Stop` and leaves `sLastCallbackMs` at its old value 900. -/
theorem onAudioReady_invalid_keeps_lastCallback :
    c10Out.1 = DataCallbackResult.Stop ∧ liveState.sLastCallbackMs = 900 ∧
    c10Out.2.1.sLastCallbackMs = 900 := by
  decide

/-- C10, amended: an invocation of `onAudioReady` returns `Continue` exactly when
its stream pointer is the current stream, its buffer is non-null and
`numFrames > 0`, and every such invocation sets `sLastCallbackMs` to the current
clock reading; an invocation that returns `Stop` leaves the whole state,
`sLastCallbackMs` included, unchanged. -/
theorem onAudioReady_lastCallback (ch : Nat) (mixOut : Nat → Sample) (now : Int)
    (sp : Option Nat) (data : Option Buffer) (numFrames : Int) (s : AudioDevice) :
    ((onAudioReady ch mixOut now sp data numFrames s).1 = DataCallbackResult.Continue ↔
      (sp = s.stream ∧ data.isSome = true ∧ numFrames > 0)) ∧
    ((onAudioReady ch mixOut now sp data numFrames s).1 = DataCallbackResult.Continue →
      (onAudioReady ch mixOut now sp data numFrames s).2.1.sLastCallbackMs = now) ∧
    ((onAudioReady ch mixOut now sp data numFrames s).1 = DataCallbackResult.Stop →
      (onAudioReady ch mixOut now sp data numFrames s).2.1 = s) := by
  cases data with
  | none => simp [onAudioReady]
  | some buf =>
    by_cases hv : sp ≠ s.stream ∨ numFrames ≤ 0
    · have hn : ¬ (sp = s.stream ∧ numFrames > 0) := by
        rintro ⟨h1, h2⟩
        rcases hv with h | h
        · exact h h1
        · omega
      simp [onAudioReady, hv, hn]
    · have hp : sp = s.stream ∧ numFrames > 0 := by
        constructor
        · by_contra h; exact hv (Or.inl h)
        · by_contra h; exact hv (Or.inr (by omega))
      simp only [onAudioReady, hv, if_false]
      split
      · split <;> simp [hp]
      · simp [hp]

/-! ## C7: the callback and the buffer -/

/-- C7, counterexample: a callback with a non-null buffer and 64 frames whose stream
pointer is the stale stream 1 (the current stream is 2) returns `Stop` with the
state unchanged and no cell of the buffer written. -/
theorem onAudioReady_stale_stream_leaves_buffer :
    c7Out.1 = DataCallbackResult.Stop ∧ c7Out.2.1 = liveState ∧
    c7Out.2.2.isSome = true ∧ (∀ i, cellAfter c7Out i = none) := by
  refine ⟨by decide, by decide, rfl, ?_⟩
  intro i
  rfl

/-- C7, amended: for every call of `onAudioReady` with a non-null buffer and
`numFrames > 0` whose stream pointer is the current stream, the call returns
`Continue` and every one of the `numFrames * AUDIO_CHANNELS` samples of the buffer
has been written: zeros when `sWarmupsRemaining > 0` or a restart is pending, the
mixing callback's output otherwise; cells past those samples keep their content.
A call whose stream pointer is not the current stream returns `Stop` and leaves
state and buffer untouched. -/
theorem onAudioReady_fills_buffer (ch : Nat) (mixOut : Nat → Sample) (now : Int)
    (sp : Option Nat) (buf : Buffer) (numFrames : Int) (s : AudioDevice)
    (hn : numFrames > 0) :
    (sp = s.stream →
      (onAudioReady ch mixOut now sp (some buf) numFrames s).1 = DataCallbackResult.Continue ∧
      ∃ b, (onAudioReady ch mixOut now sp (some buf) numFrames s).2.2 = some b ∧
        ((s.sWarmupsRemaining > 0 ∨ s.sNeedsRestart = true) →
          ∀ i, i < (numFrames * ch).toNat → b i = some 0) ∧
        (¬ (s.sWarmupsRemaining > 0 ∨ s.sNeedsRestart = true) →
          ∀ i, i < (numFrames * ch).toNat → b i = some (mixOut i)) ∧
        (∀ i, (numFrames * ch).toNat ≤ i → b i = buf i)) ∧
    (sp ≠ s.stream →
      onAudioReady ch mixOut now sp (some buf) numFrames s
        = (DataCallbackResult.Stop, s, some buf)) := by
  constructor
  · intro hsp
    subst hsp
    by_cases hw : s.sWarmupsRemaining > 0 ∨ s.sNeedsRestart = true
    · rw [onAudioReady_silent ch mixOut now buf numFrames s hn hw]
      refine ⟨rfl, _, rfl, ?_, ?_, ?_⟩
      · intro _ i hi
        simp [fillBuffer, hi]
      · intro h
        exact absurd hw h
      · intro i hi
        simp [fillBuffer, Nat.not_lt.mpr hi]
    · rw [onAudioReady_mixed ch mixOut now buf numFrames s hn hw]
      refine ⟨rfl, _, rfl, ?_, ?_, ?_⟩
      · intro h
        exact absurd h hw
      · intro _ i hi
        simp [ProcessAudioMixing, fillBuffer, hi]
      · intro i hi
        simp [ProcessAudioMixing, fillBuffer, Nat.not_lt.mpr hi]
  · intro hsp
    simp [onAudioReady, hsp]

/-- Witness for C7 (amended): a callback for the current stream 2 of `liveState`
with an empty buffer and 64 frames of 2 channels. -/
theorem onAudioReady_fills_buffer_witness :
    (64 : Int) > 0 ∧
    (onAudioReady 2 (fun i => (i : Int) + 1) 1000 (some 2) (some emptyBuffer) 64
      liveState).1 = DataCallbackResult.Continue ∧
    cellAfter (onAudioReady 2 (fun i => (i : Int) + 1) 1000 (some 2) (some emptyBuffer) 64
      liveState) 127 = some 128 ∧
    cellAfter (onAudioReady 2 (fun i => (i : Int) + 1) 1000 (some 2) (some emptyBuffer) 64
      liveState) 128 = none := by
  have h := (onAudioReady_fills_buffer 2 (fun i => (i : Int) + 1) 1000 (some 2) emptyBuffer 64
    liveState (by decide)).1 rfl
  obtain ⟨h1, b, hb, _, hmix, hrest⟩ := h
  refine ⟨by decide, h1, ?_, ?_⟩
  · unfold cellAfter
    rw [hb]
    exact hmix (by decide) 127 (by decide)
  · unfold cellAfter
    rw [hb]
    exact hrest 128 (by decide)

/-! ## C5: no rebuild before the debounce deadline -/

theorem runFrames_gate_closed (frames : List (Int × OpenReply)) :
    ∀ u : AudioDevice, (∀ f ∈ frames, gateOpen f.1 u = false) →
      (runFrames frames u).trace = u.trace ∧ (runFrames frames u).stream = u.stream := by
  induction frames with
  | nil => intro u _; exact ⟨rfl, rfl⟩
  | cons f rest ih =>
    intro u hu
    obtain ⟨now, r⟩ := f
    have hclosed : gateOpen now u = false := hu (now, r) (List.mem_cons_self _ _)
    have hstep : EnsureAlive now r u = detectStuck now u := EnsureAlive_gate_closed now r u hclosed
    simp only [runFrames, hstep]
    have hrest : ∀ g ∈ rest, gateOpen g.1 (detectStuck now u) = false := by
      intro g hg
      rw [detectStuck_gateOpen]
      exact hu g (List.mem_cons_of_mem _ hg)
    obtain ⟨h1, h2⟩ := ih (detectStuck now u) hrest
    exact ⟨h1.trans (detectStuck_trace now u), h2.trans (detectStuck_stream now u)⟩

/-- C5: `EnsureAlive` called with a clock reading earlier than `sDebounceUntilMs` makes
no backend call (no stop, close or open) and leaves the stream handle alone. In the
scenario `NotifyAppBackground` at `t0` followed by `NotifyAppForeground` at `t1`
(for all `t0`, `t1`, in particular `t0 ≤ t1 ≤ t0 + 100`): the handle is null after
the background call, `sErrorGen` is one greater after the foreground call than
before it, and a run of `EnsureAlive` calls each of which is at a clock reading
earlier than `t1 + 300`, or made while one of the three lifecycle flags is false,
makes no backend call and leaves the handle null. -/
theorem no_rebuild_before_deadline (s : AudioDevice) (t0 t1 : Int)
    (frames : List (Int × OpenReply))
    (hframes : ∀ f ∈ frames, f.1 < t1 + 300 ∨
      (NotifyAppForeground t1 (NotifyAppBackground t0 s)).sIsResumed = false ∨
      (NotifyAppForeground t1 (NotifyAppBackground t0 s)).sHasWindow = false ∨
      (NotifyAppForeground t1 (NotifyAppBackground t0 s)).sHasFocus = false) :
    (∀ (now : Int) (r : OpenReply) (u : AudioDevice), now < u.sDebounceUntilMs →
      (EnsureAlive now r u).trace = u.trace ∧ (EnsureAlive now r u).stream = u.stream) ∧
    (NotifyAppBackground t0 s).stream = none ∧
    (NotifyAppForeground t1 (NotifyAppBackground t0 s)).sErrorGen
      = (NotifyAppBackground t0 s).sErrorGen + 1 ∧
    (runFrames frames (NotifyAppForeground t1 (NotifyAppBackground t0 s))).trace
      = (NotifyAppForeground t1 (NotifyAppBackground t0 s)).trace ∧
    (runFrames frames (NotifyAppForeground t1 (NotifyAppBackground t0 s))).stream = none := by
  refine ⟨?_, rfl, rfl, ?_⟩
  · intro now r u hu
    rw [EnsureAlive_gate_closed now r u (gateOpen_false_of_early now u hu)]
    exact ⟨detectStuck_trace now u, detectStuck_stream now u⟩
  · have hclosed : ∀ f ∈ frames,
        gateOpen f.1 (NotifyAppForeground t1 (NotifyAppBackground t0 s)) = false := by
      intro f hf
      rcases hframes f hf with h | h
      · exact gateOpen_false_of_early _ _ (by simpa [NotifyAppForeground] using h)
      · exact gateOpen_false_of_flag _ _ h
    obtain ⟨h1, h2⟩ := runFrames_gate_closed frames _ hclosed
    exact ⟨h1, h2.trans rfl⟩

/-- Witness for C5: from a state with stream 1 open and no window, background at
1000, foreground at 1050, then frames at 1060 and 1349 (before the deadline 1350)
and at 9000 (after it, but the window is still gone). -/
theorem no_rebuild_before_deadline_witness :
    (runFrames [(1060, OpenReply.okStream 2 192), (1349, OpenReply.okStream 3 192),
        (9000, OpenReply.okStream 4 192)]
      (NotifyAppForeground 1050 (NotifyAppBackground 1000 c5State))).trace
      = (NotifyAppForeground 1050 (NotifyAppBackground 1000 c5State)).trace ∧
    (runFrames [(1060, OpenReply.okStream 2 192), (1349, OpenReply.okStream 3 192),
        (9000, OpenReply.okStream 4 192)]
      (NotifyAppForeground 1050 (NotifyAppBackground 1000 c5State))).stream = none :=
  (no_rebuild_before_deadline c5State 1000 1050
    [(1060, OpenReply.okStream 2 192), (1349, OpenReply.okStream 3 192),
      (9000, OpenReply.okStream 4 192)] (by decide)).2.2.2

/-! ## C8: warm-up after a successful open -/

theorem deliver_allSilent (ch : Nat) (calls : List AudioCall) :
    ∀ s : AudioDevice, (∀ c ∈ calls, c.numFrames > 0) →
      (calls.length : Int) ≤ s.sWarmupsRemaining →
      allSilent ch calls s ∧
      (deliverAll ch calls s).sWarmupsRemaining = s.sWarmupsRemaining - calls.length ∧
      (deliverAll ch calls s).sNeedsRestart = s.sNeedsRestart ∧
      (deliverAll ch calls s).stream = s.stream := by
  induction calls with
  | nil => intro s _ _; simp [allSilent, deliverAll]
  | cons c cs ih =>
    intro s hv hlen
    have hc : c.numFrames > 0 := hv c (List.mem_cons_self _ _)
    have hw : s.sWarmupsRemaining > 0 := by
      simp only [List.length_cons, Nat.cast_add, Nat.cast_one] at hlen
      omega
    have hd : deliver ch c s = _ :=
      onAudioReady_silent ch c.mixOut c.now c.buf c.numFrames s hc (Or.inl hw)
    have hcs : ∀ c' ∈ cs, c'.numFrames > 0 := fun c' h => hv c' (List.mem_cons_of_mem _ h)
    have hlen' : (cs.length : Int) ≤ (deliver ch c s).2.1.sWarmupsRemaining := by
      rw [hd]
      simp only [List.length_cons, Nat.cast_add, Nat.cast_one] at hlen
      simp [hw]
      omega
    obtain ⟨h1, h2, h3, h4⟩ := ih (deliver ch c s).2.1 hcs hlen'
    refine ⟨⟨?_, ?_, ?_, h1⟩, ?_, ?_, ?_⟩
    · rw [hd]
    · intro i hi
      rw [hd]
      simp [cellAfter, fillBuffer, hi]
    · rw [hd]
    · simp only [deliverAll]
      rw [h2, hd]
      simp [hw]
      omega
    · simp only [deliverAll]
      rw [h3, hd]
    · simp only [deliverAll]
      rw [h4, hd]

/-- C8: after `createStream` succeeds, `sWarmupsRemaining` is 3 when the backend
reports a positive burst size and 2 otherwise. Each of the next
`sWarmupsRemaining` valid callbacks (current stream, non-null buffer,
`numFrames > 0`) returns `Continue` with its whole buffer zero and without a call
to the mixer, whatever samples the mixer has pending; and if no restart is pending,
the valid callback after those calls the mixer once, for
`numFrames * AUDIO_CHANNELS` samples, and hands back the mixer's samples. -/
theorem warmup_after_createStream (ch : Nat) (r : OpenReply) (s s1 : AudioDevice)
    (hopen : createStream r s = (true, s1))
    (calls : List AudioCall) (hvalid : ∀ c ∈ calls, c.numFrames > 0)
    (hlen : (calls.length : Int) = s1.sWarmupsRemaining)
    (next : AudioCall) (hnext : next.numFrames > 0)
    (hidle : (deliverAll ch calls s1).sNeedsRestart = false) :
    (∃ h burst, r = OpenReply.okStream h burst ∧ s1.stream = some h ∧
      s1.sWarmupsRemaining = if burst > 0 then 3 else 2) ∧
    allSilent ch calls s1 ∧
    (deliver ch next (deliverAll ch calls s1)).1 = DataCallbackResult.Continue ∧
    (deliver ch next (deliverAll ch calls s1)).2.1.trace
      = (deliverAll ch calls s1).trace ++ [Event.mix (next.numFrames * ch)] ∧
    (∀ i, i < (next.numFrames * ch).toNat →
      cellAfter (deliver ch next (deliverAll ch calls s1)) i = some (next.mixOut i)) := by
  obtain ⟨h1, h2, _, _⟩ := deliver_allSilent ch calls s1 hvalid (le_of_eq hlen)
  have hw : ¬ ((deliverAll ch calls s1).sWarmupsRemaining > 0 ∨
      (deliverAll ch calls s1).sNeedsRestart = true) := by
    rw [h2, hidle, hlen]
    simp
  have hd : deliver ch next (deliverAll ch calls s1) = _ :=
    onAudioReady_mixed ch next.mixOut next.now next.buf next.numFrames _ hnext hw
  refine ⟨?_, h1, ?_, ?_, ?_⟩
  · cases r with
    | error c => simp [createStream] at hopen
    | okNull => simp [createStream] at hopen
    | okStream h burst =>
      rw [createStream_okStream] at hopen
      have hs1 : s1 = _ := (Prod.mk.inj hopen).2.symm
      exact ⟨h, burst, rfl, by rw [hs1], by rw [hs1]⟩
  · rw [hd]
  · rw [hd]
  · intro i hi
    rw [hd]
    simp [cellAfter, ProcessAudioMixing, fillBuffer, hi]

/-- Witness for C8: `createStream` on the initial state, answered with stream 5 of
burst size 192, then three callbacks (all silent) and a fourth (mixed). -/
theorem warmup_after_createStream_witness :
    createStream (OpenReply.okStream 5 192) initial
      = (true, (createStream (OpenReply.okStream 5 192) initial).2) ∧
    (createStream (OpenReply.okStream 5 192) initial).2.sWarmupsRemaining = 3 ∧
    allSilent 2 [c8Call 10, c8Call 12, c8Call 14]
      (createStream (OpenReply.okStream 5 192) initial).2 ∧
    cellAfter (deliver 2 (c8Call 16) (deliverAll 2 [c8Call 10, c8Call 12, c8Call 14]
      (createStream (OpenReply.okStream 5 192) initial).2)) 127 = some 128 := by
  have h := warmup_after_createStream 2 (OpenReply.okStream 5 192) initial
    (createStream (OpenReply.okStream 5 192) initial).2 rfl
    [c8Call 10, c8Call 12, c8Call 14] (by decide) (by decide) (c8Call 16) (by decide)
    (by decide)
  exact ⟨rfl, by decide, h.2.1, h.2.2.2.2 127 (by decide)⟩

/-! ## C6: stuck detection right after an open -/

/-- C6, the code at the failing input: stream 1 delivers a callback at clock 1000 and
is closed by `NotifyAppBackground`; after `NotifyAppForeground` at clock 100000 the
rebuild of `EnsureAlive` at clock 100300 opens stream 2 and clears the pending
flag. `sLastCallbackMs` is still the 1000 of stream 1, so although stream 2 has
delivered no callback, the `EnsureAlive` of the next frame (clock 100316) finds the
stuck condition true, sets `sNeedsRestart`, raises `sErrorGen` from 1 to 2 and
closes stream 2 to open stream 3. The same holds for a stream opened by `Init`
after the background. -/
theorem stuck_detection_fires_for_fresh_stream :
    c6Rebuilt.stream = some 2 ∧ c6Rebuilt.sNeedsRestart = false ∧
    c6Rebuilt.sErrorGen = 1 ∧ c6Rebuilt.sLastCallbackMs = 1000 ∧
    c6Rebuilt.trace = [Event.openStream, Event.setBufferSizeInFrames 1 384,
      Event.requestStart 1, Event.stop 1, Event.close 1, Event.openStream,
      Event.setBufferSizeInFrames 2 384, Event.requestStart 2] ∧
    stuck 100316 c6Rebuilt = true ∧
    (detectStuck 100316 c6Rebuilt).sNeedsRestart = true ∧
    (detectStuck 100316 c6Rebuilt).sErrorGen = 2 ∧
    c6NextFrame.sErrorGen = 2 ∧ c6NextFrame.stream = some 3 ∧
    c6NextFrame.trace = c6Rebuilt.trace ++ [Event.stop 2, Event.close 2, Event.openStream,
      Event.setBufferSizeInFrames 3 384, Event.requestStart 3] ∧
    c6Reopened.stream = some 4 ∧ c6Reopened.sLastCallbackMs = 1000 ∧
    stuck 100000 c6Reopened = true ∧
    (detectStuck 100000 c6Reopened).sNeedsRestart = true ∧
    (detectStuck 100000 c6Reopened).sErrorGen = c6Reopened.sErrorGen + 1 := by
  decide

/-! ## C3: deduplication of error signals -/

/-- C3, counterexample: one error signal (`onErrorAfterClose` at clock 1000) arrives
while the gate is closed (clock 1000 is before the deadline 1250). After the gate
has opened, with no further error callback or notification, `EnsureAlive` runs at
clocks 1300 and 3400, both times with the three flags true and the deadline
passed; stream 2, opened by the first, delivers a callback at clock 1310 and then
none. Two rebuild attempts are made, not one: the second `EnsureAlive` finds
stream 2 stuck and closes it to open stream 3. -/
theorem two_rebuilds_after_gate_opens :
    closedPhase 2 c3Signals initial = some (c3Pending, 1) ∧
    c3Pending.sNeedsRestart = true ∧
    gateOpen 1000 c3Pending = false ∧ gateOpen 1300 c3Pending = true ∧
    run 2 (c3Frames.take 2) c3Pending = some c3Mid ∧
    gateOpen 3400 c3Mid = true ∧ stuck 3400 c3Mid = true ∧
    run 2 c3Frames c3Pending = some c3Final ∧
    opens c3Final.trace = opens c3Pending.trace + 2 ∧
    closes c3Final.trace = closes c3Pending.trace + 2 ∧
    c3Final.stream = some 3 := by
  decide

theorem closed_frame (now : Int) (r : OpenReply) (s : AudioDevice)
    (hg : gateOpen now s = false) :
    (EnsureAlive now r s).sLastHandledErrorGen = s.sLastHandledErrorGen ∧
    s.sErrorGen + ((if stuck now s then 1 else 0 : Nat) : Int) ≤ (EnsureAlive now r s).sErrorGen ∧
    (s.sNeedsRestart = true → (EnsureAlive now r s).sNeedsRestart = true) ∧
    (1 ≤ (if stuck now s then 1 else 0 : Nat) → (EnsureAlive now r s).sNeedsRestart = true) := by
  rw [EnsureAlive_gate_closed now r s hg, detectStuck_handled, detectStuck_gen,
    detectStuck_pending]
  refine ⟨rfl, ?_, ?_, ?_⟩
  · split <;> simp
  · intro h; simp [h]
  · intro h
    by_cases hs : stuck now s = true
    · simp [hs]
    · simp [hs] at h

theorem closed_step (ch : Nat) (op : Op) (s s' : AudioDevice)
    (hgate : ∀ now, frameClock op = some now → gateOpen now s = false)
    (hstep : step ch op s = some s') :
    s'.sLastHandledErrorGen = s.sLastHandledErrorGen ∧
    s.sErrorGen + (errorSignals op s : Int) ≤ s'.sErrorGen ∧
    (s.sNeedsRestart = true → s'.sNeedsRestart = true) ∧
    (1 ≤ errorSignals op s → s'.sNeedsRestart = true) := by
  cases op with
  | init r =>
    have h' := (Option.some.inj hstep).symm
    subst h'
    obtain ⟨h1, h2, h3⟩ := Init_restart r s
    simp [errorSignals, h1, h2, h3]
  | frameInit now r1 r2 =>
    obtain ⟨h1, h2, h3⟩ := FrameInit_restart now r1 r2 s s' hstep
    rw [h1, h2, h3]
    exact closed_frame now r1 s (hgate now rfl)
  | ensureAlive now r =>
    have h' := (Option.some.inj hstep).symm
    subst h'
    exact closed_frame now r s (hgate now rfl)
  | background now =>
    have h' := (Option.some.inj hstep).symm
    subst h'
    simp [errorSignals, NotifyAppBackground]
  | foreground now =>
    have h' := (Option.some.inj hstep).symm
    subst h'
    simp [errorSignals, NotifyAppForeground]
  | window a now =>
    have h' := (Option.some.inj hstep).symm
    subst h'
    simp only [NotifyWindowAvailable, errorSignals]
    split
    · split <;> simp
    · simp
  | focus f now =>
    have h' := (Option.some.inj hstep).symm
    subst h'
    simp only [NotifyFocusChanged, errorSignals]
    split <;> simp
  | audioReady mixOut now sp data numFrames =>
    have h' := (Option.some.inj hstep).symm
    subst h'
    obtain ⟨h1, h2, h3, _⟩ := onAudioReady_restart ch mixOut now sp data numFrames s
    simp [errorSignals, h1, h2, h3]
  | errorBeforeClose =>
    have h' := (Option.some.inj hstep).symm
    subst h'
    simp [errorSignals, onErrorBeforeClose]
  | errorAfterClose now =>
    have h' := (Option.some.inj hstep).symm
    subst h'
    simp [errorSignals, onErrorAfterClose]

theorem closedPhase_restart (ch : Nat) (ops : List Op) :
    ∀ (s s1 : AudioDevice) (N : Nat), closedPhase ch ops s = some (s1, N) →
      s1.sLastHandledErrorGen = s.sLastHandledErrorGen ∧
      s.sErrorGen + (N : Int) ≤ s1.sErrorGen ∧
      (s.sNeedsRestart = true → s1.sNeedsRestart = true) ∧
      (1 ≤ N → s1.sNeedsRestart = true) := by
  induction ops with
  | nil =>
    intro s s1 N h
    simp only [closedPhase, Option.some.injEq, Prod.mk.injEq] at h
    obtain ⟨h1, h2⟩ := h
    subst h1 h2
    simp
  | cons op ops ih =>
    intro s s1 N h
    simp only [closedPhase] at h
    split at h
    · exact absurd h (by simp)
    · rename_i hgate
      cases hs : step ch op s with
      | none => rw [hs] at h; exact absurd h (by simp)
      | some u =>
        rw [hs] at h
        dsimp only at h
        cases hr : closedPhase ch ops u with
        | none => rw [hr] at h; exact absurd h (by simp)
        | some p =>
          obtain ⟨s'', n⟩ := p
          rw [hr] at h
          simp only [Option.some.injEq, Prod.mk.injEq] at h
          obtain ⟨h1, h2⟩ := h
          subst h1 h2
          have hg : ∀ now, frameClock op = some now → gateOpen now s = false := by
            intro now hnow
            rw [hnow] at hgate
            simpa using hgate
          obtain ⟨a1, a2, a3, a4⟩ := closed_step ch op s u hg hs
          obtain ⟨b1, b2, b3, b4⟩ := ih u s'' n hr
          refine ⟨b1.trans a1, ?_, fun hp => b3 (a3 hp), ?_⟩
          · push_cast
            omega
          · intro hN
            by_cases hn : 1 ≤ n
            · exact b4 hn
            · exact b3 (a4 (by omega))

/-! ## C13: `NotifyWindowAvailable` -/

/-- C13: `NotifyWindowAvailable(true)` at clock reading `t` leaves `sDebounceUntilMs`
equal to the maximum of the previous deadline and `t + 200`;
`NotifyWindowAvailable(false)` leaves the deadline unchanged; in both cases
`sHasWindow` equals the argument afterwards. -/
theorem NotifyWindowAvailable_effect (t : Int) (s : AudioDevice) :
    (NotifyWindowAvailable true t s).sDebounceUntilMs = max s.sDebounceUntilMs (t + 200) ∧
    (NotifyWindowAvailable false t s).sDebounceUntilMs = s.sDebounceUntilMs ∧
    (NotifyWindowAvailable true t s).sHasWindow = true ∧
    (NotifyWindowAvailable false t s).sHasWindow = false := by
  refine ⟨?_, ?_, ?_, ?_⟩
  · simp only [NotifyWindowAvailable, if_true]
    split
    · simp; omega
    · simp; omega
  · simp [NotifyWindowAvailable]
  · simp only [NotifyWindowAvailable, if_true]
    split <;> rfl
  · simp [NotifyWindowAvailable]

/-! ## C16: the error callbacks -/

/-- C16: `onErrorAfterClose` at clock reading `t` sets `sNeedsRestart`, increases
`sErrorGen` by exactly one, moves `sDebounceUntilMs` to `t + 250` and changes
nothing else: the stream handle, the three lifecycle flags, `sWarmupsRemaining`,
`sLastCallbackMs`, `sLastHandledErrorGen` and the trace of backend calls (no close,
no open) are as before. `onErrorBeforeClose` changes no state at all. -/
theorem error_callbacks_effect (t : Int) (s : AudioDevice) :
    onErrorAfterClose t s =
      { s with sNeedsRestart := true, sErrorGen := s.sErrorGen + 1,
               sDebounceUntilMs := t + 250 } ∧
    (onErrorAfterClose t s).sNeedsRestart = true ∧
    (onErrorAfterClose t s).sErrorGen = s.sErrorGen + 1 ∧
    (onErrorAfterClose t s).sDebounceUntilMs = t + 250 ∧
    (onErrorAfterClose t s).stream = s.stream ∧
    (onErrorAfterClose t s).sIsResumed = s.sIsResumed ∧
    (onErrorAfterClose t s).sHasWindow = s.sHasWindow ∧
    (onErrorAfterClose t s).sHasFocus = s.sHasFocus ∧
    (onErrorAfterClose t s).sWarmupsRemaining = s.sWarmupsRemaining ∧
    (onErrorAfterClose t s).sLastCallbackMs = s.sLastCallbackMs ∧
    (onErrorAfterClose t s).sLastHandledErrorGen = s.sLastHandledErrorGen ∧
    (onErrorAfterClose t s).trace = s.trace ∧
    onErrorBeforeClose s = s :=
  ⟨rfl, rfl, rfl, rfl, rfl, rfl, rfl, rfl, rfl, rfl, rfl, rfl, rfl⟩

/-! ## C17: `NotifyAppBackground` -/

/-- C17: for every state, after `NotifyAppBackground` at clock reading `t`,
`sIsResumed` is false, `sDebounceUntilMs` equals `t + 1500` and the stream handle is
null, whether or not a stream was open (the results of the backend stop and close
calls are discarded by the code, so they play no part); `sHasWindow`, `sHasFocus`,
`sNeedsRestart`, `sErrorGen` and `sLastHandledErrorGen` are unchanged. The backend
calls made are a stop and a close of the stream that was open, none otherwise. -/
theorem NotifyAppBackground_effect (t : Int) (s : AudioDevice) :
    (NotifyAppBackground t s).sIsResumed = false ∧
    (NotifyAppBackground t s).sDebounceUntilMs = t + 1500 ∧
    (NotifyAppBackground t s).stream = none ∧
    (NotifyAppBackground t s).sHasWindow = s.sHasWindow ∧
    (NotifyAppBackground t s).sHasFocus = s.sHasFocus ∧
    (NotifyAppBackground t s).sNeedsRestart = s.sNeedsRestart ∧
    (NotifyAppBackground t s).sErrorGen = s.sErrorGen ∧
    (NotifyAppBackground t s).sLastHandledErrorGen = s.sLastHandledErrorGen ∧
    (NotifyAppBackground t s).trace =
      s.trace ++ (match s.stream with
        | some h => [Event.stop h, Event.close h]
        | none => []) := by
  refine ⟨?_, ?_, rfl, ?_, ?_, ?_, ?_, ?_, ?_⟩ <;>
    simp [NotifyAppBackground, shutdownStream_trace]

/-! ## C12: idempotence of the notifications -/

/-- C12, counterexample: `NotifyAppForeground` applied twice at the same clock reading
does not give the state of a single application: `sErrorGen` is 2 instead of 1. -/
theorem foreground_not_idempotent :
    c12Once.sErrorGen = 1 ∧ c12Twice.sErrorGen = 2 ∧ c12Twice ≠ c12Once := by
  decide

/-- C12, amended: for every state, every argument and a fixed clock reading,
`NotifyAppBackground`, `NotifyWindowAvailable(a)` and `NotifyFocusChanged(f)` applied
twice in a row yield the same state as applied once; `NotifyAppForeground` applied
twice yields the state of one application except for `sErrorGen`, which every
application increases by one. -/
theorem notifications_idempotence (t : Int) (a f : Bool) (s : AudioDevice) :
    NotifyAppBackground t (NotifyAppBackground t s) = NotifyAppBackground t s ∧
    NotifyWindowAvailable a t (NotifyWindowAvailable a t s) = NotifyWindowAvailable a t s ∧
    NotifyFocusChanged f t (NotifyFocusChanged f t s) = NotifyFocusChanged f t s ∧
    NotifyAppForeground t (NotifyAppForeground t s)
      = { NotifyAppForeground t s with sErrorGen := s.sErrorGen + 2 } := by
  refine ⟨?_, ?_, ?_, ?_⟩
  · cases hs : s.stream <;> simp [NotifyAppBackground, shutdownStream, hs]
  · cases a
    · simp [NotifyWindowAvailable]
    · by_cases h : t + 200 > s.sDebounceUntilMs <;> simp [NotifyWindowAvailable, h]
  · cases f <;> simp [NotifyFocusChanged]
  · simp only [NotifyAppForeground]
    congr 1
    omega

/-! ## Further facts about the rebuild, `Init` and `FrameInit` -/

theorem rebuildIfDue_cases (now : Int) (r : OpenReply) (s : AudioDevice) :
    rebuildIfDue now r s = s ∨
    (s.sNeedsRestart = true ∧ s.sErrorGen ≠ s.sLastHandledErrorGen ∧ gateOpen now s = true) := by
  by_cases hp : s.sNeedsRestart = true
  · by_cases hg : s.sErrorGen = s.sLastHandledErrorGen
    · exact Or.inl (rebuildIfDue_idle now r s (Or.inr hg))
    · by_cases ho : gateOpen now s = true
      · exact Or.inr ⟨hp, hg, ho⟩
      · exact Or.inl (rebuildIfDue_gate_closed now r s (by simpa using ho))
  · exact Or.inl (rebuildIfDue_idle now r s (Or.inl (by simpa using hp)))

theorem shutdownStream_closes (s : AudioDevice) :
    closes (shutdownStream s).2.trace = closes s.trace + (if s.stream.isSome then 1 else 0) := by
  rw [shutdownStream_trace, closes_append]
  cases s.stream <;> simp [closes]

theorem createStream_stream_okStream (h : Nat) (burst : Int) (s : AudioDevice) :
    (createStream (OpenReply.okStream h burst) s).2.stream = some h ∧
    (createStream (OpenReply.okStream h burst) s).2.sWarmupsRemaining
      = (if burst > 0 then 3 else 2) := by
  rw [createStream_okStream]
  exact ⟨rfl, rfl⟩

theorem createStream_warmups_bounds (r : OpenReply) (s : AudioDevice)
    (hw : 0 ≤ s.sWarmupsRemaining ∧ s.sWarmupsRemaining ≤ 3) :
    0 ≤ (createStream r s).2.sWarmupsRemaining ∧ (createStream r s).2.sWarmupsRemaining ≤ 3 := by
  cases r with
  | error c => exact hw
  | okNull => exact hw
  | okStream h burst =>
    rw [(createStream_stream_okStream h burst s).2]
    split <;> omega

/-- What a due rebuild does: one `openStream` call, preceded by the stop and close
of the stream that was open; the generation is marked handled; on success the new
stream is installed with its warm-up count and the pending flag is cleared, on
failure the handle is null and the flag stays set. -/
theorem rebuildIfDue_performs (now : Int) (r : OpenReply) (s : AudioDevice)
    (hp : s.sNeedsRestart = true) (hg : s.sErrorGen ≠ s.sLastHandledErrorGen)
    (ho : gateOpen now s = true) :
    opens (rebuildIfDue now r s).trace = opens s.trace + 1 ∧
    closes (rebuildIfDue now r s).trace
      = closes s.trace + (if s.stream.isSome then 1 else 0) ∧
    (rebuildIfDue now r s).sLastHandledErrorGen = s.sErrorGen ∧
    (rebuildIfDue now r s).sErrorGen = s.sErrorGen ∧
    (∀ h burst, r = OpenReply.okStream h burst →
      (rebuildIfDue now r s).stream = some h ∧
      (rebuildIfDue now r s).sNeedsRestart = false ∧
      (rebuildIfDue now r s).sWarmupsRemaining = (if burst > 0 then 3 else 2)) ∧
    ((∀ h burst, r ≠ OpenReply.okStream h burst) →
      (rebuildIfDue now r s).stream = none ∧
      (rebuildIfDue now r s).sNeedsRestart = true ∧
      (rebuildIfDue now r s).sWarmupsRemaining = s.sWarmupsRemaining) := by
  rw [rebuildIfDue_due now r s hp hg ho]
  have ho1 := createStream_opens r (shutdownStream { s with sLastHandledErrorGen := s.sErrorGen }).2
  have hc1 := createStream_closes r (shutdownStream { s with sLastHandledErrorGen := s.sErrorGen }).2
  have ho2 := shutdownStream_opens { s with sLastHandledErrorGen := s.sErrorGen }
  have hc2 := shutdownStream_closes { s with sLastHandledErrorGen := s.sErrorGen }
  cases r with
  | error c =>
    simp only [createStream_error, Bool.false_eq_true, if_false] at *
    refine ⟨by rw [ho1, ho2], by rw [hc1, hc2], by simp, by simp, ?_, ?_⟩
    · intro h burst hr; exact absurd hr (by simp)
    · intro _; simp [shutdownStream_stream, hp]
  | okNull =>
    simp only [createStream_okNull, Bool.false_eq_true, if_false] at *
    refine ⟨by rw [ho1, ho2], by rw [hc1, hc2], by simp, by simp, ?_, ?_⟩
    · intro h burst hr; exact absurd hr (by simp)
    · intro _; simp [hp]
  | okStream h burst =>
    simp only [createStream_okStream, if_true] at *
    refine ⟨by rw [ho1, ho2], by rw [hc1, hc2], by simp, by simp, ?_, ?_⟩
    · intro h' burst' hr
      simp only [OpenReply.okStream.injEq] at hr
      obtain ⟨h1, h2⟩ := hr
      subst h1 h2
      simp
    · intro hne; exact absurd rfl (hne h burst)

theorem Init_open (r : OpenReply) (s : AudioDevice) (hs : s.stream.isSome = true) :
    Init r s =
      (true, if s.contextInitialized = 0 then { s with contextInitialized := 1 } else s) := by
  unfold Init
  by_cases hc : s.contextInitialized = 0
  · have hn : s.stream.isNone = false := by
      cases h : s.stream
      · rw [h] at hs; exact absurd hs (by simp)
      · rfl
    simp [hc, hn]
  · have hn : s.stream.isNone = false := by
      cases h : s.stream
      · rw [h] at hs; exact absurd hs (by simp)
      · rfl
    simp [hc, hn]

theorem Init_closed (r : OpenReply) (s : AudioDevice) (hs : s.stream = none) :
    Init r s =
      createStream r (if s.contextInitialized = 0 then { s with contextInitialized := 1 } else s) := by
  have key : ∀ u : AudioDevice, u.stream = none →
      (if u.stream.isNone then
        (if !(createStream r u).1 then (false, (createStream r u).2)
          else (true, (createStream r u).2))
      else (true, u)) = createStream r u := by
    intro u hu
    simp only [hu, Option.isNone_none, if_true]
    cases h : (createStream r u).1 <;> simp [h, Prod.ext_iff]
  exact key (if s.contextInitialized = 0 then { s with contextInitialized := 1 } else s)
    (by split <;> exact hs)

theorem Init_flags (r : OpenReply) (s : AudioDevice) :
    (Init r s).2.sIsResumed = s.sIsResumed ∧ (Init r s).2.sHasWindow = s.sHasWindow ∧
    (Init r s).2.sHasFocus = s.sHasFocus := by
  cases hs : s.stream with
  | none =>
    rw [Init_closed r s hs]
    by_cases hc : s.contextInitialized = 0 <;> simp [hc]
  | some h =>
    rw [Init_open r s (by simp [hs])]
    by_cases hc : s.contextInitialized = 0 <;> simp [hc]

theorem Init_warmups_bounds (r : OpenReply) (s : AudioDevice)
    (hw : 0 ≤ s.sWarmupsRemaining ∧ s.sWarmupsRemaining ≤ 3) :
    0 ≤ (Init r s).2.sWarmupsRemaining ∧ (Init r s).2.sWarmupsRemaining ≤ 3 := by
  cases hs : s.stream with
  | none =>
    rw [Init_closed r s hs]
    apply createStream_warmups_bounds
    by_cases hc : s.contextInitialized = 0 <;> simpa [hc] using hw
  | some h =>
    rw [Init_open r s (by simp [hs])]
    by_cases hc : s.contextInitialized = 0 <;> simpa [hc] using hw

theorem rebuildIfDue_flags (now : Int) (r : OpenReply) (s : AudioDevice) :
    (rebuildIfDue now r s).sIsResumed = s.sIsResumed ∧
    (rebuildIfDue now r s).sHasWindow = s.sHasWindow ∧
    (rebuildIfDue now r s).sHasFocus = s.sHasFocus ∧
    (rebuildIfDue now r s).sDebounceUntilMs = s.sDebounceUntilMs ∧
    (rebuildIfDue now r s).sLastCallbackMs = s.sLastCallbackMs ∧
    (rebuildIfDue now r s).status = s.status := by
  rcases rebuildIfDue_cases now r s with h | ⟨hp, hg, ho⟩
  · rw [h]; exact ⟨rfl, rfl, rfl, rfl, rfl, rfl⟩
  · rw [rebuildIfDue_due now r s hp hg ho]
    split <;> simp

theorem rebuildIfDue_warmups_bounds (now : Int) (r : OpenReply) (s : AudioDevice)
    (hw : 0 ≤ s.sWarmupsRemaining ∧ s.sWarmupsRemaining ≤ 3) :
    0 ≤ (rebuildIfDue now r s).sWarmupsRemaining ∧
    (rebuildIfDue now r s).sWarmupsRemaining ≤ 3 := by
  rcases rebuildIfDue_cases now r s with h | ⟨hp, hg, ho⟩
  · rw [h]; exact hw
  · rw [rebuildIfDue_due now r s hp hg ho]
    have hb := createStream_warmups_bounds r
      (shutdownStream { s with sLastHandledErrorGen := s.sErrorGen }).2 (by simpa using hw)
    split
    · exact hb
    · exact hb

theorem detectStuck_flags (now : Int) (s : AudioDevice) :
    (detectStuck now s).sIsResumed = s.sIsResumed ∧
    (detectStuck now s).sHasWindow = s.sHasWindow ∧
    (detectStuck now s).sHasFocus = s.sHasFocus ∧
    (detectStuck now s).sDebounceUntilMs = s.sDebounceUntilMs := by
  rw [detectStuck_eq]; split <;> exact ⟨rfl, rfl, rfl, rfl⟩

theorem EnsureAlive_flags (now : Int) (r : OpenReply) (s : AudioDevice) :
    (EnsureAlive now r s).sIsResumed = s.sIsResumed ∧
    (EnsureAlive now r s).sHasWindow = s.sHasWindow ∧
    (EnsureAlive now r s).sHasFocus = s.sHasFocus := by
  unfold EnsureAlive
  obtain ⟨a1, a2, a3, _⟩ := rebuildIfDue_flags now r (detectStuck now s)
  obtain ⟨b1, b2, b3, _⟩ := detectStuck_flags now s
  exact ⟨a1.trans b1, a2.trans b2, a3.trans b3⟩

theorem EnsureAlive_warmups_bounds (now : Int) (r : OpenReply) (s : AudioDevice)
    (hw : 0 ≤ s.sWarmupsRemaining ∧ s.sWarmupsRemaining ≤ 3) :
    0 ≤ (EnsureAlive now r s).sWarmupsRemaining ∧
    (EnsureAlive now r s).sWarmupsRemaining ≤ 3 := by
  unfold EnsureAlive
  apply rebuildIfDue_warmups_bounds
  rw [detectStuck_warmups]
  exact hw

/-- What `FrameInit` returns when it returns: the state `EnsureAlive` leaves if
`status` is `OK`; otherwise that state with a stop request and a close of its
stream recorded and `Init` run on it. -/
theorem FrameInit_some (now : Int) (r1 r2 : OpenReply) (s s' : AudioDevice)
    (h : FrameInit now r1 r2 s = some s') :
    s' = EnsureAlive now r1 s ∨
    ∃ hd, (EnsureAlive now r1 s).stream = some hd ∧
      s' = (Init r2 { EnsureAlive now r1 s with
        trace := (EnsureAlive now r1 s).trace ++ [Event.requestStop hd] ++ [Event.close hd] }).2 := by
  unfold FrameInit at h
  simp only at h
  split at h
  · split at h
    · exact absurd h (by simp)
    · rename_i hd hst
      exact Or.inr ⟨hd, hst, (Option.some.inj h).symm⟩
  · exact Or.inl (Option.some.inj h).symm

theorem FrameInit_flags (now : Int) (r1 r2 : OpenReply) (s s' : AudioDevice)
    (h : FrameInit now r1 r2 s = some s') :
    s'.sIsResumed = s.sIsResumed ∧ s'.sHasWindow = s.sHasWindow ∧
    s'.sHasFocus = s.sHasFocus := by
  obtain ⟨e1, e2, e3⟩ := EnsureAlive_flags now r1 s
  rcases FrameInit_some now r1 r2 s s' h with h1 | ⟨hd, _, h1⟩
  · rw [h1]; exact ⟨e1, e2, e3⟩
  · rw [h1]
    obtain ⟨i1, i2, i3⟩ := Init_flags r2 { EnsureAlive now r1 s with
        trace := (EnsureAlive now r1 s).trace ++ [Event.requestStop hd] ++ [Event.close hd] }
    exact ⟨i1.trans e1, i2.trans e2, i3.trans e3⟩

theorem FrameInit_warmups_bounds (now : Int) (r1 r2 : OpenReply) (s s' : AudioDevice)
    (h : FrameInit now r1 r2 s = some s')
    (hw : 0 ≤ s.sWarmupsRemaining ∧ s.sWarmupsRemaining ≤ 3) :
    0 ≤ s'.sWarmupsRemaining ∧ s'.sWarmupsRemaining ≤ 3 := by
  have he := EnsureAlive_warmups_bounds now r1 s hw
  rcases FrameInit_some now r1 r2 s s' h with h1 | ⟨hd, _, h1⟩
  · rw [h1]; exact he
  · rw [h1]
    exact Init_warmups_bounds r2 _ he

theorem onAudioReady_flags (ch : Nat) (mixOut : Nat → Sample) (now : Int)
    (sp : Option Nat) (data : Option Buffer) (numFrames : Int) (s : AudioDevice) :
    (onAudioReady ch mixOut now sp data numFrames s).2.1.sIsResumed = s.sIsResumed ∧
    (onAudioReady ch mixOut now sp data numFrames s).2.1.sHasWindow = s.sHasWindow ∧
    (onAudioReady ch mixOut now sp data numFrames s).2.1.sHasFocus = s.sHasFocus := by
  cases data with
  | none => simp [onAudioReady]
  | some buf =>
    by_cases hv : sp ≠ s.stream ∨ numFrames ≤ 0
    · simp [onAudioReady, hv]
    · simp only [onAudioReady, hv, if_false]
      split
      · split <;> simp
      · simp

theorem onAudioReady_warmups_bounds (ch : Nat) (mixOut : Nat → Sample) (now : Int)
    (sp : Option Nat) (data : Option Buffer) (numFrames : Int) (s : AudioDevice)
    (hw : 0 ≤ s.sWarmupsRemaining ∧ s.sWarmupsRemaining ≤ 3) :
    0 ≤ (onAudioReady ch mixOut now sp data numFrames s).2.1.sWarmupsRemaining ∧
    (onAudioReady ch mixOut now sp data numFrames s).2.1.sWarmupsRemaining ≤ 3 := by
  cases data with
  | none => simpa [onAudioReady] using hw
  | some buf =>
    by_cases hv : sp ≠ s.stream ∨ numFrames ≤ 0
    · simpa [onAudioReady, hv] using hw
    · simp only [onAudioReady, hv, if_false]
      split
      · split
        · simp; omega
        · simpa using hw
      · simpa using hw

/-- The bounds `0 ≤ sWarmupsRemaining ≤ 3` are kept by every operation. -/
theorem step_warmups_bounds (ch : Nat) (op : Op) (s s' : AudioDevice)
    (hstep : step ch op s = some s')
    (hw : 0 ≤ s.sWarmupsRemaining ∧ s.sWarmupsRemaining ≤ 3) :
    0 ≤ s'.sWarmupsRemaining ∧ s'.sWarmupsRemaining ≤ 3 := by
  cases op with
  | init r =>
    have h' := (Option.some.inj hstep).symm
    subst h'
    exact Init_warmups_bounds r s hw
  | frameInit now r1 r2 => exact FrameInit_warmups_bounds now r1 r2 s s' hstep hw
  | ensureAlive now r =>
    have h' := (Option.some.inj hstep).symm
    subst h'
    exact EnsureAlive_warmups_bounds now r s hw
  | background now =>
    have h' := (Option.some.inj hstep).symm
    subst h'
    simpa [NotifyAppBackground] using hw
  | foreground now =>
    have h' := (Option.some.inj hstep).symm
    subst h'
    exact hw
  | window a now =>
    have h' := (Option.some.inj hstep).symm
    subst h'
    simp only [NotifyWindowAvailable]
    split
    · split <;> exact hw
    · exact hw
  | focus f now =>
    have h' := (Option.some.inj hstep).symm
    subst h'
    simp only [NotifyFocusChanged]
    split <;> exact hw
  | audioReady mixOut now sp data numFrames =>
    have h' := (Option.some.inj hstep).symm
    subst h'
    exact onAudioReady_warmups_bounds ch mixOut now sp data numFrames s hw
  | errorBeforeClose =>
    have h' := (Option.some.inj hstep).symm
    subst h'
    exact hw
  | errorAfterClose now =>
    have h' := (Option.some.inj hstep).symm
    subst h'
    exact hw

/-- In every state reached by running operations, `0 ≤ sWarmupsRemaining ≤ 3`
if it held at the start. -/
theorem run_warmups_bounds (ch : Nat) (ops : List Op) :
    ∀ s s' : AudioDevice, run ch ops s = some s' →
      (0 ≤ s.sWarmupsRemaining ∧ s.sWarmupsRemaining ≤ 3) →
      0 ≤ s'.sWarmupsRemaining ∧ s'.sWarmupsRemaining ≤ 3 := by
  induction ops with
  | nil =>
    intro s s' h hw
    have h' := (Option.some.inj h).symm
    subst h'
    exact hw
  | cons op ops ih =>
    intro s s' h hw
    simp only [run] at h
    cases hs : step ch op s with
    | none => rw [hs] at h; exact absurd h (by simp)
    | some u =>
      rw [hs] at h
      exact ih u s' h (step_warmups_bounds ch op s u hs hw)

/-! ## C15: `Init` -/

theorem Init_context (r : OpenReply) (s : AudioDevice) :
    (Init r s).2.contextInitialized ≠ 0 := by
  cases hs : s.stream with
  | none =>
    rw [Init_closed r s hs, createStream_contextInitialized]
    by_cases hc : s.contextInitialized = 0 <;> simp [hc]
  | some h =>
    rw [Init_open r s (by simp [hs])]
    by_cases hc : s.contextInitialized = 0 <;> simp [hc]

theorem Init_true_iff (r : OpenReply) (s : AudioDevice) :
    (Init r s).1 = true ↔ (Init r s).2.stream.isSome = true := by
  cases hs : s.stream with
  | none =>
    rw [Init_closed r s hs]
    cases r with
    | error c =>
      rw [createStream_error]
      by_cases hc : s.contextInitialized = 0 <;> simp [hc, hs]
    | okNull => simp [createStream_okNull]
    | okStream h burst => simp [createStream_okStream]
  | some h =>
    rw [Init_open r s (by simp [hs])]
    by_cases hc : s.contextInitialized = 0 <;> simp [hc, hs]

/-- C15: `Init` returns true exactly when the stream handle is non-null on return.
If a stream is already open it returns true and changes neither the handle nor
`sWarmupsRemaining` and makes no backend call (no second stream is opened); an
`Init` that follows an `Init` that returned true changes nothing at all. If no
stream is open and the backend open succeeds it returns true with that stream
installed; if the backend open fails (an error result, or a null stream) it
returns false and the handle stays null. -/
theorem Init_contract (r : OpenReply) (s : AudioDevice) :
    ((Init r s).1 = true ↔ (Init r s).2.stream.isSome = true) ∧
    (s.stream.isSome = true →
      (Init r s).1 = true ∧ (Init r s).2.stream = s.stream ∧
      (Init r s).2.sWarmupsRemaining = s.sWarmupsRemaining ∧
      (Init r s).2.trace = s.trace) ∧
    (∀ r' : OpenReply, (Init r s).1 = true →
      Init r' (Init r s).2 = (true, (Init r s).2)) ∧
    (s.stream = none → ∀ h burst, r = OpenReply.okStream h burst →
      (Init r s).1 = true ∧ (Init r s).2.stream = some h ∧
      opens (Init r s).2.trace = opens s.trace + 1) ∧
    (s.stream = none → (∀ h burst, r ≠ OpenReply.okStream h burst) →
      (Init r s).1 = false ∧ (Init r s).2.stream = none) := by
  refine ⟨Init_true_iff r s, ?_, ?_, ?_, ?_⟩
  · intro hs
    rw [Init_open r s hs]
    by_cases hc : s.contextInitialized = 0 <;> simp [hc]
  · intro r' htrue
    have hopen : (Init r s).2.stream.isSome = true := (Init_true_iff r s).mp htrue
    rw [Init_open r' _ hopen, if_neg (Init_context r s)]
  · intro hs h burst hr
    subst hr
    rw [Init_closed _ s hs]
    refine ⟨by rw [createStream_okStream], (createStream_stream_okStream h burst _).1, ?_⟩
    rw [createStream_opens]
    by_cases hc : s.contextInitialized = 0 <;> simp [hc]
  · intro hs hne
    rw [Init_closed r s hs]
    cases r with
    | error c =>
      rw [createStream_error]
      by_cases hc : s.contextInitialized = 0 <;> simp [hc, hs]
    | okNull => simp [createStream_okNull]
    | okStream h burst => exact absurd rfl (hne h burst)

/-! ## C20: who writes the lifecycle flags -/

/-- C20, counterexample: `sIsResumed` is changed by two notification entry points, not
one: `NotifyAppBackground` changes it from true to false and `NotifyAppForeground`
changes it from false to true. -/
theorem resumed_flag_has_two_writers :
    initial.sIsResumed = true ∧ c20Paused.sIsResumed = false ∧
    c20Resumed.sIsResumed = true := by
  decide

/-- C20, amended: `NotifyWindowAvailable` is the only operation that changes
`sHasWindow`, and `NotifyFocusChanged` the only one that changes `sHasFocus`;
`sIsResumed` is changed by two notification entry points, `NotifyAppBackground`
(which clears it) and `NotifyAppForeground` (which sets it), and by no other
operation. Every other operation (`Init`, `FrameInit`, `EnsureAlive`,
`onAudioReady`, the error callbacks) leaves all three flags unchanged. -/
theorem lifecycle_flag_writers (ch : Nat) (op : Op) (s s' : AudioDevice)
    (hstep : step ch op s = some s') :
    (isWindowNotification op = false → s'.sHasWindow = s.sHasWindow) ∧
    (isFocusNotification op = false → s'.sHasFocus = s.sHasFocus) ∧
    (isResumeNotification op = false → s'.sIsResumed = s.sIsResumed) ∧
    (∀ a t, op = Op.window a t → s'.sHasWindow = a) ∧
    (∀ f t, op = Op.focus f t → s'.sHasFocus = f) ∧
    (∀ t, op = Op.background t → s'.sIsResumed = false) ∧
    (∀ t, op = Op.foreground t → s'.sIsResumed = true) := by
  cases op with
  | init r =>
    have h' := (Option.some.inj hstep).symm
    subst h'
    obtain ⟨h1, h2, h3⟩ := Init_flags r s
    simp [h1, h2, h3]
  | frameInit now r1 r2 =>
    obtain ⟨h1, h2, h3⟩ := FrameInit_flags now r1 r2 s s' hstep
    simp [h1, h2, h3]
  | ensureAlive now r =>
    have h' := (Option.some.inj hstep).symm
    subst h'
    obtain ⟨h1, h2, h3⟩ := EnsureAlive_flags now r s
    simp [h1, h2, h3]
  | background now =>
    have h' := (Option.some.inj hstep).symm
    subst h'
    simp [NotifyAppBackground, isWindowNotification, isFocusNotification,
      isResumeNotification]
  | foreground now =>
    have h' := (Option.some.inj hstep).symm
    subst h'
    simp [NotifyAppForeground, isWindowNotification, isFocusNotification,
      isResumeNotification]
  | window a now =>
    have h' := (Option.some.inj hstep).symm
    subst h'
    cases a
    · simp [NotifyWindowAvailable, isWindowNotification, isFocusNotification,
        isResumeNotification]
    · by_cases h : now + 200 > s.sDebounceUntilMs <;>
        simp [NotifyWindowAvailable, isWindowNotification, isFocusNotification,
          isResumeNotification, h]
  | focus f now =>
    have h' := (Option.some.inj hstep).symm
    subst h'
    cases f <;>
      simp [NotifyFocusChanged, isWindowNotification, isFocusNotification,
        isResumeNotification]
  | audioReady mixOut now sp data numFrames =>
    have h' := (Option.some.inj hstep).symm
    subst h'
    obtain ⟨h1, h2, h3⟩ := onAudioReady_flags ch mixOut now sp data numFrames s
    simp [h1, h2, h3]
  | errorBeforeClose =>
    have h' := (Option.some.inj hstep).symm
    subst h'
    simp [onErrorBeforeClose]
  | errorAfterClose now =>
    have h' := (Option.some.inj hstep).symm
    subst h'
    simp [onErrorAfterClose]

/-- Witness for C20 (amended): a per-frame `EnsureAlive` that rebuilds the stream
(restart pending after `NotifyAppForeground`, gate open at clock 1000) leaves the
three flags as they were. -/
theorem lifecycle_flag_writers_witness :
    (EnsureAlive 1000 (OpenReply.okStream 2 192) c2Start).sHasWindow = c2Start.sHasWindow ∧
    (EnsureAlive 1000 (OpenReply.okStream 2 192) c2Start).sHasFocus = c2Start.sHasFocus ∧
    (EnsureAlive 1000 (OpenReply.okStream 2 192) c2Start).sIsResumed = c2Start.sIsResumed := by
  have h := lifecycle_flag_writers 2 (Op.ensureAlive 1000 (OpenReply.okStream 2 192)) c2Start
    (EnsureAlive 1000 (OpenReply.okStream 2 192) c2Start) rfl
  exact ⟨h.1 rfl, h.2.1 rfl, h.2.2.1 rfl⟩

/-! ## C14: `FrameInit` with a status that is not `OK` -/

theorem gateOpen_of_settled (now : Int) (s : AudioDevice)
    (h1 : s.sIsResumed = true) (h2 : s.sHasWindow = true) (h3 : s.sHasFocus = true)
    (h4 : now ≥ s.sDebounceUntilMs) : gateOpen now s = true := by
  unfold gateOpen
  have : ¬ now < s.sDebounceUntilMs := by omega
  simp [h1, h2, h3, this]

/-- What `EnsureAlive` does when, after its stuck detection, a restart is pending
with an unhandled generation and the gate is open: the rebuild of
`rebuildIfDue_performs`, on the state stuck detection left. -/
theorem EnsureAlive_performs (now : Int) (r : OpenReply) (s : AudioDevice)
    (hp : (detectStuck now s).sNeedsRestart = true)
    (hg : (detectStuck now s).sErrorGen ≠ s.sLastHandledErrorGen)
    (ho : gateOpen now s = true) :
    opens (EnsureAlive now r s).trace = opens s.trace + 1 ∧
    closes (EnsureAlive now r s).trace
      = closes s.trace + (if s.stream.isSome then 1 else 0) ∧
    (EnsureAlive now r s).sLastHandledErrorGen = (detectStuck now s).sErrorGen ∧
    (EnsureAlive now r s).sErrorGen = (detectStuck now s).sErrorGen ∧
    (∀ h burst, r = OpenReply.okStream h burst →
      (EnsureAlive now r s).stream = some h ∧
      (EnsureAlive now r s).sNeedsRestart = false ∧
      (EnsureAlive now r s).sWarmupsRemaining = (if burst > 0 then 3 else 2)) ∧
    ((∀ h burst, r ≠ OpenReply.okStream h burst) →
      (EnsureAlive now r s).stream = none ∧
      (EnsureAlive now r s).sNeedsRestart = true ∧
      (EnsureAlive now r s).sWarmupsRemaining = s.sWarmupsRemaining) := by
  have h := rebuildIfDue_performs now r (detectStuck now s) hp
    (by rw [detectStuck_handled]; exact hg) (by rw [detectStuck_gateOpen]; exact ho)
  rw [detectStuck_trace, detectStuck_stream, detectStuck_warmups] at h
  exact h

/-- C11: in a reachable state with a stream open and `sLastCallbackMs = L > 0`,
stuck detection in `EnsureAlive` at clock reading `now` sets `sNeedsRestart` and
increases `sErrorGen` by exactly one when `now - L > 2000` (and `sErrorGen` is one
greater when `EnsureAlive` returns), and changes nothing when `now - L ≤ 2000`.
When `now - L > 2000` (as at `now = L + 2100`) with the three lifecycle flags true
and `now ≥ sDebounceUntilMs`, that same call also rebuilds the stream: it closes the
open stream and makes one `openStream` call, marks the new generation handled, and
installs the stream the backend hands out. While the gate is closed the call
leaves the flag set and makes no backend call. -/
theorem stuck_threshold (ch : Nat) (history : List Op) (s : AudioDevice) (L now : Int)
    (r : OpenReply)
    (hreach : run ch history initial = some s)
    (hstream : s.stream.isSome = true) (hL : s.sLastCallbackMs = L) (hpos : L > 0) :
    (now - L > 2000 →
      (detectStuck now s).sNeedsRestart = true ∧
      (detectStuck now s).sErrorGen = s.sErrorGen + 1 ∧
      (EnsureAlive now r s).sErrorGen = s.sErrorGen + 1 ∧
      (gateOpen now s = false →
        (EnsureAlive now r s).sNeedsRestart = true ∧
        (EnsureAlive now r s).trace = s.trace) ∧
      (s.sIsResumed = true → s.sHasWindow = true → s.sHasFocus = true →
        now ≥ s.sDebounceUntilMs →
        opens (EnsureAlive now r s).trace = opens s.trace + 1 ∧
        closes (EnsureAlive now r s).trace = closes s.trace + 1 ∧
        (EnsureAlive now r s).sLastHandledErrorGen = s.sErrorGen + 1 ∧
        (∀ h burst, r = OpenReply.okStream h burst →
          (EnsureAlive now r s).stream = some h ∧
          (EnsureAlive now r s).sNeedsRestart = false))) ∧
    (now - L ≤ 2000 → detectStuck now s = s) := by
  have hinv : s.sLastHandledErrorGen ≤ s.sErrorGen :=
    run_inv ch history initial s hreach (by decide)
  constructor
  · intro hlate
    have hst : stuck now s = true := by
      unfold stuck
      rw [hL]
      simp [hstream, hpos, hlate]
    have hgen : (detectStuck now s).sErrorGen = s.sErrorGen + 1 := by
      rw [detectStuck_gen, hst]; simp
    have hpend : (detectStuck now s).sNeedsRestart = true := by
      rw [detectStuck_pending, hst]; simp
    refine ⟨hpend, hgen, ?_, ?_, ?_⟩
    · unfold EnsureAlive
      rw [rebuildIfDue_gen, hgen]
    · intro hclosed
      rw [EnsureAlive_gate_closed now r s hclosed]
      exact ⟨hpend, detectStuck_trace now s⟩
    · intro h1 h2 h3 h4
      obtain ⟨a1, a2, a3, _, a5, _⟩ := EnsureAlive_performs now r s hpend
        (by rw [hgen]; omega) (gateOpen_of_settled now s h1 h2 h3 h4)
      refine ⟨a1, ?_, ?_, ?_⟩
      · rw [a2, hstream]; simp
      · rw [a3, hgen]
      · intro h burst hr
        exact ⟨(a5 h burst hr).1, (a5 h burst hr).2.1⟩
  · intro hearly
    apply detectStuck_of_not_stuck
    unfold stuck
    rw [hL]
    have : ¬ now - L > 2000 := by omega
    simp [this]

/-- Witness for C11: stream 1, opened by `Init`, delivered its last callback at clock
1000; `EnsureAlive` at clock 3100 (2100 ms later, flags true, deadline 0) detects
the stuck stream and rebuilds, installing stream 2. -/
theorem stuck_threshold_witness :
    (detectStuck 3100 c6Played).sNeedsRestart = true ∧
    (detectStuck 3100 c6Played).sErrorGen = c6Played.sErrorGen + 1 ∧
    opens (EnsureAlive 3100 (OpenReply.okStream 2 192) c6Played).trace
      = opens c6Played.trace + 1 ∧
    (EnsureAlive 3100 (OpenReply.okStream 2 192) c6Played).stream = some 2 ∧
    detectStuck 3000 c6Played = c6Played := by
  have h := stuck_threshold 2 c11History c6Played 1000 3100 (OpenReply.okStream 2 192)
    (by decide) (by decide) (by decide) (by decide)
  have h' := stuck_threshold 2 c11History c6Played 1000 3000 (OpenReply.okStream 2 192)
    (by decide) (by decide) (by decide) (by decide)
  obtain ⟨h1, h2, _, _, h5⟩ := h.1 (by decide)
  obtain ⟨b1, _, _, b4⟩ := h5 (by decide) (by decide) (by decide) (by decide)
  exact ⟨h1, h2, b1, (b4 2 192 rfl).1, h'.2 (by decide)⟩

/-! ## C18: `NotifyAppForeground` -/

theorem runFrames_closed_restart (frames : List (Int × OpenReply)) :
    ∀ u : AudioDevice, (∀ f ∈ frames, gateOpen f.1 u = false) →
      (runFrames frames u).sLastHandledErrorGen = u.sLastHandledErrorGen ∧
      u.sErrorGen ≤ (runFrames frames u).sErrorGen ∧
      (u.sNeedsRestart = true → (runFrames frames u).sNeedsRestart = true) ∧
      (∀ t, gateOpen t (runFrames frames u) = gateOpen t u) := by
  induction frames with
  | nil => intro u _; exact ⟨rfl, le_refl _, fun h => h, fun _ => rfl⟩
  | cons f rest ih =>
    intro u hu
    obtain ⟨now, r⟩ := f
    have hclosed : gateOpen now u = false := hu (now, r) (List.mem_cons_self _ _)
    have hstep : EnsureAlive now r u = detectStuck now u := EnsureAlive_gate_closed now r u hclosed
    obtain ⟨c1, c2, c3, _⟩ := closed_frame now r u hclosed
    have hrest : ∀ g ∈ rest, gateOpen g.1 (EnsureAlive now r u) = false := by
      intro g hg
      rw [hstep, detectStuck_gateOpen]
      exact hu g (List.mem_cons_of_mem _ hg)
    obtain ⟨h1, h2, h3, h4⟩ := ih (EnsureAlive now r u) hrest
    simp only [runFrames]
    refine ⟨h1.trans c1, ?_, fun hp => h3 (c3 hp), ?_⟩
    · have : u.sErrorGen ≤ (EnsureAlive now r u).sErrorGen := by
        have hnn : (0 : Int) ≤ ((if stuck now u then 1 else 0 : Nat) : Int) := Int.natCast_nonneg _
        omega
      omega
    · intro t
      rw [h4 t, hstep, detectStuck_gateOpen]

/-- C18: after `NotifyAppForeground` at clock reading `t`, `sIsResumed` is true,
`sDebounceUntilMs` equals `t + 300`, `sNeedsRestart` is true and `sErrorGen` is
exactly one greater than before; the stream handle is not touched and no backend
call is made. In a reachable state the new generation therefore differs from
`sLastHandledErrorGen`, and the next `EnsureAlive` whose gate is open performs a
rebuild: after any run of `EnsureAlive` calls that meet a closed gate (they make no
backend call and leave flags and deadline alone), the first call with the flags
true and the clock at or past the deadline makes one `openStream` call and marks
the generation handled. -/
theorem NotifyAppForeground_effect (ch : Nat) (history : List Op) (s : AudioDevice)
    (t : Int) (early : List (Int × OpenReply)) (now : Int) (r : OpenReply)
    (hreach : run ch history initial = some s)
    (hearly : ∀ f ∈ early, gateOpen f.1 (NotifyAppForeground t s) = false)
    (hopen : gateOpen now (NotifyAppForeground t s) = true) :
    (NotifyAppForeground t s).sIsResumed = true ∧
    (NotifyAppForeground t s).sDebounceUntilMs = t + 300 ∧
    (NotifyAppForeground t s).sNeedsRestart = true ∧
    (NotifyAppForeground t s).sErrorGen = s.sErrorGen + 1 ∧
    (NotifyAppForeground t s).stream = s.stream ∧
    (NotifyAppForeground t s).trace = s.trace ∧
    (NotifyAppForeground t s).sErrorGen ≠ (NotifyAppForeground t s).sLastHandledErrorGen ∧
    (runFrames early (NotifyAppForeground t s)).trace = s.trace ∧
    opens (EnsureAlive now r (runFrames early (NotifyAppForeground t s))).trace
      = opens s.trace + 1 ∧
    (EnsureAlive now r (runFrames early (NotifyAppForeground t s))).sLastHandledErrorGen
      = (EnsureAlive now r (runFrames early (NotifyAppForeground t s))).sErrorGen := by
  have hinv : s.sLastHandledErrorGen ≤ s.sErrorGen :=
    run_inv ch history initial s hreach (by decide)
  have hne : (NotifyAppForeground t s).sErrorGen
      ≠ (NotifyAppForeground t s).sLastHandledErrorGen := by
    simp only [NotifyAppForeground]
    omega
  obtain ⟨e1, e2, e3, e4⟩ := runFrames_closed_restart early (NotifyAppForeground t s) hearly
  obtain ⟨e5, _⟩ := runFrames_gate_closed early (NotifyAppForeground t s) hearly
  have hp : (detectStuck now (runFrames early (NotifyAppForeground t s))).sNeedsRestart
      = true := by
    rw [detectStuck_pending, e3 rfl]; simp
  have hg : (detectStuck now (runFrames early (NotifyAppForeground t s))).sErrorGen
      ≠ (runFrames early (NotifyAppForeground t s)).sLastHandledErrorGen := by
    rw [detectStuck_gen, e1]
    have hnn : (0 : Int) ≤ ((if stuck now (runFrames early (NotifyAppForeground t s))
        then 1 else 0 : Int)) := by split <;> omega
    have hgen : (NotifyAppForeground t s).sErrorGen = s.sErrorGen + 1 := rfl
    have hh : (NotifyAppForeground t s).sLastHandledErrorGen = s.sLastHandledErrorGen := rfl
    omega
  obtain ⟨a1, _, a3, a4, _⟩ := EnsureAlive_performs now r _ hp hg (by rw [e4 now]; exact hopen)
  refine ⟨rfl, rfl, rfl, rfl, rfl, rfl, hne, e5, ?_, ?_⟩
  · rw [a1, e5]
    rfl
  · rw [a3, a4]

/-- Witness for C18: `NotifyAppForeground` at clock 0 on the initial state, frames at
clocks 100 and 299 (before the deadline 300), then `EnsureAlive` at clock 300. -/
theorem NotifyAppForeground_effect_witness :
    (NotifyAppForeground 0 initial).sErrorGen = initial.sErrorGen + 1 ∧
    (NotifyAppForeground 0 initial).sErrorGen
      ≠ (NotifyAppForeground 0 initial).sLastHandledErrorGen ∧
    opens (EnsureAlive 300 (OpenReply.okStream 2 192)
      (runFrames [(100, OpenReply.okStream 8 192), (299, OpenReply.okStream 9 192)]
        (NotifyAppForeground 0 initial))).trace = opens initial.trace + 1 := by
  have h := NotifyAppForeground_effect 2 [] initial 0
    [(100, OpenReply.okStream 8 192), (299, OpenReply.okStream 9 192)] 300
    (OpenReply.okStream 2 192) rfl (by decide) (by decide)
  exact ⟨h.2.2.2.1, h.2.2.2.2.2.2.1, h.2.2.2.2.2.2.2.2.1⟩

/-! ## C19: a valid callback -/

/-- C19: on a valid `onAudioReady` call (current stream, non-null buffer,
`numFrames > 0`) in a reachable state: if `sWarmupsRemaining > 0` or `sNeedsRestart`
is set, the `numFrames * AUDIO_CHANNELS` samples of the buffer are zero, the mixing
callback is not invoked (the trace is unchanged), `sWarmupsRemaining` becomes
`max (previous - 1) 0` and `Continue` is returned; otherwise the mixing callback is
invoked exactly once, for `numFrames * AUDIO_CHANNELS` samples, the buffer holds
its samples, `sWarmupsRemaining` stays 0 and `Continue` is returned. -/
theorem onAudioReady_valid_call (ch : Nat) (history : List Op) (mixOut : Nat → Sample)
    (now : Int) (buf : Buffer) (numFrames : Int) (s : AudioDevice)
    (hreach : run ch history initial = some s) (hn : numFrames > 0) :
    ((s.sWarmupsRemaining > 0 ∨ s.sNeedsRestart = true) →
      (onAudioReady ch mixOut now s.stream (some buf) numFrames s).1
        = DataCallbackResult.Continue ∧
      (∀ i, i < (numFrames * ch).toNat →
        cellAfter (onAudioReady ch mixOut now s.stream (some buf) numFrames s) i = some 0) ∧
      (onAudioReady ch mixOut now s.stream (some buf) numFrames s).2.1.trace = s.trace ∧
      (onAudioReady ch mixOut now s.stream (some buf) numFrames s).2.1.sWarmupsRemaining
        = max (s.sWarmupsRemaining - 1) 0) ∧
    (¬ (s.sWarmupsRemaining > 0 ∨ s.sNeedsRestart = true) →
      (onAudioReady ch mixOut now s.stream (some buf) numFrames s).1
        = DataCallbackResult.Continue ∧
      (onAudioReady ch mixOut now s.stream (some buf) numFrames s).2.1.trace
        = s.trace ++ [Event.mix (numFrames * ch)] ∧
      (∀ i, i < (numFrames * ch).toNat →
        cellAfter (onAudioReady ch mixOut now s.stream (some buf) numFrames s) i
          = some (mixOut i)) ∧
      s.sWarmupsRemaining = 0 ∧
      (onAudioReady ch mixOut now s.stream (some buf) numFrames s).2.1.sWarmupsRemaining
        = 0) := by
  have hw : 0 ≤ s.sWarmupsRemaining ∧ s.sWarmupsRemaining ≤ 3 :=
    run_warmups_bounds ch history initial s hreach (by decide)
  constructor
  · intro hsil
    rw [onAudioReady_silent ch mixOut now buf numFrames s hn hsil]
    refine ⟨rfl, ?_, rfl, ?_⟩
    · intro i hi
      simp [cellAfter, fillBuffer, hi]
    · show (if s.sWarmupsRemaining > 0 then s.sWarmupsRemaining - 1 else s.sWarmupsRemaining)
        = max (s.sWarmupsRemaining - 1) 0
      split
      · omega
      · omega
  · intro hmix
    rw [onAudioReady_mixed ch mixOut now buf numFrames s hn hmix]
    have h0 : s.sWarmupsRemaining = 0 := by
      have : ¬ s.sWarmupsRemaining > 0 := fun h => hmix (Or.inl h)
      omega
    refine ⟨rfl, rfl, ?_, h0, h0⟩
    intro i hi
    simp [cellAfter, ProcessAudioMixing, fillBuffer, hi]

/-- Witness for C19: stream 1 has delivered one callback since `Init` (two warm-ups
remain); the next valid callback, at clock 1010, is silent and leaves one. -/
theorem onAudioReady_valid_call_witness :
    (onAudioReady 2 (fun i => (i : Int) + 1) 1010 c6Played.stream (some emptyBuffer) 64
      c6Played).1 = DataCallbackResult.Continue ∧
    cellAfter (onAudioReady 2 (fun i => (i : Int) + 1) 1010 c6Played.stream
      (some emptyBuffer) 64 c6Played) 127 = some 0 ∧
    (onAudioReady 2 (fun i => (i : Int) + 1) 1010 c6Played.stream (some emptyBuffer) 64
      c6Played).2.1.sWarmupsRemaining = max (c6Played.sWarmupsRemaining - 1) 0 := by
  have h := (onAudioReady_valid_call 2 c11History (fun i => (i : Int) + 1) 1010 emptyBuffer 64
    c6Played (by decide) (by decide)).1 (Or.inl (by decide))
  exact ⟨h.1, h.2.1 127 (by decide), h.2.2.2⟩

/-! ## C21: a written deadline is not in the past -/

/-- C21: whenever a notification or error callback invoked at clock reading `t`
writes `sDebounceUntilMs`, the value it leaves is at least `t`. The writers are
`NotifyAppBackground`, `NotifyAppForeground`, `NotifyWindowAvailable(true)`,
`NotifyFocusChanged(false)` and `onErrorAfterClose`; `NotifyWindowAvailable(false)`
and `NotifyFocusChanged(true)` do not write it. -/
theorem written_deadline_not_before_now (t : Int) (s : AudioDevice) :
    t ≤ (NotifyAppBackground t s).sDebounceUntilMs ∧
    t ≤ (NotifyAppForeground t s).sDebounceUntilMs ∧
    t ≤ (NotifyWindowAvailable true t s).sDebounceUntilMs ∧
    t ≤ (NotifyFocusChanged false t s).sDebounceUntilMs ∧
    t ≤ (onErrorAfterClose t s).sDebounceUntilMs ∧
    (NotifyWindowAvailable false t s).sDebounceUntilMs = s.sDebounceUntilMs ∧
    (NotifyFocusChanged true t s).sDebounceUntilMs = s.sDebounceUntilMs := by
  refine ⟨?_, ?_, ?_, ?_, ?_, ?_, ?_⟩
  · simp [NotifyAppBackground]
  · simp [NotifyAppForeground]
  · simp only [NotifyWindowAvailable, if_true]
    split
    · simp
    · simp; omega
  · simp [NotifyFocusChanged]
  · simp [onErrorAfterClose]
  · simp [NotifyWindowAvailable]
  · simp [NotifyFocusChanged]

/-! ## C22: the stop signal -/

/-- C22, counterexample: a callback with a non-null buffer and 128 frames returns
`Stop` because its stream pointer (9) is not the current stream (3), although
neither the buffer nor the frame count is invalid. -/
theorem onAudioReady_stop_for_stale_stream :
    c22Out.1 = DataCallbackResult.Stop ∧ c22Out.2.2.isSome = true ∧ (128 : Int) > 0 := by
  decide

/-- C22, amended: `onAudioReady` returns the stop signal whenever the buffer is null
or `numFrames ≤ 0`, and whenever it returns the stop signal it writes nothing to
the buffer, does not invoke the mixing callback and leaves the whole state
(`sWarmupsRemaining`, `sNeedsRestart` and `sErrorGen` included) unchanged;
conversely it returns the stop signal only when the stream pointer is not the
current stream, the buffer is null or `numFrames ≤ 0`. -/
theorem onAudioReady_stop (ch : Nat) (mixOut : Nat → Sample) (now : Int)
    (sp : Option Nat) (data : Option Buffer) (numFrames : Int) (s : AudioDevice) :
    ((data = none ∨ numFrames ≤ 0) →
      (onAudioReady ch mixOut now sp data numFrames s).1 = DataCallbackResult.Stop) ∧
    ((onAudioReady ch mixOut now sp data numFrames s).1 = DataCallbackResult.Stop →
      onAudioReady ch mixOut now sp data numFrames s = (DataCallbackResult.Stop, s, data)) ∧
    ((onAudioReady ch mixOut now sp data numFrames s).1 = DataCallbackResult.Stop ↔
      (sp ≠ s.stream ∨ data = none ∨ numFrames ≤ 0)) := by
  cases data with
  | none => simp [onAudioReady]
  | some buf =>
    by_cases hv : sp ≠ s.stream ∨ numFrames ≤ 0
    · have h3 : sp ≠ s.stream ∨ some buf = none ∨ numFrames ≤ 0 := by
        rcases hv with h | h
        · exact Or.inl h
        · exact Or.inr (Or.inr h)
      simp [onAudioReady, hv, h3]
    · have hsp : sp = s.stream := by
        by_contra h; exact hv (Or.inl h)
      have hnf : ¬ numFrames ≤ 0 := fun h => hv (Or.inr h)
      simp only [onAudioReady, hv, if_false]
      split
      · split <;> simp [hsp, hnf]
      · simp [hsp, hnf]

/-! ## C26: when `EnsureAlive` does nothing -/

/-- C26: if the stuck condition does not hold (no stream open, or
`sLastCallbackMs ≤ 0`, or `now - sLastCallbackMs ≤ 2000`) and either `sNeedsRestart`
is false or `sErrorGen` equals `sLastHandledErrorGen`, then `EnsureAlive` leaves the
entire state unchanged; the trace of backend calls is part of the state, so no
close and no open is performed. -/
theorem EnsureAlive_idle (now : Int) (r : OpenReply) (s : AudioDevice)
    (hquiet : s.stream = none ∨ s.sLastCallbackMs ≤ 0 ∨ now - s.sLastCallbackMs ≤ 2000)
    (hidle : s.sNeedsRestart = false ∨ s.sErrorGen = s.sLastHandledErrorGen) :
    EnsureAlive now r s = s := by
  have hns : stuck now s = false := by
    unfold stuck
    rcases hquiet with h | h | h
    · simp [h]
    · have : ¬ s.sLastCallbackMs > 0 := by omega
      simp [this]
    · have : ¬ now - s.sLastCallbackMs > 2000 := by omega
      simp [this]
  unfold EnsureAlive
  rw [detectStuck_of_not_stuck now s hns, rebuildIfDue_idle now r s hidle]

/-- Witness for C26: after the failed rebuild of the C2 scenario (restart pending,
generation 1 handled, no stream), `EnsureAlive` at clock 1016 changes nothing. -/
theorem EnsureAlive_idle_witness :
    EnsureAlive 1016 (OpenReply.okStream 7 192) c2Frame1 = c2Frame1 :=
  EnsureAlive_idle 1016 (OpenReply.okStream 7 192) c2Frame1 (Or.inl (by decide))
    (Or.inr (by decide))

/-! ## C23 and C25: what a rebuild does -/

theorem createStream_trace (r : OpenReply) (s : AudioDevice) :
    (createStream r s).2.trace = s.trace ++ openEvents r := by
  cases r with
  | error c => rfl
  | okNull => rfl
  | okStream h burst =>
    rw [createStream_okStream]
    simp [openEvents, List.append_assoc]

theorem rebuildIfDue_trace (now : Int) (r : OpenReply) (s : AudioDevice)
    (hp : s.sNeedsRestart = true) (hg : s.sErrorGen ≠ s.sLastHandledErrorGen)
    (ho : gateOpen now s = true) :
    (rebuildIfDue now r s).trace = s.trace ++ closeEvents s.stream ++ openEvents r := by
  rw [rebuildIfDue_due now r s hp hg ho]
  have h1 := createStream_trace r (shutdownStream { s with sLastHandledErrorGen := s.sErrorGen }).2
  have h2 := shutdownStream_trace { s with sLastHandledErrorGen := s.sErrorGen }
  have h3 : (match s.stream with
      | some h => [Event.stop h, Event.close h]
      | none => []) = closeEvents s.stream := by
    cases s.stream <;> rfl
  simp only [h3] at h2
  split
  · show (createStream r _).2.trace = _
    rw [h1, h2]
  · rw [h1, h2]

theorem EnsureAlive_trace (now : Int) (r : OpenReply) (s : AudioDevice)
    (hp : (detectStuck now s).sNeedsRestart = true)
    (hg : (detectStuck now s).sErrorGen ≠ s.sLastHandledErrorGen)
    (ho : gateOpen now s = true) :
    (EnsureAlive now r s).trace = s.trace ++ closeEvents s.stream ++ openEvents r := by
  have h := rebuildIfDue_trace now r (detectStuck now s) hp
    (by rw [detectStuck_handled]; exact hg) (by rw [detectStuck_gateOpen]; exact ho)
  rw [detectStuck_trace, detectStuck_stream] at h
  exact h

/-- C23: when the rebuild's open fails inside `EnsureAlive` (a restart is pending
after the stuck check with an unhandled generation, the gate is open, and the
backend answers with an error or a null stream), then on return `sNeedsRestart` is
still true, `sErrorGen` has the value it had when the gate was evaluated (the
failed attempt mints no new generation), `sLastHandledErrorGen` equals that
generation and the stream handle is null; exactly one `openStream` call was made. -/
theorem failed_rebuild_state (now : Int) (r : OpenReply) (s : AudioDevice)
    (hp : (detectStuck now s).sNeedsRestart = true)
    (hg : (detectStuck now s).sErrorGen ≠ s.sLastHandledErrorGen)
    (ho : gateOpen now s = true)
    (hfail : ∀ h burst, r ≠ OpenReply.okStream h burst) :
    (EnsureAlive now r s).sNeedsRestart = true ∧
    (EnsureAlive now r s).sErrorGen = (detectStuck now s).sErrorGen ∧
    (EnsureAlive now r s).sLastHandledErrorGen = (detectStuck now s).sErrorGen ∧
    (EnsureAlive now r s).stream = none ∧
    (EnsureAlive now r s).trace = s.trace ++ closeEvents s.stream ++ [Event.openStream] := by
  obtain ⟨_, _, a3, a4, _, a6⟩ := EnsureAlive_performs now r s hp hg ho
  refine ⟨(a6 hfail).2.1, a4, a3, (a6 hfail).1, ?_⟩
  rw [EnsureAlive_trace now r s hp hg ho]
  cases r with
  | error c => rfl
  | okNull => rfl
  | okStream h burst => exact absurd rfl (hfail h burst)

/-- Witness for C23: the first frame of the C2 scenario, where `openStream` fails
with a restart pending and the gate open. -/
theorem failed_rebuild_state_witness :
    (EnsureAlive 1000 (OpenReply.error (-1)) c2Start).sNeedsRestart = true ∧
    (EnsureAlive 1000 (OpenReply.error (-1)) c2Start).sErrorGen
      = (detectStuck 1000 c2Start).sErrorGen ∧
    (EnsureAlive 1000 (OpenReply.error (-1)) c2Start).sLastHandledErrorGen
      = (detectStuck 1000 c2Start).sErrorGen ∧
    (EnsureAlive 1000 (OpenReply.error (-1)) c2Start).stream = none ∧
    (EnsureAlive 1000 (OpenReply.error (-1)) c2Start).trace
      = c2Start.trace ++ closeEvents c2Start.stream ++ [Event.openStream] :=
  failed_rebuild_state 1000 (OpenReply.error (-1)) c2Start (by decide) (by decide)
    (by decide) (by intro h burst; exact OpenReply.noConfusion)

/-- C25: when `sNeedsRestart` is set after the stuck check, `sErrorGen` differs from
`sLastHandledErrorGen`, all three lifecycle flags are true and
`now ≥ sDebounceUntilMs`, `EnsureAlive` records the generation as handled, closes
the current stream (a stop and a close, if one is open) and then makes exactly one
`openStream` call in that call; if the open succeeds, on return `sNeedsRestart` is
false, the stream handed out is installed and `sWarmupsRemaining` is 2 or 3. -/
theorem due_rebuild (now : Int) (r : OpenReply) (s : AudioDevice)
    (hp : (detectStuck now s).sNeedsRestart = true)
    (hg : (detectStuck now s).sErrorGen ≠ s.sLastHandledErrorGen)
    (h1 : s.sIsResumed = true) (h2 : s.sHasWindow = true) (h3 : s.sHasFocus = true)
    (h4 : now ≥ s.sDebounceUntilMs) :
    (EnsureAlive now r s).sLastHandledErrorGen = (detectStuck now s).sErrorGen ∧
    (EnsureAlive now r s).trace = s.trace ++ closeEvents s.stream ++ openEvents r ∧
    opens (EnsureAlive now r s).trace = opens s.trace + 1 ∧
    closes (EnsureAlive now r s).trace
      = closes s.trace + (if s.stream.isSome then 1 else 0) ∧
    (∀ h burst, r = OpenReply.okStream h burst →
      (EnsureAlive now r s).sNeedsRestart = false ∧
      (EnsureAlive now r s).stream = some h ∧
      ((EnsureAlive now r s).sWarmupsRemaining = 2 ∨
        (EnsureAlive now r s).sWarmupsRemaining = 3)) := by
  have ho := gateOpen_of_settled now s h1 h2 h3 h4
  obtain ⟨a1, a2, a3, _, a5, _⟩ := EnsureAlive_performs now r s hp hg ho
  refine ⟨a3, EnsureAlive_trace now r s hp hg ho, a1, a2, ?_⟩
  intro h burst hr
  obtain ⟨b1, b2, b3⟩ := a5 h burst hr
  refine ⟨b2, b1, ?_⟩
  rw [b3]
  by_cases hb : burst > 0
  · right; simp [hb]
  · left; simp [hb]

/-- Witness for C25: the restart pending after `NotifyAppForeground` at clock 0; at
clock 1000 the gate is open and the backend hands out stream 7. -/
theorem due_rebuild_witness :
    (EnsureAlive 1000 (OpenReply.okStream 7 192) c2Start).sLastHandledErrorGen = 1 ∧
    (EnsureAlive 1000 (OpenReply.okStream 7 192) c2Start).trace
      = [Event.openStream, Event.setBufferSizeInFrames 7 384, Event.requestStart 7] ∧
    (EnsureAlive 1000 (OpenReply.okStream 7 192) c2Start).sNeedsRestart = false ∧
    (EnsureAlive 1000 (OpenReply.okStream 7 192) c2Start).stream = some 7 := by
  have h := due_rebuild 1000 (OpenReply.okStream 7 192) c2Start (by decide) (by decide)
    (by decide) (by decide) (by decide) (by decide)
  exact ⟨h.1, h.2.1, (h.2.2.2.2 7 192 rfl).1, (h.2.2.2.2 7 192 rfl).2.1⟩

/-! ## C29: the status field -/

theorem Init_status (r : OpenReply) (s : AudioDevice) : (Init r s).2.status = s.status := by
  cases hs : s.stream with
  | none =>
    rw [Init_closed r s hs, createStream_status]
    by_cases hc : s.contextInitialized = 0 <;> simp [hc]
  | some h =>
    rw [Init_open r s (by simp [hs])]
    by_cases hc : s.contextInitialized = 0 <;> simp [hc]

theorem EnsureAlive_status (now : Int) (r : OpenReply) (s : AudioDevice) :
    (EnsureAlive now r s).status = s.status := by
  unfold EnsureAlive
  rw [(rebuildIfDue_flags now r (detectStuck now s)).2.2.2.2.2, detectStuck_status]

theorem onAudioReady_status (ch : Nat) (mixOut : Nat → Sample) (now : Int)
    (sp : Option Nat) (data : Option Buffer) (numFrames : Int) (s : AudioDevice) :
    (onAudioReady ch mixOut now sp data numFrames s).2.1.status = s.status := by
  cases data with
  | none => simp [onAudioReady]
  | some buf =>
    by_cases hv : sp ≠ s.stream ∨ numFrames ≤ 0
    · simp [onAudioReady, hv]
    · simp only [onAudioReady, hv, if_false]
      split
      · split <;> simp
      · simp

theorem FrameInit_ok (now : Int) (r1 r2 : OpenReply) (s : AudioDevice)
    (hs : s.status = OboeResult.OK) :
    FrameInit now r1 r2 s = some (EnsureAlive now r1 s) := by
  unfold FrameInit
  simp [EnsureAlive_status, hs]

theorem step_status (ch : Nat) (op : Op) (s s' : AudioDevice)
    (hstep : step ch op s = some s') : s'.status = s.status := by
  cases op with
  | init r =>
    have h' := (Option.some.inj hstep).symm
    subst h'
    exact Init_status r s
  | frameInit now r1 r2 =>
    rcases FrameInit_some now r1 r2 s s' hstep with h1 | ⟨hd, _, h1⟩
    · rw [h1]; exact EnsureAlive_status now r1 s
    · rw [h1, Init_status]
      exact EnsureAlive_status now r1 s
  | ensureAlive now r =>
    have h' := (Option.some.inj hstep).symm
    subst h'
    exact EnsureAlive_status now r s
  | background now =>
    have h' := (Option.some.inj hstep).symm
    subst h'
    simp [NotifyAppBackground]
  | foreground now =>
    have h' := (Option.some.inj hstep).symm
    subst h'
    rfl
  | window a now =>
    have h' := (Option.some.inj hstep).symm
    subst h'
    simp only [NotifyWindowAvailable]
    split
    · split <;> rfl
    · rfl
  | focus f now =>
    have h' := (Option.some.inj hstep).symm
    subst h'
    simp only [NotifyFocusChanged]
    split <;> rfl
  | audioReady mixOut now sp data numFrames =>
    have h' := (Option.some.inj hstep).symm
    subst h'
    exact onAudioReady_status ch mixOut now sp data numFrames s
  | errorBeforeClose =>
    have h' := (Option.some.inj hstep).symm
    subst h'
    rfl
  | errorAfterClose now =>
    have h' := (Option.some.inj hstep).symm
    subst h'
    rfl

theorem run_status (ch : Nat) (ops : List Op) :
    ∀ s s' : AudioDevice, run ch ops s = some s' → s'.status = s.status := by
  induction ops with
  | nil =>
    intro s s' h
    have h' := (Option.some.inj h).symm
    subst h'
    rfl
  | cons op ops ih =>
    intro s s' h
    simp only [run] at h
    cases hs : step ch op s with
    | none => rw [hs] at h; exact absurd h (by simp)
    | some u =>
      rw [hs] at h
      exact (ih u s' h).trans (step_status ch op s u hs)

theorem step_total (ch : Nat) (op : Op) (s : AudioDevice) (hs : s.status = OboeResult.OK) :
    ∃ s', step ch op s = some s' := by
  cases op with
  | frameInit now r1 r2 => exact ⟨_, FrameInit_ok now r1 r2 s hs⟩
  | init r => exact ⟨_, rfl⟩
  | ensureAlive now r => exact ⟨_, rfl⟩
  | background now => exact ⟨_, rfl⟩
  | foreground now => exact ⟨_, rfl⟩
  | window a now => exact ⟨_, rfl⟩
  | focus f now => exact ⟨_, rfl⟩
  | audioReady mixOut now sp data numFrames => exact ⟨_, rfl⟩
  | errorBeforeClose => exact ⟨_, rfl⟩
  | errorAfterClose now => exact ⟨_, rfl⟩

theorem run_total (ch : Nat) (ops : List Op) :
    ∀ s : AudioDevice, s.status = OboeResult.OK → ∃ s', run ch ops s = some s' := by
  induction ops with
  | nil => intro s _; exact ⟨s, rfl⟩
  | cons op ops ih =>
    intro s hs
    obtain ⟨u, hu⟩ := step_total ch op s hs
    obtain ⟨v, hv⟩ := ih u ((step_status ch op s u hu).trans hs)
    exact ⟨v, by simp only [run, hu]; exact hv⟩

/-- C29: no operation of the audio device assigns `status` (every operation that
returns leaves it as it was), so in every state reachable from the initial one
`status` is `OK`; consequently the stop/close/`Init` branch of `FrameInit`, with its
unchecked dereference of the stream handle, is never executed: in a reachable
state `FrameInit` returns exactly the state `EnsureAlive` returns, and every
sequence of operations from the initial state runs to the end. -/
theorem status_always_ok (ch : Nat) (ops : List Op) (s : AudioDevice)
    (hrun : run ch ops initial = some s) :
    s.status = OboeResult.OK ∧
    (∀ (op : Op) (s' : AudioDevice), step ch op s = some s' → s'.status = s.status) ∧
    (∀ (now : Int) (r1 r2 : OpenReply),
      FrameInit now r1 r2 s = some (EnsureAlive now r1 s)) ∧
    (∀ more : List Op, ∃ s', run ch more s = some s') := by
  have hs : s.status = OboeResult.OK := (run_status ch ops initial s hrun).trans rfl
  exact ⟨hs, fun op s' h => step_status ch op s s' h,
    fun now r1 r2 => FrameInit_ok now r1 r2 s hs, fun more => run_total ch more s hs⟩

/-- Witness for C29: after `Init` and one callback (the history of the C11 scenario)
`status` is `OK` and `FrameInit` at clock 3100 is `EnsureAlive` at clock 3100. -/
theorem status_always_ok_witness :
    c6Played.status = OboeResult.OK ∧
    FrameInit 3100 (OpenReply.okStream 2 192) (OpenReply.okStream 3 192) c6Played
      = some (EnsureAlive 3100 (OpenReply.okStream 2 192) c6Played) := by
  have h := status_always_ok 2 c11History c6Played (by decide)
  exact ⟨h.1, h.2.2.1 3100 (OpenReply.okStream 2 192) (OpenReply.okStream 3 192)⟩

/-! ## C24, C27, C28: the restart request and the warm-up counter along a run -/

theorem EnsureAlive_gen (now : Int) (r : OpenReply) (s : AudioDevice) :
    (EnsureAlive now r s).sErrorGen = s.sErrorGen + (if stuck now s then 1 else 0) := by
  unfold EnsureAlive
  rw [rebuildIfDue_gen, detectStuck_gen]

/-- What one `EnsureAlive` call does to the handled generation: either it makes no
`openStream` call and leaves `sLastHandledErrorGen` alone, or it makes exactly one
and raises `sLastHandledErrorGen` strictly, to the current `sErrorGen`. -/
theorem EnsureAlive_attempt (now : Int) (r : OpenReply) (s : AudioDevice)
    (hinv : s.sLastHandledErrorGen ≤ s.sErrorGen) :
    (opens (EnsureAlive now r s).trace = opens s.trace ∧
      (EnsureAlive now r s).sLastHandledErrorGen = s.sLastHandledErrorGen) ∨
    (opens (EnsureAlive now r s).trace = opens s.trace + 1 ∧
      s.sLastHandledErrorGen < (EnsureAlive now r s).sLastHandledErrorGen ∧
      (EnsureAlive now r s).sLastHandledErrorGen = (EnsureAlive now r s).sErrorGen) := by
  rcases rebuildIfDue_cases now r (detectStuck now s) with h | ⟨hp, hg, ho⟩
  · left
    unfold EnsureAlive
    rw [h]
    exact ⟨by rw [detectStuck_trace], detectStuck_handled now s⟩
  · right
    rw [detectStuck_handled] at hg
    rw [detectStuck_gateOpen] at ho
    obtain ⟨a1, _, a3, a4, _⟩ := EnsureAlive_performs now r s hp hg ho
    refine ⟨a1, ?_, by rw [a3, a4]⟩
    rw [a3]
    have hge : s.sErrorGen ≤ (detectStuck now s).sErrorGen := by
      rw [detectStuck_gen]; split <;> omega
    omega

/-- The pending flag is cleared by `EnsureAlive` only through a rebuild whose open
succeeds. -/
theorem EnsureAlive_clears (now : Int) (r : OpenReply) (s : AudioDevice)
    (hp : s.sNeedsRestart = true) (hc : (EnsureAlive now r s).sNeedsRestart = false) :
    opens (EnsureAlive now r s).trace = opens s.trace + 1 ∧
    (EnsureAlive now r s).stream.isSome = true := by
  have hd : (detectStuck now s).sNeedsRestart = true := by
    rw [detectStuck_pending, hp]; rfl
  rcases rebuildIfDue_cases now r (detectStuck now s) with h | ⟨_, hg, ho⟩
  · unfold EnsureAlive at hc
    rw [h, hd] at hc
    exact absurd hc (by simp)
  · rw [detectStuck_handled] at hg
    rw [detectStuck_gateOpen] at ho
    obtain ⟨a1, _, _, _, a5, a6⟩ := EnsureAlive_performs now r s hd hg ho
    cases r with
    | error c =>
      have := (a6 (by intro h b; exact OpenReply.noConfusion)).2.1
      rw [this] at hc
      exact absurd hc (by simp)
    | okNull =>
      have := (a6 (by intro h b; exact OpenReply.noConfusion)).2.1
      rw [this] at hc
      exact absurd hc (by simp)
    | okStream h burst =>
      exact ⟨a1, by rw [(a5 h burst rfl).1]; rfl⟩

/-- What one `EnsureAlive` call does to the warm-up counter: it leaves it alone, or
it makes an `openStream` call that succeeds and sets the counter to 2 or 3. -/
theorem EnsureAlive_warmups (now : Int) (r : OpenReply) (s : AudioDevice) :
    (EnsureAlive now r s).sWarmupsRemaining = s.sWarmupsRemaining ∨
    (opens (EnsureAlive now r s).trace = opens s.trace + 1 ∧
      (EnsureAlive now r s).stream.isSome = true ∧
      ((EnsureAlive now r s).sWarmupsRemaining = 2 ∨
        (EnsureAlive now r s).sWarmupsRemaining = 3)) := by
  rcases rebuildIfDue_cases now r (detectStuck now s) with h | ⟨hp, hg, ho⟩
  · left
    unfold EnsureAlive
    rw [h, detectStuck_warmups]
  · rw [detectStuck_handled] at hg
    rw [detectStuck_gateOpen] at ho
    obtain ⟨a1, _, _, _, a5, a6⟩ := EnsureAlive_performs now r s hp hg ho
    cases r with
    | error c => exact Or.inl (a6 (by intro h b; exact OpenReply.noConfusion)).2.2
    | okNull => exact Or.inl (a6 (by intro h b; exact OpenReply.noConfusion)).2.2
    | okStream h burst =>
      right
      obtain ⟨b1, _, b3⟩ := a5 h burst rfl
      refine ⟨a1, by rw [b1]; rfl, ?_⟩
      rw [b3]
      by_cases hb : burst > 0
      · right; simp [hb]
      · left; simp [hb]

/-- What `Init` does to the warm-up counter: the same alternative. -/
theorem Init_warmups (r : OpenReply) (s : AudioDevice) :
    (Init r s).2.sWarmupsRemaining = s.sWarmupsRemaining ∨
    (opens (Init r s).2.trace = opens s.trace + 1 ∧
      (Init r s).2.stream.isSome = true ∧
      ((Init r s).2.sWarmupsRemaining = 2 ∨ (Init r s).2.sWarmupsRemaining = 3)) := by
  cases hs : s.stream with
  | none =>
    rw [Init_closed r s hs]
    cases r with
    | error c =>
      left
      rw [createStream_error]
      by_cases hc : s.contextInitialized = 0 <;> simp [hc]
    | okNull =>
      left
      rw [createStream_okNull]
      by_cases hc : s.contextInitialized = 0 <;> simp [hc]
    | okStream h burst =>
      right
      obtain ⟨b1, b3⟩ := createStream_stream_okStream h burst
        (if s.contextInitialized = 0 then { s with contextInitialized := 1 } else s)
      refine ⟨?_, by rw [b1]; rfl, ?_⟩
      · rw [createStream_opens]
        by_cases hc : s.contextInitialized = 0 <;> simp [hc]
      · rw [b3]
        by_cases hb : burst > 0
        · right; simp [hb]
        · left; simp [hb]
  | some h =>
    left
    rw [Init_open r s (by simp [hs])]
    by_cases hc : s.contextInitialized = 0 <;> simp [hc]

/-- What `onAudioReady` does to the warm-up counter: it leaves it alone, or the
call is a silent one that makes no mixer call and lowers a positive counter by one. -/
theorem onAudioReady_warmups (ch : Nat) (mixOut : Nat → Sample) (now : Int)
    (sp : Option Nat) (data : Option Buffer) (numFrames : Int) (s : AudioDevice) :
    (onAudioReady ch mixOut now sp data numFrames s).2.1.sWarmupsRemaining
      = s.sWarmupsRemaining ∨
    (0 < s.sWarmupsRemaining ∧
      (onAudioReady ch mixOut now sp data numFrames s).2.1.sWarmupsRemaining
        = s.sWarmupsRemaining - 1 ∧
      (onAudioReady ch mixOut now sp data numFrames s).1 = DataCallbackResult.Continue ∧
      (onAudioReady ch mixOut now sp data numFrames s).2.1.trace = s.trace) := by
  cases data with
  | none => simp [onAudioReady]
  | some buf =>
    by_cases hv : sp ≠ s.stream ∨ numFrames ≤ 0
    · simp [onAudioReady, hv]
    · simp only [onAudioReady, hv, if_false]
      split
      · split
        · rename_i hw
          right
          exact ⟨hw, rfl, rfl, rfl⟩
        · left; rfl
      · left; rfl

theorem step_frame (ch : Nat) (op : Op) (now : Int) (s s' : AudioDevice)
    (hs : s.status = OboeResult.OK) (hf : frameClock op = some now)
    (hstep : step ch op s = some s') :
    ∃ r, s' = EnsureAlive now r s := by
  cases op with
  | frameInit t r1 r2 =>
    simp only [frameClock, Option.some.injEq] at hf
    subst hf
    simp only [step, FrameInit_ok t r1 r2 s hs, Option.some.injEq] at hstep
    exact ⟨r1, hstep.symm⟩
  | ensureAlive t r =>
    simp only [frameClock, Option.some.injEq] at hf
    subst hf
    simp only [step, Option.some.injEq] at hstep
    exact ⟨r, hstep.symm⟩
  | init r => exact absurd hf (by simp [frameClock])
  | background t => exact absurd hf (by simp [frameClock])
  | foreground t => exact absurd hf (by simp [frameClock])
  | window a t => exact absurd hf (by simp [frameClock])
  | focus f t => exact absurd hf (by simp [frameClock])
  | audioReady mixOut t sp data numFrames => exact absurd hf (by simp [frameClock])
  | errorBeforeClose => exact absurd hf (by simp [frameClock])
  | errorAfterClose t => exact absurd hf (by simp [frameClock])

/-- What an operation that is not a per-frame call does to the restart request and
to the count of `openStream` calls that matter for rebuilds. -/
theorem step_not_frame (ch : Nat) (op : Op) (s s' : AudioDevice)
    (hf : frameClock op = none) (hstep : step ch op s = some s') :
    s'.sLastHandledErrorGen = s.sLastHandledErrorGen ∧
    s'.sErrorGen = s.sErrorGen + (mintsOf op s : Int) ∧
    (s.sNeedsRestart = true → s'.sNeedsRestart = true) ∧
    (1 ≤ mintsOf op s → s'.sNeedsRestart = true) := by
  cases op with
  | frameInit t r1 r2 => exact absurd hf (by simp [frameClock])
  | ensureAlive t r => exact absurd hf (by simp [frameClock])
  | init r =>
    have h' := (Option.some.inj hstep).symm
    subst h'
    obtain ⟨h1, h2, h3⟩ := Init_restart r s
    simp [mintsOf, h1, h2, h3]
  | background t =>
    have h' := (Option.some.inj hstep).symm
    subst h'
    simp [mintsOf, NotifyAppBackground]
  | foreground t =>
    have h' := (Option.some.inj hstep).symm
    subst h'
    simp [mintsOf, NotifyAppForeground]
  | window a t =>
    have h' := (Option.some.inj hstep).symm
    subst h'
    simp only [NotifyWindowAvailable, mintsOf]
    split
    · split <;> simp
    · simp
  | focus f t =>
    have h' := (Option.some.inj hstep).symm
    subst h'
    simp only [NotifyFocusChanged, mintsOf]
    split <;> simp
  | audioReady mixOut t sp data numFrames =>
    have h' := (Option.some.inj hstep).symm
    subst h'
    obtain ⟨h1, h2, h3, _⟩ := onAudioReady_restart ch mixOut t sp data numFrames s
    simp [mintsOf, h1, h2, h3]
  | errorBeforeClose =>
    have h' := (Option.some.inj hstep).symm
    subst h'
    simp [mintsOf, onErrorBeforeClose]
  | errorAfterClose t =>
    have h' := (Option.some.inj hstep).symm
    subst h'
    simp [mintsOf, onErrorAfterClose]

theorem mintsOf_frame (op : Op) (now : Int) (s : AudioDevice)
    (hf : frameClock op = some now) :
    mintsOf op s = (if stuck now s then 1 else 0) := by
  cases op with
  | frameInit t r1 r2 =>
    simp only [frameClock, Option.some.injEq] at hf
    subst hf
    rfl
  | ensureAlive t r =>
    simp only [frameClock, Option.some.injEq] at hf
    subst hf
    rfl
  | init r => exact absurd hf (by simp [frameClock])
  | background t => exact absurd hf (by simp [frameClock])
  | foreground t => exact absurd hf (by simp [frameClock])
  | window a t => exact absurd hf (by simp [frameClock])
  | focus f t => exact absurd hf (by simp [frameClock])
  | audioReady mixOut t sp data numFrames => exact absurd hf (by simp [frameClock])
  | errorBeforeClose => exact absurd hf (by simp [frameClock])
  | errorAfterClose t => exact absurd hf (by simp [frameClock])

/-- Every operation adds to `sErrorGen` exactly the number of generations it mints. -/
theorem step_gen (ch : Nat) (op : Op) (s s' : AudioDevice)
    (hs : s.status = OboeResult.OK) (hstep : step ch op s = some s') :
    s'.sErrorGen = s.sErrorGen + (mintsOf op s : Int) := by
  cases hf : frameClock op with
  | none => exact (step_not_frame ch op s s' hf hstep).2.1
  | some now =>
    obtain ⟨r, hr⟩ := step_frame ch op now s s' hs hf hstep
    rw [hr, EnsureAlive_gen, mintsOf_frame op now s hf]
    split <;> simp

/-- Every operation either makes no rebuild attempt and leaves
`sLastHandledErrorGen` alone, or makes one and raises `sLastHandledErrorGen`
strictly, to the `sErrorGen` of its return. -/
theorem step_attempt (ch : Nat) (op : Op) (s s' : AudioDevice)
    (hs : s.status = OboeResult.OK) (hinv : s.sLastHandledErrorGen ≤ s.sErrorGen)
    (hstep : step ch op s = some s') :
    (attemptGen ch op s = none ∧ s'.sLastHandledErrorGen = s.sLastHandledErrorGen) ∨
    (attemptGen ch op s = some s'.sErrorGen ∧
      opens s'.trace = opens s.trace + 1 ∧
      s.sLastHandledErrorGen < s'.sLastHandledErrorGen ∧
      s'.sLastHandledErrorGen = s'.sErrorGen) := by
  cases hf : frameClock op with
  | none =>
    left
    exact ⟨by simp [attemptGen, hf], (step_not_frame ch op s s' hf hstep).1⟩
  | some now =>
    obtain ⟨r, hr⟩ := step_frame ch op now s s' hs hf hstep
    rcases EnsureAlive_attempt now r s hinv with ⟨h1, h2⟩ | ⟨h1, h2, h3⟩
    · left
      rw [← hr] at h1 h2
      exact ⟨by simp [attemptGen, hf, hstep, h1], h2⟩
    · right
      rw [← hr] at h1 h2 h3
      exact ⟨by simp [attemptGen, hf, hstep, h1], h1, h2, h3⟩

/-- The pending flag goes from set to clear only in a per-frame call that makes an
`openStream` call and returns with a stream installed. -/
theorem step_clears (ch : Nat) (op : Op) (s s' : AudioDevice)
    (hs : s.status = OboeResult.OK) (hstep : step ch op s = some s')
    (hp : s.sNeedsRestart = true) (hc : s'.sNeedsRestart = false) :
    (frameClock op).isSome = true ∧ opens s'.trace = opens s.trace + 1 ∧
    s'.stream.isSome = true := by
  cases hf : frameClock op with
  | none =>
    have := (step_not_frame ch op s s' hf hstep).2.2.1 hp
    rw [this] at hc
    exact absurd hc (by simp)
  | some now =>
    obtain ⟨r, hr⟩ := step_frame ch op now s s' hs hf hstep
    rw [hr] at hc ⊢
    exact ⟨rfl, EnsureAlive_clears now r s hp hc⟩

theorem run_attempts (ch : Nat) (ops : List Op) :
    ∀ s s' : AudioDevice, s.status = OboeResult.OK →
      s.sLastHandledErrorGen ≤ s.sErrorGen → run ch ops s = some s' →
      s'.sErrorGen = s.sErrorGen + (mintCount ch ops s : Int) ∧
      s.sLastHandledErrorGen + ((attemptGens ch ops s).length : Int)
        ≤ s'.sLastHandledErrorGen ∧
      (∀ g ∈ attemptGens ch ops s, s.sLastHandledErrorGen < g ∧ g ≤ s'.sLastHandledErrorGen) ∧
      List.Pairwise (fun a b => a < b) (attemptGens ch ops s) := by
  induction ops with
  | nil =>
    intro s s' _ _ h
    have h' := (Option.some.inj h).symm
    subst h'
    simp [mintCount, attemptGens]
  | cons op ops ih =>
    intro s s' hs hinv h
    simp only [run] at h
    cases hu : step ch op s with
    | none => rw [hu] at h; exact absurd h (by simp)
    | some u =>
      rw [hu] at h
      have hsu : u.status = OboeResult.OK := (step_status ch op s u hu).trans hs
      have hinvu := step_inv ch op s u hu hinv
      obtain ⟨i1, i2, i3, i4⟩ := ih u s' hsu hinvu h
      have hgen := step_gen ch op s u hs hu
      have hm : mintCount ch (op :: ops) s = mintsOf op s + mintCount ch ops u := by
        simp only [mintCount, hu]
      have ha : attemptGens ch (op :: ops) s
          = (attemptGen ch op s).toList ++ attemptGens ch ops u := by
        simp only [attemptGens, hu]
      rw [hm, ha]
      refine ⟨by push_cast; omega, ?_, ?_, ?_⟩
      · rcases step_attempt ch op s u hs hinv hu with ⟨a1, a2⟩ | ⟨a1, _, a3, _⟩
        · rw [a1]
          simp only [Option.toList, List.nil_append]
          omega
        · rw [a1]
          simp only [Option.toList, List.singleton_append, List.length_cons]
          push_cast
          omega
      · intro g hg
        rcases step_attempt ch op s u hs hinv hu with ⟨a1, a2⟩ | ⟨a1, _, a3, a4⟩
        · rw [a1] at hg
          simp only [Option.toList, List.nil_append] at hg
          obtain ⟨b1, b2⟩ := i3 g hg
          exact ⟨by omega, b2⟩
        · rw [a1] at hg
          simp only [Option.toList, List.singleton_append, List.mem_cons] at hg
          rcases hg with hg | hg
          · subst hg
            have hnn : (0 : Int) ≤ ((attemptGens ch ops u).length : Int) := Int.natCast_nonneg _
            exact ⟨by omega, by omega⟩
          · obtain ⟨b1, b2⟩ := i3 g hg
            exact ⟨by omega, b2⟩
      · rcases step_attempt ch op s u hs hinv hu with ⟨a1, a2⟩ | ⟨a1, _, a3, a4⟩
        · rw [a1]
          simpa [Option.toList] using i4
        · rw [a1]
          simp only [Option.toList, List.singleton_append, List.pairwise_cons]
          refine ⟨?_, i4⟩
          intro g hg
          have := (i3 g hg).1
          omega

/-- C24: over every sequence of operations from the initial state, each rebuild
attempt made by `EnsureAlive` strictly increases `sLastHandledErrorGen`, to the
then-current `sErrorGen` (and a call that makes no attempt leaves it alone). So the
generations at which the attempts of the sequence were made are strictly
increasing, hence distinct: at most one attempt is made for any one generation
value; and the number of attempts never exceeds the number of generations minted,
which is the value of `sErrorGen`. -/
theorem rebuild_attempts_bounded (ch : Nat) (ops : List Op) (s : AudioDevice)
    (hrun : run ch ops initial = some s) :
    List.Pairwise (fun a b => a < b) (attemptGens ch ops initial) ∧
    (attemptGens ch ops initial).Nodup ∧
    (attemptGens ch ops initial).length ≤ mintCount ch ops initial ∧
    s.sErrorGen = (mintCount ch ops initial : Int) ∧
    ((attemptGens ch ops initial).length : Int) ≤ s.sLastHandledErrorGen ∧
    s.sLastHandledErrorGen ≤ s.sErrorGen ∧
    (∀ (now : Int) (r : OpenReply),
      (opens (EnsureAlive now r s).trace = opens s.trace ∧
        (EnsureAlive now r s).sLastHandledErrorGen = s.sLastHandledErrorGen) ∨
      (opens (EnsureAlive now r s).trace = opens s.trace + 1 ∧
        s.sLastHandledErrorGen < (EnsureAlive now r s).sLastHandledErrorGen ∧
        (EnsureAlive now r s).sLastHandledErrorGen = (EnsureAlive now r s).sErrorGen)) := by
  obtain ⟨h1, h2, _, h4⟩ := run_attempts ch ops initial s rfl (by decide) hrun
  have hinv : s.sLastHandledErrorGen ≤ s.sErrorGen :=
    run_inv ch ops initial s hrun (by decide)
  have hg0 : initial.sErrorGen = 0 := rfl
  have hh0 : initial.sLastHandledErrorGen = 0 := rfl
  rw [hg0] at h1
  rw [hh0] at h2
  refine ⟨h4, ?_, ?_, by omega, by omega, hinv, fun now r => EnsureAlive_attempt now r s hinv⟩
  · exact h4.imp (fun hab => ne_of_lt hab)
  · have : ((attemptGens ch ops initial).length : Int) ≤ (mintCount ch ops initial : Int) := by
      omega
    exact_mod_cast this

/-- Witness for C24: in the scenario `c24Ops` two generations are minted (by
`NotifyAppForeground` and by `onErrorAfterClose`) and two rebuild attempts are
made, at the generations 1 and 2. -/
theorem rebuild_attempts_bounded_witness :
    attemptGens 2 c24Ops initial = [1, 2] ∧ mintCount 2 c24Ops initial = 2 ∧
    (attemptGens 2 c24Ops initial).Nodup ∧
    (attemptGens 2 c24Ops initial).length ≤ mintCount 2 c24Ops initial := by
  have h := rebuild_attempts_bounded 2 c24Ops c24Final (by decide)
  exact ⟨by decide, by decide, h.2.1, h.2.2.1⟩

theorem mintsOf_le_one (op : Op) (s : AudioDevice) : mintsOf op s ≤ 1 := by
  cases op <;> simp only [mintsOf] <;> first | omega | (split <;> omega)

/-- What every operation does to the warm-up counter: it leaves it alone, or it
makes an `openStream` call that succeeds and sets it to 2 or 3, or it is a silent
callback that lowers a positive counter by one. -/
theorem step_warmups (ch : Nat) (op : Op) (s s' : AudioDevice)
    (hs : s.status = OboeResult.OK) (hstep : step ch op s = some s') :
    s'.sWarmupsRemaining = s.sWarmupsRemaining ∨
    (opens s'.trace = opens s.trace + 1 ∧ s'.stream.isSome = true ∧
      (s'.sWarmupsRemaining = 2 ∨ s'.sWarmupsRemaining = 3)) ∨
    (isCallback op = true ∧ 0 < s.sWarmupsRemaining ∧
      s'.sWarmupsRemaining = s.sWarmupsRemaining - 1 ∧ s'.trace = s.trace) := by
  cases op with
  | init r =>
    have h' := (Option.some.inj hstep).symm
    subst h'
    rcases Init_warmups r s with h | h
    · exact Or.inl h
    · exact Or.inr (Or.inl h)
  | frameInit now r1 r2 =>
    obtain ⟨r, hr⟩ := step_frame ch (Op.frameInit now r1 r2) now s s' hs rfl hstep
    rw [hr]
    rcases EnsureAlive_warmups now r s with h | h
    · exact Or.inl h
    · exact Or.inr (Or.inl h)
  | ensureAlive now r0 =>
    obtain ⟨r, hr⟩ := step_frame ch (Op.ensureAlive now r0) now s s' hs rfl hstep
    rw [hr]
    rcases EnsureAlive_warmups now r s with h | h
    · exact Or.inl h
    · exact Or.inr (Or.inl h)
  | background now =>
    have h' := (Option.some.inj hstep).symm
    subst h'
    left
    simp [NotifyAppBackground]
  | foreground now =>
    have h' := (Option.some.inj hstep).symm
    subst h'
    exact Or.inl rfl
  | window a now =>
    have h' := (Option.some.inj hstep).symm
    subst h'
    left
    simp only [NotifyWindowAvailable]
    split
    · split <;> rfl
    · rfl
  | focus f now =>
    have h' := (Option.some.inj hstep).symm
    subst h'
    left
    simp only [NotifyFocusChanged]
    split <;> rfl
  | audioReady mixOut now sp data numFrames =>
    have h' := (Option.some.inj hstep).symm
    subst h'
    rcases onAudioReady_warmups ch mixOut now sp data numFrames s with h | ⟨h1, h2, _, h4⟩
    · exact Or.inl h
    · exact Or.inr (Or.inr ⟨rfl, h1, h2, h4⟩)
  | errorBeforeClose =>
    have h' := (Option.some.inj hstep).symm
    subst h'
    exact Or.inl rfl
  | errorAfterClose now =>
    have h' := (Option.some.inj hstep).symm
    subst h'
    exact Or.inl rfl

/-- C27: across every sequence of operations from the initial state (integers
unbounded), for every further operation: `sErrorGen` does not decrease and grows by
exactly the number of generations the operation mints, which is 0 or 1;
`NotifyAppForeground` and `onErrorAfterClose` each add exactly one and set
`sNeedsRestart`, and so does a stuck detection in a per-frame call; `sNeedsRestart`
goes from set to clear only in a per-frame call that makes an `openStream` call and
returns with a stream installed (a successful rebuild); and
`sLastHandledErrorGen ≤ sErrorGen` holds before and after. `sErrorGen` equals the
number of generations minted so far. -/
theorem restart_request_invariants (ch : Nat) (ops : List Op) (s : AudioDevice) (op : Op)
    (s' : AudioDevice)
    (hrun : run ch ops initial = some s) (hstep : step ch op s = some s') :
    s.sErrorGen ≤ s'.sErrorGen ∧
    s'.sErrorGen = s.sErrorGen + (mintsOf op s : Int) ∧
    mintsOf op s ≤ 1 ∧
    (∀ t, op = Op.foreground t →
      s'.sErrorGen = s.sErrorGen + 1 ∧ s'.sNeedsRestart = true) ∧
    (∀ t, op = Op.errorAfterClose t →
      s'.sErrorGen = s.sErrorGen + 1 ∧ s'.sNeedsRestart = true) ∧
    (∀ now, frameClock op = some now → stuck now s = true →
      (detectStuck now s).sErrorGen = s.sErrorGen + 1 ∧
      (detectStuck now s).sNeedsRestart = true ∧
      s'.sErrorGen = s.sErrorGen + 1) ∧
    (s.sNeedsRestart = true → s'.sNeedsRestart = false →
      (frameClock op).isSome = true ∧ opens s'.trace = opens s.trace + 1 ∧
      s'.stream.isSome = true) ∧
    s.sLastHandledErrorGen ≤ s.sErrorGen ∧
    s'.sLastHandledErrorGen ≤ s'.sErrorGen ∧
    s.sErrorGen = (mintCount ch ops initial : Int) := by
  have hs : s.status = OboeResult.OK := (run_status ch ops initial s hrun).trans rfl
  have hinv : s.sLastHandledErrorGen ≤ s.sErrorGen :=
    run_inv ch ops initial s hrun (by decide)
  have hgen := step_gen ch op s s' hs hstep
  obtain ⟨h1, _⟩ := run_attempts ch ops initial s rfl (by decide) hrun
  have hg0 : initial.sErrorGen = 0 := rfl
  rw [hg0] at h1
  refine ⟨by omega, hgen, mintsOf_le_one op s, ?_, ?_, ?_,
    step_clears ch op s s' hs hstep, hinv, step_inv ch op s s' hstep hinv, by omega⟩
  · intro t ht
    subst ht
    have h' := (Option.some.inj hstep).symm
    subst h'
    exact ⟨rfl, rfl⟩
  · intro t ht
    subst ht
    have h' := (Option.some.inj hstep).symm
    subst h'
    exact ⟨rfl, rfl⟩
  · intro now hf hst
    refine ⟨by rw [detectStuck_gen, hst]; simp, by rw [detectStuck_pending, hst]; simp, ?_⟩
    rw [hgen, mintsOf_frame op now s hf, hst]
    simp

/-- Witness for C27: after the first five operations of the scenario `c24Ops`, the
per-frame call at clock 2000 rebuilds successfully and clears the pending flag. -/
theorem restart_request_invariants_witness :
    ((run 2 (c24Ops.take 5) initial).getD initial).sErrorGen ≤ c24Final.sErrorGen ∧
    c24Final.sLastHandledErrorGen ≤ c24Final.sErrorGen ∧
    ((run 2 (c24Ops.take 5) initial).getD initial).sErrorGen = 2 := by
  have h := restart_request_invariants 2 (c24Ops.take 5)
    ((run 2 (c24Ops.take 5) initial).getD initial)
    (Op.frameInit 2000 (OpenReply.okStream 3 0) OpenReply.okNull) c24Final
    (by decide) (by decide)
  exact ⟨h.1, h.2.2.2.2.2.2.2.2.1, by decide⟩

/-- C28: in every state reachable from the initial state by a sequence of `Init`,
`FrameInit`, `EnsureAlive`, notifications, `onAudioReady` and error callbacks,
`0 ≤ sWarmupsRemaining ≤ 3`. Every further operation leaves the counter alone, or
makes an `openStream` call that succeeds (the counter is then 2 or 3), or is a
silent callback, which lowers a positive counter by exactly one; so the counter is
raised only by a successful stream open and never goes below zero. -/
theorem warmup_counter_invariants (ch : Nat) (ops : List Op) (s : AudioDevice) (op : Op)
    (s' : AudioDevice)
    (hrun : run ch ops initial = some s) (hstep : step ch op s = some s') :
    0 ≤ s.sWarmupsRemaining ∧ s.sWarmupsRemaining ≤ 3 ∧
    0 ≤ s'.sWarmupsRemaining ∧ s'.sWarmupsRemaining ≤ 3 ∧
    (s'.sWarmupsRemaining = s.sWarmupsRemaining ∨
      (opens s'.trace = opens s.trace + 1 ∧ s'.stream.isSome = true ∧
        (s'.sWarmupsRemaining = 2 ∨ s'.sWarmupsRemaining = 3)) ∨
      (isCallback op = true ∧ 0 < s.sWarmupsRemaining ∧
        s'.sWarmupsRemaining = s.sWarmupsRemaining - 1 ∧ s'.trace = s.trace)) ∧
    (s.sWarmupsRemaining < s'.sWarmupsRemaining →
      opens s'.trace = opens s.trace + 1 ∧ s'.stream.isSome = true) := by
  have hs : s.status = OboeResult.OK := (run_status ch ops initial s hrun).trans rfl
  have hw := run_warmups_bounds ch ops initial s hrun (by decide)
  have hw' := step_warmups_bounds ch op s s' hstep hw
  have halt := step_warmups ch op s s' hs hstep
  refine ⟨hw.1, hw.2, hw'.1, hw'.2, halt, ?_⟩
  intro hlt
  rcases halt with h | ⟨h1, h2, _⟩ | ⟨_, _, h3, _⟩
  · omega
  · exact ⟨h1, h2⟩
  · omega

/-- Witness for C28: in the scenario `c24Ops` the last operation, the rebuild at
clock 2000 answered with a stream of unknown burst size, raises the counter from
0 to 2. -/
theorem warmup_counter_invariants_witness :
    0 ≤ c24Final.sWarmupsRemaining ∧ c24Final.sWarmupsRemaining ≤ 3 ∧
    c24Final.sWarmupsRemaining = 2 ∧
    opens c24Final.trace = opens ((run 2 (c24Ops.take 5) initial).getD initial).trace + 1 := by
  have h := warmup_counter_invariants 2 (c24Ops.take 5)
    ((run 2 (c24Ops.take 5) initial).getD initial)
    (Op.frameInit 2000 (OpenReply.okStream 3 0) OpenReply.okNull) c24Final
    (by decide) (by decide)
  exact ⟨h.2.2.1, h.2.2.2.1, by decide, (h.2.2.2.2.2 (by decide)).1⟩

/-! ## C3, amended: one rebuild for the deduplicated signals -/

/-- After a rebuild attempt (flag clear, or generation handled), the later calls
make exactly one further `openStream` call for each `EnsureAlive` among them whose
stuck detection fires, and none otherwise. -/
theorem laterFrames_opens (ch : Nat) (ops : List Op) :
    ∀ (u s2 : AudioDevice) (k : Nat), laterFrames ch ops u = some (s2, k) →
      (u.sNeedsRestart = false ∨ u.sErrorGen = u.sLastHandledErrorGen) →
      u.sLastHandledErrorGen ≤ u.sErrorGen →
      opens s2.trace = opens u.trace + k ∧ closes s2.trace ≤ closes u.trace + k := by
  induction ops with
  | nil =>
    intro u s2 k h _ _
    simp only [laterFrames, Option.some.injEq, Prod.mk.injEq] at h
    obtain ⟨h1, h2⟩ := h
    subst h1 h2
    exact ⟨rfl, le_refl _⟩
  | cons op ops ih =>
    intro u s2 k h hdone hinv
    cases op with
    | ensureAlive now r =>
      simp only [laterFrames] at h
      split at h
      · rename_i hgate
        cases hr : laterFrames ch ops (EnsureAlive now r u) with
        | none => rw [hr] at h; exact absurd h (by simp)
        | some p =>
          obtain ⟨s', k'⟩ := p
          rw [hr] at h
          simp only [Option.some.injEq, Prod.mk.injEq] at h
          obtain ⟨h1, h2⟩ := h
          subst h1 h2
          by_cases hst : stuck now u = true
          · have hp : (detectStuck now u).sNeedsRestart = true := by
              rw [detectStuck_pending, hst]; simp
            have hgen : (detectStuck now u).sErrorGen = u.sErrorGen + 1 := by
              rw [detectStuck_gen, hst]; simp
            obtain ⟨a1, a2, a3, a4, _⟩ := EnsureAlive_performs now r u hp
              (by rw [hgen]; omega) hgate
            obtain ⟨b1, b2⟩ := ih (EnsureAlive now r u) s' k' hr
              (Or.inr (by rw [a3, a4])) (by rw [a3, a4])
            have hcl : closes (EnsureAlive now r u).trace ≤ closes u.trace + 1 := by
              rw [a2]; split <;> omega
            simp only [hst, if_true]
            exact ⟨by omega, by omega⟩
          · have hns : stuck now u = false := by simpa using hst
            have he : EnsureAlive now r u = u := by
              unfold EnsureAlive
              rw [detectStuck_of_not_stuck now u hns, rebuildIfDue_idle now r u hdone]
            rw [he] at hr
            obtain ⟨b1, b2⟩ := ih u s' k' hr hdone hinv
            simp only [hns, Bool.false_eq_true, if_false]
            exact ⟨by omega, by omega⟩
      · exact absurd h (by simp)
    | audioReady mixOut t sp data numFrames =>
      simp only [laterFrames] at h
      obtain ⟨h1, h2, h3, h4, h5⟩ := onAudioReady_restart ch mixOut t sp data numFrames u
      have := ih _ s2 k h (by rw [h1, h2, h3]; exact hdone) (by rw [h2, h3]; exact hinv)
      rw [h4, h5] at this
      exact this
    | init r => exact absurd h (by simp [laterFrames])
    | frameInit now r1 r2 => exact absurd h (by simp [laterFrames])
    | background now => exact absurd h (by simp [laterFrames])
    | foreground now => exact absurd h (by simp [laterFrames])
    | window a now => exact absurd h (by simp [laterFrames])
    | focus f now => exact absurd h (by simp [laterFrames])
    | errorBeforeClose => exact absurd h (by simp [laterFrames])
    | errorAfterClose now => exact absurd h (by simp [laterFrames])

/-- With a restart pending and its generation unhandled, the calls made once the
gate has opened make one `openStream` call for the pending request, in the first
`EnsureAlive`, and one more for each later `EnsureAlive` whose stuck detection
fires. -/
theorem gateOpenPhase_opens (ch : Nat) (ops : List Op) :
    ∀ (u s2 : AudioDevice) (k : Nat), gateOpenPhase ch ops u = some (s2, k) →
      u.sNeedsRestart = true → u.sLastHandledErrorGen < u.sErrorGen →
      opens s2.trace = opens u.trace + 1 + k ∧ closes s2.trace ≤ closes u.trace + 1 + k := by
  induction ops with
  | nil =>
    intro u s2 k h _ _
    exact absurd h (by simp [gateOpenPhase])
  | cons op ops ih =>
    intro u s2 k h hp hlt
    cases op with
    | ensureAlive now r =>
      simp only [gateOpenPhase] at h
      split at h
      · rename_i hgate
        have hp' : (detectStuck now u).sNeedsRestart = true := by
          rw [detectStuck_pending, hp]; rfl
        have hge : u.sErrorGen ≤ (detectStuck now u).sErrorGen := by
          rw [detectStuck_gen]; split <;> omega
        obtain ⟨a1, a2, a3, a4, _⟩ := EnsureAlive_performs now r u hp' (by omega) hgate
        obtain ⟨b1, b2⟩ := laterFrames_opens ch ops (EnsureAlive now r u) s2 k h
          (Or.inr (by rw [a3, a4])) (by rw [a3, a4])
        have hcl : closes (EnsureAlive now r u).trace ≤ closes u.trace + 1 := by
          rw [a2]; split <;> omega
        exact ⟨by omega, by omega⟩
      · exact absurd h (by simp)
    | audioReady mixOut t sp data numFrames =>
      simp only [gateOpenPhase] at h
      obtain ⟨h1, h2, h3, h4, h5⟩ := onAudioReady_restart ch mixOut t sp data numFrames u
      have := ih _ s2 k h (by rw [h1]; exact hp) (by rw [h2, h3]; exact hlt)
      rw [h4, h5] at this
      exact this
    | init r => exact absurd h (by simp [gateOpenPhase])
    | frameInit now r1 r2 => exact absurd h (by simp [gateOpenPhase])
    | background now => exact absurd h (by simp [gateOpenPhase])
    | foreground now => exact absurd h (by simp [gateOpenPhase])
    | window a now => exact absurd h (by simp [gateOpenPhase])
    | focus f now => exact absurd h (by simp [gateOpenPhase])
    | errorBeforeClose => exact absurd h (by simp [gateOpenPhase])
    | errorAfterClose now => exact absurd h (by simp [gateOpenPhase])

/-- C3, amended: from any state reachable from the initial one, if `N ≥ 1` error
signals (`onErrorAfterClose` calls or stuck detections) arrive during operations in
which every per-frame call meets a closed gate, then over all `EnsureAlive` calls
made afterwards with the gate open (three flags true, clock at or past the
deadline), with real-time callbacks but no error callback or notification among
them, exactly one rebuild attempt is performed for those `N` signals, for every
`N`, whether or not the first of these calls itself detects the stuck stream again;
each later `EnsureAlive` call that detects a stuck stream adds exactly one further
attempt. So the number of `openStream` calls is `1 + k`, with `k` the number of
later stuck detections, and exactly one when there is none; the `close` calls are
at most as many. -/
theorem one_rebuild_after_gate_opens (ch : Nat) (history pre post : List Op)
    (s0 s1 s2 : AudioDevice) (N k : Nat)
    (hreach : run ch history initial = some s0)
    (hpre : closedPhase ch pre s0 = some (s1, N))
    (hN : 1 ≤ N)
    (hpost : gateOpenPhase ch post s1 = some (s2, k)) :
    opens s2.trace = opens s1.trace + 1 + k ∧ closes s2.trace ≤ closes s1.trace + 1 + k ∧
    (k = 0 → opens s2.trace = opens s1.trace + 1 ∧ closes s2.trace ≤ closes s1.trace + 1) := by
  have hinv : s0.sLastHandledErrorGen ≤ s0.sErrorGen :=
    run_inv ch history initial s0 hreach (by decide)
  obtain ⟨h1, h2, _, h4⟩ := closedPhase_restart ch pre s0 s1 N hpre
  have hp : s1.sNeedsRestart = true := h4 hN
  have hlt : s1.sLastHandledErrorGen < s1.sErrorGen := by
    rw [h1]
    have : (1 : Int) ≤ (N : Int) := by exact_mod_cast hN
    omega
  obtain ⟨a1, a2⟩ := gateOpenPhase_opens ch post s1 s2 k hpost hp hlt
  refine ⟨a1, a2, ?_⟩
  intro hk
  subst hk
  exact ⟨a1, a2⟩

/-- Witness for C3 (amended): three signals arrive while the focus is lost (two
stuck detections and one `onErrorAfterClose`); once the gate has opened the first
`EnsureAlive`, at clock 3500, detects the stuck stream a fourth time and rebuilds,
and the calls at clocks 3516 and 3532 make no further attempt: one `openStream`
call and one `close` in all. -/
theorem one_rebuild_after_gate_opens_witness :
    closedPhase 2 c3StuckSignals initial = some (c3StuckPending, 3) ∧
    stuck 3500 c3StuckPending = true ∧
    gateOpenPhase 2 c3StuckFrames c3StuckPending = some (c3StuckFinal, 0) ∧
    opens c3StuckFinal.trace = opens c3StuckPending.trace + 1 ∧
    closes c3StuckFinal.trace ≤ closes c3StuckPending.trace + 1 := by
  have h := one_rebuild_after_gate_opens 2 [] c3StuckSignals c3StuckFrames initial
    c3StuckPending c3StuckFinal 3 0 (by decide) (by decide) (by decide) (by decide)
  exact ⟨by decide, by decide, by decide, (h.2.2 rfl).1, (h.2.2 rfl).2⟩

/-! ## C14, amended: `FrameInit` only runs `EnsureAlive` -/

end AudioDevice

namespace Touch

/-! ## C30: the touch handler -/

/-- C30, the code at the failing input: a `DOWN` event with the finger index -1 is
not ignored (the handler only rejects indices above `0x10`): it writes the slots
`x[-1]`, `y[-1]` and `down[-1]`, outside the range `0 .. 0x10`, and leaves a slot
marked down that is not below the count. -/
theorem nativeOnTouch_negative_finger_written :
    c30Negative.accessed = [-1, -1, -1] ∧ c30Negative.down (-1) = true ∧
    c30Negative.x (-1) = 10 ∧ c30Negative.y (-1) = 20 ∧ c30Negative.count = 0 := by
  decide

/-! ## The touch handler on finger indices that are not negative -/

theorem releaseScan_spec (down : Int → Bool) (n : Nat) :
    (releaseScan down n).1 ≤ n ∧
    (0 < (releaseScan down n).1 → down (((releaseScan down n).1 : Int) - 1) = true) ∧
    (∀ i : Int, ((releaseScan down n).1 : Int) ≤ i → i < (n : Int) → down i = false) ∧
    (∀ i ∈ (releaseScan down n).2, 0 ≤ i ∧ i < (n : Int)) := by
  induction n with
  | zero =>
    refine ⟨by simp [releaseScan], by simp [releaseScan], ?_, by simp [releaseScan]⟩
    intro i h1 h2
    simp [releaseScan] at h1
    omega
  | succ n ih =>
    obtain ⟨i1, i2, i3, i4⟩ := ih
    by_cases hd : down (n : Int) = true
    · simp only [releaseScan, hd, if_true]
      refine ⟨le_refl _, ?_, ?_, ?_⟩
      · intro _
        simpa using hd
      · intro i h1 h2
        omega
      · intro i hi
        simp only [List.mem_singleton] at hi
        subst hi
        push_cast
        omega
    · simp only [releaseScan, hd]
      refine ⟨by simp only [Bool.false_eq_true, if_false]; omega, ?_, ?_, ?_⟩
      · simpa using i2
      · intro i h1 h2
        simp only [Bool.false_eq_true, if_false] at h1
        by_cases hin : i = (n : Int)
        · subst hin
          simpa using hd
        · exact i3 i h1 (by push_cast at h2; omega)
      · intro i hi
        simp only [Bool.false_eq_true, if_false, List.mem_cons] at hi
        rcases hi with hi | hi
        · subst hi
          push_cast
          omega
        · have := i4 i hi
          push_cast
          omega

/-- The facts the handler keeps when the finger index is not negative: the count
tracks the highest slot marked down, it is at most `0x11`, and every slot accessed
so far lies in `0 .. 0x10`. -/
theorem nativeOnTouch_keeps (finger action : Int) (x y : Coord) (t : TouchInfo)
    (hf : 0 ≤ finger)
    (hc : CountTracksHighest t) (hn : t.count ≤ 0x11)
    (ha : ∀ i ∈ t.accessed, 0 ≤ i ∧ i ≤ 0x10) :
    CountTracksHighest (nativeOnTouch finger action x y t) ∧
    (nativeOnTouch finger action x y t).count ≤ 0x11 ∧
    (∀ i ∈ (nativeOnTouch finger action x y t).accessed, 0 ≤ i ∧ i ≤ 0x10) := by
  obtain ⟨c1, c2⟩ := hc
  by_cases hbig : finger > 0x10
  · simp only [nativeOnTouch, hbig, if_true]
    exact ⟨⟨c1, c2⟩, hn, ha⟩
  · have hle : finger ≤ 0x10 := by omega
    by_cases hdown : action = AMOTION_EVENT_ACTION_DOWN ∨ action = AMOTION_EVENT_ACTION_MOVE
        ∨ action = AMOTION_EVENT_ACTION_POINTER_DOWN
    · by_cases hlt : (t.count : Int) < finger + 1
      · simp only [nativeOnTouch, hbig, if_false, hdown, if_true, hlt]
        refine ⟨⟨?_, ?_⟩, ?_, ?_⟩
        · intro i hi
          try dsimp only at hi
          by_cases hif : i = finger
          · subst hif
            simp only [Int.toNat_of_nonneg (by omega : (0 : Int) ≤ i + 1)]
            omega
          · simp only [hif, if_false] at hi
            have := c1 i hi
            simp only [Int.toNat_of_nonneg (by omega : (0 : Int) ≤ finger + 1)]
            omega
        · intro _
          simp only [Int.toNat_of_nonneg (by omega : (0 : Int) ≤ finger + 1)]
          simp
        · dsimp only
          omega
        · intro i hi
          simp only [List.append_assoc, List.mem_append, List.mem_singleton] at hi
          rcases hi with hi | hi | hi | hi
          · exact ha i hi
          · omega
          · omega
          · omega
      · simp only [nativeOnTouch, hbig, if_false, hdown, if_true, hlt]
        refine ⟨⟨?_, ?_⟩, hn, ?_⟩
        · intro i hi
          try dsimp only at hi
          by_cases hif : i = finger
          · subst hif
            dsimp only
            omega
          · simp only [hif, if_false] at hi
            exact c1 i hi
        · intro hpos
          try dsimp only
          by_cases hif : (t.count : Int) - 1 = finger
          · simp [hif]
          · simp only [hif, if_false]
            exact c2 hpos
        · intro i hi
          simp only [List.append_assoc, List.mem_append, List.mem_singleton] at hi
          rcases hi with hi | hi | hi | hi
          · exact ha i hi
          · omega
          · omega
          · omega
    · by_cases hge : (t.count : Int) ≥ finger + 1
      · obtain ⟨s1, s2, s3, s4⟩ := releaseScan_spec
          (fun i => if i = finger then false else t.down i) t.count
        simp only [nativeOnTouch, hbig, if_false, hdown, hge, if_true]
        refine ⟨⟨?_, ?_⟩, by omega, ?_⟩
        · intro i hi
          try dsimp only at hi
          by_cases hif : i = finger
          · simp [hif] at hi
          · have hi' := hi
            simp only [hif, if_false] at hi'
            obtain ⟨b1, b2⟩ := c1 i hi'
            refine ⟨b1, ?_⟩
            by_contra hnot
            dsimp only at hnot
            have := s3 i (by omega) b2
            try dsimp only at this
            rw [this] at hi
            exact absurd hi (by simp)
        · intro hpos
          exact s2 hpos
        · intro i hi
          simp only [List.mem_append, List.mem_singleton] at hi
          rcases hi with (hi | hi) | hi
          · exact ha i hi
          · omega
          · have := s4 i hi
            omega
      · simp only [nativeOnTouch, hbig, if_false, hdown, hge]
        refine ⟨⟨?_, ?_⟩, hn, ?_⟩
        · intro i hi
          try dsimp only at hi
          by_cases hif : i = finger
          · simp [hif] at hi
          · simp only [hif, if_false] at hi
            exact c1 i hi
        · intro hpos
          try dsimp only
          have hif : ¬ ((t.count : Int) - 1 = finger) := by omega
          simp only [hif, if_false]
          exact c2 hpos
        · intro i hi
          simp only [List.mem_append, List.mem_singleton] at hi
          rcases hi with hi | hi
          · exact ha i hi
          · omega

/-- The part of C30 that holds: starting from the empty touch state, after any
sequence of `nativeOnTouch` events whose finger indices are not negative, every
slot the handler has read or written has an index in `0 .. 0x10` (events with a
finger index above `0x10` change nothing), and `touchInfo.count` is one more than
the highest slot marked down, or 0 when none is. -/
theorem handleAll_count_tracks_highest (es : List TouchEvent) :
    ∀ t : TouchInfo, (∀ e ∈ es, 0 ≤ e.finger) →
      CountTracksHighest t → t.count ≤ 0x11 → (∀ i ∈ t.accessed, 0 ≤ i ∧ i ≤ 0x10) →
      CountTracksHighest (handleAll es t) ∧ (handleAll es t).count ≤ 0x11 ∧
      (∀ i ∈ (handleAll es t).accessed, 0 ≤ i ∧ i ≤ 0x10) := by
  induction es with
  | nil => intro t _ hc hn ha; exact ⟨hc, hn, ha⟩
  | cons e es ih =>
    intro t hf hc hn ha
    obtain ⟨k1, k2, k3⟩ := nativeOnTouch_keeps e.finger e.action e.x e.y t
      (hf e (List.mem_cons_self _ _)) hc hn ha
    exact ih _ (fun e' he' => hf e' (List.mem_cons_of_mem _ he')) k1 k2 k3

end Touch

end RSDK
